import Mathlib

/-!
# GB28181 device agent: digest authentication, SIP message codec and media sessions

A shallow embedding of the device-side protocol engine (`src/utils/md5.cpp`,
`3rd/osip/src/osip_parser.c`, `3rd/exosip/src/eXosip.c`, `src/sip/sip_manager.cpp`,
`src/sip/media_session.cpp`, `src/sip/sdp_negotiator.cpp`, `src/device/ptz_controller.cpp`,
`src/utils/xml_parser.cpp`, `src/device/alarm_manager.cpp`, `src/device/device_manager.cpp`,
`src/device/record_manager.cpp`) together with the properties proved about it.

Conventions of the embedding.

* `uint8_t` and `uint32_t` values are natural numbers; every operation that can leave the
  range of its C++ type is followed by an explicit reduction modulo `2 ^ 8` or `2 ^ 32`.
  `int` values are integers; an `int` addition that overflows is undefined.
* A `std::string` or C string is a `String` whose characters stand for octets: the `char`
  of value `n` is the character of code point `n`, so that length, prefix and substring
  are those of the octet sequence (`bytes`).  A `char *` that may be null is an
  `Option String`.
* A member function that mutates its object takes the object and returns the new one.
  A call whose C++ behaviour is undefined or that does not return yields `none`.
* `stream << n` for an `int` writes the decimal numeral of `n` (`toString`); reading a
  stream with `std::getline` gives the pieces between line feeds (`getlines`).
* A function-local `static` variable belongs to the process and not to an object: a member
  function with one takes its value before the call and returns its value after it.  The
  value is `none` as long as no call of the process has run the initialiser.
* A function that an exception can leave returns an `Except` whose error is the exception.
  A loop that need not end takes a number of rounds `fuel` and yields `none` when the
  rounds are used up before it ends.
* A `std::map` is a finite map with one entry per key (`AList`); a loop over a map with
  string keys meets the entries by increasing key (`traverse`).  `std::sort` is a sort that
  keeps the order of equivalent elements (`std_sort`), an order the C++ standard leaves open.
-/

namespace gb28181

/-! ## MD5 (`src/utils/md5.cpp`) -/

/-- The padding block `PADDING[64]`: one `0x80` followed by 63 zero octets. -/
def PADDING : List Nat := 0x80 :: List.replicate 63 0

/-- Macro `F(x, y, z) = (x & y) | (~x & z)` on 32-bit words. -/
def F (x y z : Nat) : Nat := (x &&& y) ||| ((x ^^^ 0xFFFFFFFF) &&& z)

/-- Macro `G(x, y, z) = (x & z) | (y & ~z)` on 32-bit words. -/
def G (x y z : Nat) : Nat := (x &&& z) ||| (y &&& (z ^^^ 0xFFFFFFFF))

/-- Macro `H(x, y, z) = x ^ y ^ z`. -/
def H (x y z : Nat) : Nat := x ^^^ y ^^^ z

/-- Macro `I(x, y, z) = y ^ (x | ~z)` on 32-bit words. -/
def I (x y z : Nat) : Nat := y ^^^ (x ||| (z ^^^ 0xFFFFFFFF))

/-- Macro `ROTATE_LEFT(x, n) = (x << n) | (x >> (32 - n))` on a 32-bit word. -/
def ROTATE_LEFT (x n : Nat) : Nat := ((x <<< n) % 2 ^ 32) ||| (x >>> (32 - n))

/-- Macro `FF`: `a += F(b, c, d) + x + ac; a = ROTATE_LEFT(a, s); a += b;` in `uint32_t`. -/
def FF (a b c d x s ac : Nat) : Nat :=
  (ROTATE_LEFT ((a + (F b c d + x + ac)) % 2 ^ 32) s + b) % 2 ^ 32

/-- Macro `GG`, as `FF` with `G`. -/
def GG (a b c d x s ac : Nat) : Nat :=
  (ROTATE_LEFT ((a + (G b c d + x + ac)) % 2 ^ 32) s + b) % 2 ^ 32

/-- Macro `HH`, as `FF` with `H`. -/
def HH (a b c d x s ac : Nat) : Nat :=
  (ROTATE_LEFT ((a + (H b c d + x + ac)) % 2 ^ 32) s + b) % 2 ^ 32

/-- Macro `II`, as `FF` with `I`. -/
def II (a b c d x s ac : Nat) : Nat :=
  (ROTATE_LEFT ((a + (I b c d + x + ac)) % 2 ^ 32) s + b) % 2 ^ 32

/-- `MD5::Encode`: `len / 4` words of `input` written as `len` octets, least significant
octet first. -/
def Encode (input : List Nat) (len : Nat) : List Nat :=
  (List.range (len / 4)).flatMap fun i =>
    [ input.getD i 0 &&& 0xFF,
      (input.getD i 0 >>> 8) &&& 0xFF,
      (input.getD i 0 >>> 16) &&& 0xFF,
      (input.getD i 0 >>> 24) &&& 0xFF ]

/-- `MD5::Decode`: `len` octets of `input` read as `len / 4` little-endian 32-bit words.
The elements of `input` are `uint8_t`, hence taken modulo 256. -/
def Decode (input : List Nat) (len : Nat) : List Nat :=
  (List.range (len / 4)).map fun i =>
    let j := 4 * i
    (input.getD j 0 % 256) |||
    ((input.getD (j + 1) 0 % 256) <<< 8) |||
    ((input.getD (j + 2) 0 % 256) <<< 16) |||
    ((input.getD (j + 3) 0 % 256) <<< 24)

/-- `MD5::Transform`: the compression function applied to `state_` and one 64-octet block;
the result is the new `state_`. -/
def Transform (state : List Nat) (block : List Nat) : List Nat :=
  let a := state.getD 0 0
  let b := state.getD 1 0
  let c := state.getD 2 0
  let d := state.getD 3 0
  let xs := Decode block 64
  let x := fun i => xs.getD i 0
  let a := FF a b c d (x 0) 7 0xD76AA478
  let d := FF d a b c (x 1) 12 0xE8C7B756
  let c := FF c d a b (x 2) 17 0x242070DB
  let b := FF b c d a (x 3) 22 0xC1BDCEEE
  let a := FF a b c d (x 4) 7 0xF57C0FAF
  let d := FF d a b c (x 5) 12 0x4787C62A
  let c := FF c d a b (x 6) 17 0xA8304613
  let b := FF b c d a (x 7) 22 0xFD469501
  let a := FF a b c d (x 8) 7 0x698098D8
  let d := FF d a b c (x 9) 12 0x8B44F7AF
  let c := FF c d a b (x 10) 17 0xFFFF5BB1
  let b := FF b c d a (x 11) 22 0x895CD7BE
  let a := FF a b c d (x 12) 7 0x6B901122
  let d := FF d a b c (x 13) 12 0xFD987193
  let c := FF c d a b (x 14) 17 0xA679438E
  let b := FF b c d a (x 15) 22 0x49B40821
  let a := GG a b c d (x 1) 5 0xF61E2562
  let d := GG d a b c (x 6) 9 0xC040B340
  let c := GG c d a b (x 11) 14 0x265E5A51
  let b := GG b c d a (x 0) 20 0xE9B6C7AA
  let a := GG a b c d (x 5) 5 0xD62F105D
  let d := GG d a b c (x 10) 9 0x02441453
  let c := GG c d a b (x 15) 14 0xD8A1E681
  let b := GG b c d a (x 4) 20 0xE7D3FBC8
  let a := GG a b c d (x 9) 5 0x21E1CDE6
  let d := GG d a b c (x 14) 9 0xC33707D6
  let c := GG c d a b (x 3) 14 0xF4D50D87
  let b := GG b c d a (x 8) 20 0x455A14ED
  let a := GG a b c d (x 13) 5 0xA9E3E905
  let d := GG d a b c (x 2) 9 0xFCEFA3F8
  let c := GG c d a b (x 7) 14 0x676F02D9
  let b := GG b c d a (x 12) 20 0x8D2A4C8A
  let a := HH a b c d (x 5) 4 0xFFFA3942
  let d := HH d a b c (x 8) 11 0x8771F681
  let c := HH c d a b (x 11) 16 0x6D9D6122
  let b := HH b c d a (x 14) 23 0xFDE5380C
  let a := HH a b c d (x 1) 4 0xA4BEEA44
  let d := HH d a b c (x 4) 11 0x4BDECFA9
  let c := HH c d a b (x 7) 16 0xF6BB4B60
  let b := HH b c d a (x 10) 23 0xBEBFBC70
  let a := HH a b c d (x 13) 4 0x289B7EC6
  let d := HH d a b c (x 0) 11 0xEAA127FA
  let c := HH c d a b (x 3) 16 0xD4EF3085
  let b := HH b c d a (x 6) 23 0x04881D05
  let a := HH a b c d (x 9) 4 0xD9D4D039
  let d := HH d a b c (x 12) 11 0xE6DB99E5
  let c := HH c d a b (x 15) 16 0x1FA27CF8
  let b := HH b c d a (x 2) 23 0xC4AC5665
  let a := II a b c d (x 0) 6 0xF4292244
  let d := II d a b c (x 7) 10 0x432AFF97
  let c := II c d a b (x 14) 15 0xAB9423A7
  let b := II b c d a (x 5) 21 0xFC93A039
  let a := II a b c d (x 12) 6 0x655B59C3
  let d := II d a b c (x 3) 10 0x8F0CCC92
  let c := II c d a b (x 10) 15 0xFFEFF47D
  let b := II b c d a (x 1) 21 0x85845DD1
  let a := II a b c d (x 8) 6 0x6FA87E4F
  let d := II d a b c (x 15) 10 0xFE2CE6E0
  let c := II c d a b (x 6) 15 0xA3014314
  let b := II b c d a (x 13) 21 0x4E0811A1
  let a := II a b c d (x 4) 6 0xF7537E82
  let d := II d a b c (x 11) 10 0xBD3AF235
  let c := II c d a b (x 2) 15 0x2AD7D2BB
  let b := II b c d a (x 9) 21 0xEB86D391
  [(state.getD 0 0 + a) % 2 ^ 32, (state.getD 1 0 + b) % 2 ^ 32,
   (state.getD 2 0 + c) % 2 ^ 32, (state.getD 3 0 + d) % 2 ^ 32]

/-- The data members of class `MD5`. -/
structure MD5 where
  buffer_ : List Nat
  state_ : List Nat
  count_ : List Nat
  finalized_ : Bool
  digest_ : List Nat
deriving DecidableEq, Repr

/-- The constructor `MD5::MD5()`. -/
def MD5.new : MD5 :=
  { buffer_ := List.replicate 64 0
    state_ := [0x67452301, 0xEFCDAB89, 0x98BADCFE, 0x10325476]
    count_ := [0, 0]
    finalized_ := false
    digest_ := List.replicate 16 0 }

/-- `memcpy(&dst[off], src, src.length)` on an array held as a list. -/
def memcpy (dst : List Nat) (off : Nat) (src : List Nat) : List Nat :=
  dst.take off ++ src ++ dst.drop (off + src.length)

/-- The loop `for (i = partLen; i + 63 < len; i += 64) Transform(&data[i]);` of `MD5::Update`.
The index `i` is a `uint32_t`, so `i + 63` and `i += 64` wrap modulo `2 ^ 32` while `len` is
a `size_t`.  The result is the final `i` and `state_`; it is `none` when a block would be
read past the end of `data` or when the loop is still running after `fuel` tests. -/
def MD5.Update.loop (data : List Nat) : Nat → Nat → List Nat → Option (Nat × List Nat)
  | 0, _, _ => none
  | fuel + 1, i, state =>
    if (i + 63) % 2 ^ 32 < data.length then
      if i + 64 ≤ data.length then
        MD5.Update.loop data fuel ((i + 64) % 2 ^ 32) (Transform state ((data.drop i).take 64))
      else none
    else some (i, state)

/-- `MD5::Update(const uint8_t* data, size_t len)` with `len = data.length`. -/
def MD5.Update (self : MD5) (data : List Nat) : Option MD5 :=
  if self.finalized_ then some self else
  let len := data.length
  let index := (self.count_.getD 0 0 >>> 3) &&& 0x3F
  let bits := ((len % 2 ^ 32) <<< 3) % 2 ^ 32
  let count0 := (self.count_.getD 0 0 + bits) % 2 ^ 32
  let count1 := if count0 < bits then (self.count_.getD 1 0 + 1) % 2 ^ 32 else self.count_.getD 1 0
  let count1 := (count1 + ((len % 2 ^ 32) >>> 29)) % 2 ^ 32
  let partLen := 64 - index
  if len ≥ partLen then
    let buffer := memcpy self.buffer_ index (data.take partLen)
    let state := Transform self.state_ buffer
    match MD5.Update.loop data (len / 64 + 1) partLen state with
    | none => none
    | some (i, state) =>
      some { self with count_ := [count0, count1], state_ := state,
                       buffer_ := memcpy buffer 0 (data.drop i) }
  else
    some { self with count_ := [count0, count1], buffer_ := memcpy self.buffer_ index data }

/-- `MD5::Final()`: the new object and the returned digest. -/
def MD5.Final (self : MD5) : Option (MD5 × List Nat) :=
  if self.finalized_ then some (self, self.digest_) else
  let bits := Encode self.count_ 8
  let index := (self.count_.getD 0 0 >>> 3) &&& 0x3F
  let padLen := if index < 56 then 56 - index else 120 - index
  match self.Update (PADDING.take padLen) with
  | none => none
  | some s1 =>
    match s1.Update bits with
    | none => none
    | some s2 =>
      let digest := Encode s2.state_ 16
      some ({ buffer_ := List.replicate 64 0, state_ := List.replicate 4 0, count_ := [0, 0],
              finalized_ := true, digest_ := digest }, digest)

/-- One lowercase hexadecimal digit, as printed by `std::hex`. -/
def hexDigit (n : Nat) : Char := "0123456789abcdef".data.getD n '0'

/-- `MD5::GetHexString()`: every digest octet printed with
`std::hex << std::setw(2) << std::setfill('0')`. -/
def MD5.GetHexString (self : MD5) : String :=
  if !self.finalized_ then "" else
  String.mk (self.digest_.flatMap fun b => [hexDigit (b % 256 / 16), hexDigit (b % 256 % 16)])

/-- The octets of a `std::string`, as passed by `MD5::Update(const std::string&)`. -/
def bytes (s : String) : List Nat := s.data.map fun c => c.toNat % 256

/-- `MD5::Digest(const std::string& str)`. -/
def MD5.Digest (str : String) : Option String :=
  match MD5.new.Update (bytes str) with
  | none => none
  | some md5 =>
    match md5.Final with
    | none => none
    | some (md5, _) => some md5.GetHexString

/-- `MD5::CalculateDigestResponse`. -/
def MD5.CalculateDigestResponse (method uri username realm password nonce qop _cseq : String) :
    Option String :=
  let ha1Input := username ++ ":" ++ realm ++ ":" ++ password
  match MD5.Digest ha1Input with
  | none => none
  | some ha1 =>
    let ha2Input := if qop = "auth-int" then method ++ ":" ++ uri else method ++ ":" ++ uri
    match MD5.Digest ha2Input with
    | none => none
    | some ha2 =>
      let responseInput :=
        if qop.isEmpty || qop = "auth" then
          if !qop.isEmpty then
            let nc := "00000001"
            let cnonce := "0a4f113b"
            ha1 ++ ":" ++ nonce ++ ":" ++ nc ++ ":" ++ cnonce ++ ":" ++ qop ++ ":" ++ ha2
          else
            ha1 ++ ":" ++ nonce ++ ":" ++ ha2
        else ""
      MD5.Digest responseInput

/-! ## The SIP message structure (`3rd/osip`) -/

/-- The conversion `std::string::c_str()` read as a C string: the characters before the
first NUL. -/
def c_str (s : String) : String := String.mk (s.data.takeWhile fun c => c ≠ Char.ofNat 0)

/-- The test `strcasecmp(a, b) == 0` (C locale). -/
def strcasecmp (a b : String) : Bool := a.data.map Char.toLower == b.data.map Char.toLower

/-- Enumeration `osip_message_type_t`. -/
inductive osip_message_type_t where
  | OSIP_REQUEST
  | OSIP_RESPONSE
deriving DecidableEq, Repr

/-- Structure `osip_message_t`; `from_` and `to_` are the fields `from` and `to`. -/
structure osip_message_t where
  type : osip_message_type_t
  sip_method : Option String
  sip_uri : Option String
  status_code : Int
  reason_phrase : Option String
  call_id : Option String
  cseq : Option String
  from_ : Option String
  to_ : Option String
  via : Option String
  contact : Option String
  max_forwards : Option String
  user_agent : Option String
  content_type : Option String
  content_length : Option String
  body : Option String
  body_length : Nat
deriving DecidableEq, Repr

/-- `osip_message_new()`: a zeroed message of type `OSIP_REQUEST`. -/
def osip_message_new : osip_message_t :=
  { type := .OSIP_REQUEST, sip_method := none, sip_uri := none, status_code := 0,
    reason_phrase := none, call_id := none, cseq := none, from_ := none, to_ := none,
    via := none, contact := none, max_forwards := none, user_agent := none,
    content_type := none, content_length := none, body := none, body_length := 0 }

/-- `osip_message_set_header(msg, name, value)` for non-null arguments. -/
def osip_message_set_header (msg : osip_message_t) (name value : String) : osip_message_t :=
  if strcasecmp name "Call-ID" || strcasecmp name "i" then { msg with call_id := some value }
  else if strcasecmp name "CSeq" then { msg with cseq := some value }
  else if strcasecmp name "From" || strcasecmp name "f" then { msg with from_ := some value }
  else if strcasecmp name "To" || strcasecmp name "t" then { msg with to_ := some value }
  else if strcasecmp name "Via" || strcasecmp name "v" then { msg with via := some value }
  else if strcasecmp name "Contact" || strcasecmp name "m" then { msg with contact := some value }
  else if strcasecmp name "Max-Forwards" then { msg with max_forwards := some value }
  else if strcasecmp name "User-Agent" then { msg with user_agent := some value }
  else if strcasecmp name "Content-Type" || strcasecmp name "c" then
    { msg with content_type := some value }
  else if strcasecmp name "Content-Length" || strcasecmp name "l" then
    { msg with content_length := some value }
  else msg

/-- `osip_message_get_header(msg, name)` for non-null arguments; `none` is `NULL`. -/
def osip_message_get_header (msg : osip_message_t) (name : String) : Option String :=
  if strcasecmp name "Call-ID" || strcasecmp name "i" then msg.call_id
  else if strcasecmp name "CSeq" then msg.cseq
  else if strcasecmp name "From" || strcasecmp name "f" then msg.from_
  else if strcasecmp name "To" || strcasecmp name "t" then msg.to_
  else if strcasecmp name "Via" || strcasecmp name "v" then msg.via
  else if strcasecmp name "Contact" || strcasecmp name "m" then msg.contact
  else if strcasecmp name "Max-Forwards" then msg.max_forwards
  else if strcasecmp name "User-Agent" then msg.user_agent
  else if strcasecmp name "Content-Type" || strcasecmp name "c" then msg.content_type
  else if strcasecmp name "Content-Length" || strcasecmp name "l" then msg.content_length
  else none

/-- The step `if (field) p += sprintf(p, "Name: %s\r\n", field);` of `osip_message_to_str`. -/
def osip_header_line (name : String) (field : Option String) : String :=
  match field with
  | some v => name ++ ": " ++ v ++ "\r\n"
  | none => ""

/-- `osip_message_to_str(msg, &dest, &len)`: the text left in `dest`.  The result is `none`
for a request whose `sip_method` or `sip_uri` is `NULL`, where `strlen` is applied to a
null pointer.  The body is the `body_length` octets at `body`. -/
def osip_message_to_str (msg : osip_message_t) : Option String :=
  let startLine : Option String :=
    match msg.type with
    | .OSIP_REQUEST =>
      match msg.sip_method, msg.sip_uri with
      | some method, some uri => some (method ++ " " ++ uri ++ " SIP/2.0\r\n")
      | _, _ => none
    | .OSIP_RESPONSE =>
      some ("SIP/2.0 " ++ toString msg.status_code ++ " " ++ msg.reason_phrase.getD "OK" ++ "\r\n")
  match startLine with
  | none => none
  | some line =>
    some (line
      ++ osip_header_line "Call-ID" msg.call_id
      ++ osip_header_line "CSeq" msg.cseq
      ++ osip_header_line "From" msg.from_
      ++ osip_header_line "To" msg.to_
      ++ osip_header_line "Via" msg.via
      ++ osip_header_line "Contact" msg.contact
      ++ osip_header_line "Max-Forwards" msg.max_forwards
      ++ osip_header_line "User-Agent" msg.user_agent
      ++ osip_header_line "Content-Type" msg.content_type
      ++ osip_header_line "Content-Length" msg.content_length
      ++ "\r\n"
      ++ (match msg.body with
          | some body => body.take msg.body_length
          | none => ""))

/-! ## The transaction layer (`3rd/exosip`) -/

/-- Structure `eXosip_t` without its event queue. -/
structure eXosip_t where
  initialized : Int
  socket : Int
  local_ip : String
  local_port : Int
  user_agent : String
deriving DecidableEq, Repr

/-- `eXosip_malloc()` when the allocation succeeds: a zeroed context with the default
user agent. -/
def eXosip_malloc : eXosip_t :=
  { initialized := 0, socket := 0, local_ip := "", local_port := 0, user_agent := "eXosip/0.0.0" }

/-- `eXosip_init(excontext)` for a non-null context. -/
def eXosip_init (excontext : eXosip_t) : eXosip_t :=
  { excontext with initialized := 1, socket := -1 }

/-- `eXosip_listen_addr`: the return value and the new context.  `fd` is what `socket()`
returns and `bound` tells whether `bind` succeeds. -/
def eXosip_listen_addr (excontext : eXosip_t) (addr : String) (port : Int) (fd : Int)
    (bound : Bool) : Int × eXosip_t :=
  if excontext.initialized = 0 then (-1, excontext)
  else
    let ctx := { excontext with local_ip := addr.take 63, local_port := port, socket := fd }
    if fd < 0 then (-1, ctx)
    else if !bound then (-1, { ctx with socket := -1 })
    else (0, ctx)

/-- `eXosip_guess_localip`: the address copied into a buffer of `ip_size` characters. -/
def eXosip_guess_localip (excontext : eXosip_t) (ip_size : Nat) : String :=
  excontext.local_ip.take (ip_size - 1)

/-- `eXosip_set_user_agent`: `strncpy` of at most 127 characters into the zeroed array. -/
def eXosip_set_user_agent (excontext : eXosip_t) (user_agent : String) : eXosip_t :=
  { excontext with user_agent := user_agent.take 127 }

/-- Structure `eXosip_event_t`: the fields read by the handlers. -/
structure eXosip_event_t where
  tid : Int
  request : Option osip_message_t
  response : Option osip_message_t
deriving DecidableEq, Repr

/-- `eXosip_register_build_register`: the return value and the message stored in `*reg`. -/
def eXosip_register_build_register (excontext : Option eXosip_t) (_rid : Int) (expires : Int) :
    Int × Option osip_message_t :=
  match excontext with
  | none => (-1, none)
  | some _ =>
    let msg := osip_message_new
    let msg := { msg with type := .OSIP_REQUEST, sip_method := some "REGISTER" }
    let msg := osip_message_set_header msg "Expires" (toString expires)
    (0, some msg)

/-- `eXosip_register_send_register`: the return value and the text serialised into
`msg_str`, which is what the function has to hand to the socket.  The result is `none`
where `osip_message_to_str` is undefined. -/
def eXosip_register_send_register (excontext : Option eXosip_t) (_rid : Int)
    (reg : Option osip_message_t) : Option (Int × Option String) :=
  match excontext, reg with
  | some ctx, some msg =>
    if ctx.socket < 0 then some (-1, none)
    else
      match osip_message_to_str msg with
      | none => none
      | some text => some (0, some text)
  | _, _ => some (-1, none)

/-- `eXosip_call_build_answer2`: the return value and the answer stored in `*answer`. -/
def eXosip_call_build_answer2 (excontext : Option eXosip_t) (_tid : Int) (status : Int) :
    Int × Option osip_message_t :=
  match excontext with
  | none => (-1, none)
  | some ctx =>
    let msg := osip_message_new
    let msg := { msg with type := .OSIP_RESPONSE, status_code := status }
    let msg := osip_message_set_header msg "CSeq" (toString status)
    let msg := osip_message_set_header msg "Via"
      "SIP/2.0/UDP 192.168.1.100:5060;rport;branch=z9hG4bK123456"
    let msg := osip_message_set_header msg "From"
      "<sip:34020000001320000001@3402000000>;tag=123456"
    let msg := osip_message_set_header msg "To" "<sip:34020000001320000001@3402000000>"
    let msg := osip_message_set_header msg "Call-ID" "123456789@192.168.1.100"
    let msg := osip_message_set_header msg "User-Agent" ctx.user_agent
    let msg := osip_message_set_header msg "Content-Type" "application/sdp"
    (0, some msg)

/-- `eXosip_call_send_answer`: the return value (a response always serialises). -/
def eXosip_call_send_answer (excontext : Option eXosip_t) (_tid : Int) (_status : Int)
    (answer : Option osip_message_t) : Int :=
  match excontext, answer with
  | some ctx, some _ => if ctx.socket < 0 then -1 else 0
  | _, _ => -1

/-! ## The media session manager (`src/sip/media_session.cpp`) -/

/-- Enumeration `SessionState`. -/
inductive SessionState where
  | IDLE
  | INVITING
  | ESTABLISHED
  | TERMINATING
  | TERMINATED
deriving DecidableEq, Repr

/-- Enumeration `MediaType`. -/
inductive MediaType where
  | VIDEO
  | AUDIO
  | VIDEO_AUDIO
deriving DecidableEq, Repr

/-- Structure `MediaSessionInfo`; the two time points are clock readings. -/
structure MediaSessionInfo where
  sessionId : String
  channelId : String
  remoteIp : String
  remoteVideoPort : Int
  remoteAudioPort : Int
  localIp : String
  localVideoPort : Int
  localAudioPort : Int
  mediaType : MediaType
  state : SessionState
  videoCodec : String
  audioCodec : String
  videoSsrc : Nat
  audioSsrc : Nat
  createTime : Int
  lastActivity : Int
deriving DecidableEq, Repr

/-- One call of the `SessionEventCallback`, with its three arguments. -/
structure SessionEvent where
  sessionId : String
  state : SessionState
  event : String
deriving DecidableEq, Repr

/-- The map `std::map<std::string, std::unique_ptr<MediaSessionInfo>>`: a finite map with
one entry per key.  The order in which the map is traversed is not part of the model. -/
abbrev SessionMap := AList fun _ : String => MediaSessionInfo

/-- The data members of `MediaSessionManager`.  `eventCallback_` tells whether a callback is
registered; `events` is the trace of the calls made to it, oldest first.  The callback is
an observer: it does not call back into the manager. -/
structure MediaSessionManager where
  sessions_ : SessionMap
  eventCallback_ : Bool
  initialized_ : Bool
  ssrcCounter_ : Nat
  events : List SessionEvent

/-- The constructor `MediaSessionManager::MediaSessionManager()`. -/
def MediaSessionManager.new : MediaSessionManager :=
  { sessions_ := ∅, eventCallback_ := false, initialized_ := false, ssrcCounter_ := 0,
    events := [] }

/-- `MediaSessionManager::Initialize`. -/
def MediaSessionManager.Initialize (self : MediaSessionManager) : MediaSessionManager × Bool :=
  ({ self with initialized_ := true }, true)

/-- `MediaSessionManager::SetEventCallback` with a non-empty callback. -/
def MediaSessionManager.SetEventCallback (self : MediaSessionManager) : MediaSessionManager :=
  { self with eventCallback_ := true }

/-- `MediaSessionManager::TriggerEvent`. -/
def MediaSessionManager.TriggerEvent (self : MediaSessionManager) (sessionId : String)
    (state : SessionState) (event : String) : MediaSessionManager :=
  if self.eventCallback_ then
    { self with events := self.events ++ [{ sessionId := sessionId, state := state, event := event }] }
  else self

/-- The value `dis(gen)` of `std::uniform_int_distribution<uint32_t> dis(1, 0xFFFFFFFF)`
for the raw outcome `raw` of the generator: a number of `[1, 0xFFFFFFFF]`. -/
def dis (raw : Nat) : Nat := 1 + raw % 0xFFFFFFFF

/-- The loop `do ssrc = dis(gen); while (ssrc == 0);` of `GenerateSsrc`, from the `k`-th
outcome `draws k` of the generator on; `none` when it is still running after `fuel` draws. -/
def MediaSessionManager.GenerateSsrc.loop (draws : Nat → Nat) : Nat → Nat → Option Nat
  | 0, _ => none
  | fuel + 1, k =>
    if dis (draws k) = 0 then MediaSessionManager.GenerateSsrc.loop draws fuel (k + 1)
    else some (dis (draws k))

/-- `MediaSessionManager::GenerateSsrc` for the generator outcomes `draws`. -/
def MediaSessionManager.GenerateSsrc (draws : Nat → Nat) (fuel : Nat) : Option Nat :=
  MediaSessionManager.GenerateSsrc.loop draws fuel 0

/-- `MediaSessionManager::GetSession`; `none` is `nullptr`. -/
def MediaSessionManager.GetSession (self : MediaSessionManager) (sessionId : String) :
    Option MediaSessionInfo :=
  self.sessions_.lookup sessionId

/-- `MediaSessionManager::GetSessionCount`. -/
def MediaSessionManager.GetSessionCount (self : MediaSessionManager) : Nat :=
  self.sessions_.keys.length

/-- `MediaSessionManager::CreateSession` at clock reading `now`; `draws1` and `draws2` are
the outcomes of the generators of the two `GenerateSsrc` calls.  The result is the new
manager and the returned pointer (`none` for `nullptr`). -/
def MediaSessionManager.CreateSession (self : MediaSessionManager) (fuel : Nat)
    (draws1 draws2 : Nat → Nat) (now : Int)
    (sessionId channelId remoteIp videoCodec audioCodec : String) :
    Option (MediaSessionManager × Option MediaSessionInfo) :=
  if !self.initialized_ then some (self, none)
  else if (self.sessions_.lookup sessionId).isSome then some (self, none)
  else
    match MediaSessionManager.GenerateSsrc draws1 fuel with
    | none => none
    | some videoSsrc =>
      match MediaSessionManager.GenerateSsrc draws2 fuel with
      | none => none
      | some audioSsrc =>
        let session : MediaSessionInfo :=
          { sessionId := sessionId, channelId := channelId, remoteIp := remoteIp,
            remoteVideoPort := 0, remoteAudioPort := 0, localIp := "",
            localVideoPort := 0, localAudioPort := 0, mediaType := MediaType.VIDEO_AUDIO,
            state := .INVITING, videoCodec := videoCodec, audioCodec := audioCodec,
            videoSsrc := videoSsrc, audioSsrc := audioSsrc,
            createTime := now, lastActivity := now }
        let self := { self with sessions_ := self.sessions_.insert sessionId session }
        let self := self.TriggerEvent sessionId .INVITING "SESSION_CREATED"
        some (self, some session)

/-- `MediaSessionManager::UpdateSessionState` at clock reading `now`. -/
def MediaSessionManager.UpdateSessionState (self : MediaSessionManager) (now : Int)
    (sessionId : String) (state : SessionState) : MediaSessionManager × Bool :=
  match self.sessions_.lookup sessionId with
  | none => (self, false)
  | some session =>
    let session := { session with state := state, lastActivity := now }
    let self := { self with sessions_ := self.sessions_.insert sessionId session }
    (self.TriggerEvent sessionId state "STATE_CHANGED", true)

/-- `MediaSessionManager::SetLocalPorts` at clock reading `now`. -/
def MediaSessionManager.SetLocalPorts (self : MediaSessionManager) (now : Int)
    (sessionId : String) (localVideoPort localAudioPort : Int) : MediaSessionManager × Bool :=
  match self.sessions_.lookup sessionId with
  | none => (self, false)
  | some session =>
    let session := { session with localVideoPort := localVideoPort,
                                  localAudioPort := localAudioPort, lastActivity := now }
    ({ self with sessions_ := self.sessions_.insert sessionId session }, true)

/-- `MediaSessionManager::SetRemotePorts` at clock reading `now`. -/
def MediaSessionManager.SetRemotePorts (self : MediaSessionManager) (now : Int)
    (sessionId : String) (remoteVideoPort remoteAudioPort : Int) : MediaSessionManager × Bool :=
  match self.sessions_.lookup sessionId with
  | none => (self, false)
  | some session =>
    let session := { session with remoteVideoPort := remoteVideoPort,
                                  remoteAudioPort := remoteAudioPort, lastActivity := now }
    ({ self with sessions_ := self.sessions_.insert sessionId session }, true)

/-- `MediaSessionManager::SetSsrc` at clock reading `now`; the arguments are `uint32_t`. -/
def MediaSessionManager.SetSsrc (self : MediaSessionManager) (now : Int)
    (sessionId : String) (videoSsrc audioSsrc : Nat) : MediaSessionManager × Bool :=
  match self.sessions_.lookup sessionId with
  | none => (self, false)
  | some session =>
    let session := { session with videoSsrc := videoSsrc % 2 ^ 32,
                                  audioSsrc := audioSsrc % 2 ^ 32, lastActivity := now }
    ({ self with sessions_ := self.sessions_.insert sessionId session }, true)

/-- `MediaSessionManager::TerminateSession` at clock reading `now`. -/
def MediaSessionManager.TerminateSession (self : MediaSessionManager) (now : Int)
    (sessionId : String) : MediaSessionManager × Bool :=
  match self.sessions_.lookup sessionId with
  | none => (self, false)
  | some _ =>
    let self := (self.UpdateSessionState now sessionId .TERMINATING).1
    let self := self.TriggerEvent sessionId .TERMINATED "SESSION_TERMINATED"
    ({ self with sessions_ := self.sessions_.erase sessionId }, true)

/-- `MediaSessionManager::UpdateActivity` at clock reading `now`. -/
def MediaSessionManager.UpdateActivity (self : MediaSessionManager) (now : Int)
    (sessionId : String) : MediaSessionManager :=
  match self.sessions_.lookup sessionId with
  | none => self
  | some session =>
    { self with sessions_ := self.sessions_.insert sessionId { session with lastActivity := now } }

/-! ## The SIP engine (`src/sip/sip_manager.cpp`) -/

/-- The data members of `SipManager::Impl` read by the modelled member functions. -/
structure Impl where
  excontext_ : Option eXosip_t
  registered_ : Bool
  cseq_ : Int
  sn_ : Int
  rtpPortBase_ : Int
  localIp_ : String
  localPort_ : Int
  deviceId_ : String
  realm_ : String
  serverIp_ : String
  serverPort_ : Int
  username_ : String
  password_ : String
  mediaSessionManager_ : MediaSessionManager

/-- The constructor `Impl()` when `eXosip_malloc` succeeds; the members it leaves
unset are shown empty or zero. -/
def Impl.new : Impl :=
  { excontext_ := some (eXosip_init eXosip_malloc), registered_ := false, cseq_ := 1, sn_ := 1,
    rtpPortBase_ := 50000, localIp_ := "", localPort_ := 0, deviceId_ := "", realm_ := "",
    serverIp_ := "", serverPort_ := 0, username_ := "", password_ := "",
    mediaSessionManager_ := MediaSessionManager.new.Initialize.1 }

/-- `Impl::Initialize`; `fd` and `bound` are the outcomes of `socket()` and `bind` inside
`eXosip_listen_addr`. -/
def Impl.Initialize (self : Impl) (localIp : String) (localPort : Int)
    (deviceId realm : String) (fd : Int) (bound : Bool) : Impl × Bool :=
  match self.excontext_ with
  | none => (self, false)
  | some ctx =>
    let self := { self with localPort_ := localPort, deviceId_ := deviceId, realm_ := realm }
    let self :=
      if localIp.isEmpty || localIp = "auto" then
        { self with localIp_ := eXosip_guess_localip ctx 64 }
      else { self with localIp_ := localIp }
    let (ret, ctx) := eXosip_listen_addr ctx (c_str self.localIp_) localPort fd bound
    if ret ≠ 0 then ({ self with excontext_ := some ctx }, false)
    else ({ self with excontext_ := some (eXosip_set_user_agent ctx "GB28181-Device/1.0") }, true)

/-- The character class `\s` of the regular expression (C locale). -/
def regexSpace (c : Char) : Bool :=
  c = ' ' || c = '\t' || c = '\n' || c = Char.ofNat 11 || c = Char.ofNat 12 || c = '\r'

/-- The character class `[^,\s]` of the regular expression. -/
def regexValueChar (c : Char) : Bool := c ≠ ',' && !regexSpace c

/-- The search `std::regex_search(authHeader, match, paramName + "=([^,\\s]+)")` for a
`paramName` made of letters: the capture group of the leftmost match. -/
def regexSearchParam (paramName : List Char) : List Char → Option (List Char)
  | [] => none
  | c :: rest =>
    if (paramName ++ ['=']).isPrefixOf (c :: rest) then
      let value := ((c :: rest).drop (paramName.length + 1)).takeWhile regexValueChar
      if value.isEmpty then regexSearchParam paramName rest else some value
    else regexSearchParam paramName rest

/-- `Impl::ParseAuthenticateParam`. -/
def Impl.ParseAuthenticateParam (authHeader paramName : String) : String :=
  match regexSearchParam paramName.data authHeader.data with
  | some value =>
    if value.head? = some '"' && value.getLast? = some '"' then
      String.mk ((value.drop 1).take ((value.length + 2 ^ 64 - 2) % 2 ^ 64))
    else String.mk value
  | none => ""

/-- The text `auth.str()` that `Handle401Response` builds for the `Authorization` header. -/
def Impl.Handle401Response.auth (username realm nonce uri digestResponse algorithm qop : String) :
    String :=
  let auth := "Digest username=\"" ++ username ++ "\""
    ++ ",realm=\"" ++ realm ++ "\""
    ++ ",nonce=\"" ++ nonce ++ "\""
    ++ ",uri=\"" ++ uri ++ "\""
    ++ ",response=\"" ++ digestResponse ++ "\""
    ++ ",algorithm=" ++ algorithm
  if !qop.isEmpty then
    auth ++ ",qop=" ++ qop ++ ",cnonce=\"0a4f113b\"" ++ ",nc=00000001"
  else auth

/-- `Impl::Handle401Response`: the text of the REGISTER handed to
`eXosip_register_send_register` for sending, `some none` when the handler returns without
sending, `none` when its behaviour is undefined. -/
def Impl.Handle401Response (self : Impl) (event : eXosip_event_t) : Option (Option String) :=
  match event.response with
  | none => some none
  | some response =>
    match osip_message_get_header response "WWW-Authenticate" with
    | none => some none
    | some authHeader =>
      if authHeader.length = 0 then some none
      else
        let nonce := Impl.ParseAuthenticateParam authHeader "nonce"
        let realm := Impl.ParseAuthenticateParam authHeader "realm"
        let algorithm := Impl.ParseAuthenticateParam authHeader "algorithm"
        let qop := Impl.ParseAuthenticateParam authHeader "qop"
        if nonce.isEmpty then some none
        else
          let realm := if realm.isEmpty then self.realm_ else realm
          let uri := "sip:" ++ self.realm_
          match MD5.CalculateDigestResponse "REGISTER" uri self.username_ realm self.password_
              nonce qop "1" with
          | none => none
          | some digestResponse =>
            match eXosip_register_build_register self.excontext_ event.tid 3600 with
            | (ret, reg) =>
              if ret ≠ 0 then some none
              else
                let auth := Impl.Handle401Response.auth self.username_ realm nonce uri
                  digestResponse algorithm qop
                let reg := reg.map fun msg =>
                  osip_message_set_header msg "Authorization" (c_str auth)
                match eXosip_register_send_register self.excontext_ event.tid reg with
                | none => none
                | some (ret, sent) => if ret ≠ 0 then some none else some sent

/-- `Impl::AllocateRtpPort` with its `static int nextPort = rtpPortBase_;`.  The variable is
one for all engines of the process: the argument `nextPort` is its value before the call,
`none` while no engine has called the function, and then this call initialises it with the
`rtpPortBase_` of this engine.  The result is the value of the variable after the call and
the returned port; it is `none` when `nextPort += 4` overflows `int`.  The object itself
is not changed. -/
def Impl.AllocateRtpPort (self : Impl) (nextPort : Option Int) : Option (Option Int × Int) :=
  let nextPort := nextPort.getD self.rtpPortBase_
  let port := nextPort
  if nextPort + 4 > 2147483647 then none
  else some (some (nextPort + 4), port)

/-- The values `ParseSdpOffer` leaves in its five reference parameters. -/
structure SdpOffer where
  remoteIp : String
  remoteVideoPort : Int
  remoteAudioPort : Int
  videoCodec : String
  audioCodec : String

/-- `osip_message_get_body`. -/
def osip_message_get_body (msg : osip_message_t) : Option String := msg.body

/-- The Call-ID that `HandleInvite`, `HandleAck` and `HandleBye` read from the request of
an event (empty when there is none). -/
def Impl.callIdOf (event : eXosip_event_t) : String :=
  match event.request with
  | some request => (osip_message_get_header request "Call-ID").getD ""
  | none => ""

/-- `Impl::HandleInvite`, as far as the engine's own state and the port counter go: the
media sessions of the engine and the `static` variable `nextPort` of `AllocateRtpPort`, passed
in and returned next to the object.  `offer` is what `ParseSdpOffer` returns for the body,
`clock k` the `k`-th reading of the system clock during the call, `draws1` and `draws2` the
generator outcomes of the two SSRC draws.  The SIP answers and the two application
callbacks are left out. -/
def Impl.HandleInvite (self : Impl) (nextPort : Option Int) (event : eXosip_event_t)
    (offer : SdpOffer) (fuel : Nat) (draws1 draws2 : Nat → Nat) (clock : Nat → Int) :
    Option (Impl × Option Int) :=
  let callId := Impl.callIdOf event
  if callId.isEmpty then some (self, nextPort)
  else
    match event.request.bind osip_message_get_body with
    | none => some (self, nextPort)
    | some _sdpBody =>
      match self.AllocateRtpPort nextPort with
      | none => none
      | some (nextPort, localVideoPort) =>
        let localAudioPort := localVideoPort + 2
        match self.mediaSessionManager_.CreateSession fuel draws1 draws2 (clock 0) callId
            self.deviceId_ offer.remoteIp offer.videoCodec offer.audioCodec with
        | none => none
        | some (mgr, none) => some ({ self with mediaSessionManager_ := mgr }, nextPort)
        | some (mgr, some _) =>
          let mgr := (mgr.SetLocalPorts (clock 1) callId localVideoPort localAudioPort).1
          let mgr := (mgr.SetRemotePorts (clock 2) callId offer.remoteVideoPort
            offer.remoteAudioPort).1
          match eXosip_call_build_answer2 self.excontext_ event.tid 200 with
          | (ret, answer) =>
            if ret ≠ 0 then
              some ({ self with mediaSessionManager_ :=
                (mgr.TerminateSession (clock 3) callId).1 }, nextPort)
            else if eXosip_call_send_answer self.excontext_ event.tid 200 answer ≠ 0 then
              some ({ self with mediaSessionManager_ :=
                (mgr.TerminateSession (clock 3) callId).1 }, nextPort)
            else
              some ({ self with mediaSessionManager_ :=
                (mgr.UpdateSessionState (clock 3) callId .ESTABLISHED).1 }, nextPort)

/-- `Impl::HandleAck`, as far as the media sessions go. -/
def Impl.HandleAck (self : Impl) (event : eXosip_event_t) (now : Int) : Impl :=
  let callId := Impl.callIdOf event
  if !callId.isEmpty then
    { self with mediaSessionManager_ := self.mediaSessionManager_.UpdateActivity now callId }
  else self

/-- `Impl::HandleBye`, as far as the media sessions go. -/
def Impl.HandleBye (self : Impl) (event : eXosip_event_t) (now : Int) : Impl :=
  let callId := Impl.callIdOf event
  if !callId.isEmpty then
    { self with mediaSessionManager_ := (self.mediaSessionManager_.TerminateSession now callId).1 }
  else self

/-- One event of the engine with the readings of its environment. -/
inductive EngineEvent where
  | invite (event : eXosip_event_t) (offer : SdpOffer) (fuel : Nat) (draws1 draws2 : Nat → Nat)
      (clock : Nat → Int)
  | ack (event : eXosip_event_t) (now : Int)
  | bye (event : eXosip_event_t) (now : Int)

/-- The dispatch of `ProcessMessage` for the events `EXOSIP_CALL_INVITE`, `EXOSIP_CALL_ACK`
and `EXOSIP_CALL_CLOSED`, with the `static` variable `nextPort` of `AllocateRtpPort` before
and after the event. -/
def Impl.ProcessMessage (self : Impl) (nextPort : Option Int) :
    EngineEvent → Option (Impl × Option Int)
  | .invite event offer fuel draws1 draws2 clock =>
    self.HandleInvite nextPort event offer fuel draws1 draws2 clock
  | .ack event now => some (self.HandleAck event now, nextPort)
  | .bye event now => some (self.HandleBye event now, nextPort)

/-- The engine and the `static` variable `nextPort` after a sequence of events, `none` when
one of them is undefined. -/
def Impl.run (self : Impl) (nextPort : Option Int) :
    List EngineEvent → Option (Impl × Option Int)
  | [] => some (self, nextPort)
  | e :: es =>
    match self.ProcessMessage nextPort e with
    | none => none
    | some (self, nextPort) => self.run nextPort es

/-! ## The initial REGISTER -/

/-- The engine of `main.cpp`: local address `192.168.1.100:5060`, device
`34020000001320000001`, realm `3402000000`, socket bound. -/
def mainImpl : Impl :=
  (Impl.new.Initialize "192.168.1.100" 5060 "34020000001320000001" "3402000000" 3 true).1

/-- The number of ticks of `std::chrono::system_clock` in one second (nanosecond ticks). -/
def ticksPerSecond : Int := 1000000000

/-- `MediaSessionManager::CleanupTimeoutSessions` at clock reading `now`: the new manager and
the returned count. -/
def MediaSessionManager.CleanupTimeoutSessions (self : MediaSessionManager) (now : Int)
    (timeoutSeconds : Int) : MediaSessionManager × Nat :=
  let timeoutSessions := (self.sessions_.entries.filter fun pair =>
    now - pair.2.lastActivity > timeoutSeconds * ticksPerSecond).map fun pair => pair.1
  let sessions := timeoutSessions.foldl (fun m sessionId => m.erase sessionId) self.sessions_
  ({ self with sessions_ := sessions }, timeoutSessions.length)

/-- One call of a public member function of `MediaSessionManager`, with the clock reading
and the generator outcomes it meets. -/
inductive SessionOp where
  | Initialize
  | SetEventCallback
  | CreateSession (fuel : Nat) (draws1 draws2 : Nat → Nat) (now : Int)
      (sessionId channelId remoteIp videoCodec audioCodec : String)
  | UpdateSessionState (now : Int) (sessionId : String) (state : SessionState)
  | SetLocalPorts (now : Int) (sessionId : String) (localVideoPort localAudioPort : Int)
  | SetRemotePorts (now : Int) (sessionId : String) (remoteVideoPort remoteAudioPort : Int)
  | SetSsrc (now : Int) (sessionId : String) (videoSsrc audioSsrc : Nat)
  | TerminateSession (now : Int) (sessionId : String)
  | CleanupTimeoutSessions (now : Int) (timeoutSeconds : Int)
  | UpdateActivity (now : Int) (sessionId : String)

/-- The call is a `CreateSession` for the session id `sessionId`. -/
def SessionOp.creates (sessionId : String) : SessionOp → Prop
  | .CreateSession _ _ _ _ id _ _ _ _ => id = sessionId
  | _ => False

/-- The manager after one call; `none` when the call does not return. -/
def MediaSessionManager.apply (self : MediaSessionManager) : SessionOp → Option MediaSessionManager
  | .Initialize => some self.Initialize.1
  | .SetEventCallback => some self.SetEventCallback
  | .CreateSession fuel draws1 draws2 now sessionId channelId remoteIp videoCodec audioCodec =>
    (self.CreateSession fuel draws1 draws2 now sessionId channelId remoteIp videoCodec
      audioCodec).map fun r => r.1
  | .UpdateSessionState now sessionId state => some (self.UpdateSessionState now sessionId state).1
  | .SetLocalPorts now sessionId v a => some (self.SetLocalPorts now sessionId v a).1
  | .SetRemotePorts now sessionId v a => some (self.SetRemotePorts now sessionId v a).1
  | .SetSsrc now sessionId v a => some (self.SetSsrc now sessionId v a).1
  | .TerminateSession now sessionId => some (self.TerminateSession now sessionId).1
  | .CleanupTimeoutSessions now timeoutSeconds =>
    some (self.CleanupTimeoutSessions now timeoutSeconds).1
  | .UpdateActivity now sessionId => some (self.UpdateActivity now sessionId)

/-- The manager after a sequence of calls. -/
def MediaSessionManager.applyAll (self : MediaSessionManager) :
    List SessionOp → Option MediaSessionManager
  | [] => some self
  | op :: ops =>
    match self.apply op with
    | none => none
    | some self => self.applyAll ops

/-- The port relation of the data model: both local ports even and the audio port two
above the video port. -/
def portsPaired (session : MediaSessionInfo) : Prop :=
  session.localVideoPort % 2 = 0 ∧ session.localAudioPort % 2 = 0 ∧
    session.localAudioPort = session.localVideoPort + 2

/-- The order `Idle < Inviting < Established < Terminating < Terminated` of the states. -/
def SessionState.rank : SessionState → Nat
  | .IDLE => 0
  | .INVITING => 1
  | .ESTABLISHED => 2
  | .TERMINATING => 3
  | .TERMINATED => 4

/-- The session that `CreateSession` stores for the given arguments, clock reading and
SSRCs. -/
def createdSession (now : Int) (sessionId channelId remoteIp videoCodec audioCodec : String)
    (videoSsrc audioSsrc : Nat) : MediaSessionInfo :=
  { sessionId := sessionId, channelId := channelId, remoteIp := remoteIp,
    remoteVideoPort := 0, remoteAudioPort := 0, localIp := "",
    localVideoPort := 0, localAudioPort := 0, mediaType := MediaType.VIDEO_AUDIO,
    state := .INVITING, videoCodec := videoCodec, audioCodec := audioCodec,
    videoSsrc := videoSsrc, audioSsrc := audioSsrc,
    createTime := now, lastActivity := now }

/-- An initialised manager with a registered callback holding the one session `call-1`,
as `CreateSession` stores it at clock reading 0. -/
def oneSessionManager : MediaSessionManager :=
  { sessions_ := AList.singleton "call-1"
      (createdSession 0 "call-1" "34020000001320000001" "192.168.1.1" "H264" "PCMA" 7 9)
    eventCallback_ := true
    initialized_ := true
    ssrcCounter_ := 0
    events := [] }

/-- The invariant of the engine on local ports: the port counter of `AllocateRtpPort`
(the value `nextPort` of its `static` variable, or the base of the engine while the variable
is not initialised) is even and every stored session has paired ports. -/
def Impl.portsInvariant (self : Impl) (nextPort : Option Int) : Prop :=
  (nextPort.getD self.rtpPortBase_) % 2 = 0 ∧
    ∀ id s, self.mediaSessionManager_.GetSession id = some s → portsPaired s

/-- An INVITE event for the call `call-1` carrying an SDP body. -/
def inviteEvent : eXosip_event_t :=
  { tid := 1
    request := some { osip_message_new with
      sip_method := some "INVITE", call_id := some "call-1",
      body := some "v=0\r\n", body_length := 5 }
    response := none }

/-- The offer that the engine defaults give for an SDP body without media lines. -/
def defaultOffer : SdpOffer :=
  { remoteIp := "", remoteVideoPort := 0, remoteAudioPort := 0, videoCodec := "H264",
    audioCodec := "PCMA" }

/-! ## The SDP negotiator (`src/sip/sdp_negotiator.cpp`) -/

/-- `enum class SdpMediaFormat`. -/
inductive SdpMediaFormat where
  | H264
  | H265
  | PS
  | PCMU
  | PCMA
  | AAC
  deriving DecidableEq

/-- The data members of `SdpNegotiator`. -/
structure SdpNegotiator where
  sessionId_ : String
  sessionVersion_ : Int

/-- `SdpNegotiator::GenerateSessionId`; `time` is the value of `time(nullptr)`. -/
def SdpNegotiator.GenerateSessionId (time : Int) : String := toString time

/-- The constructor of `SdpNegotiator`. -/
def SdpNegotiator.new (time : Int) : SdpNegotiator :=
  { sessionId_ := SdpNegotiator.GenerateSessionId time, sessionVersion_ := 0 }

/-- `SdpNegotiator::GetVideoPayloadType`. -/
def SdpNegotiator.GetVideoPayloadType : SdpMediaFormat → Int
  | .H264 => 96
  | .H265 => 98
  | .PS => 99
  | _ => 96

/-- `SdpNegotiator::GetAudioPayloadType`. -/
def SdpNegotiator.GetAudioPayloadType : SdpMediaFormat → Int
  | .PCMU => 0
  | .PCMA => 8
  | .AAC => 97
  | _ => 8

/-- `SdpNegotiator::GetFormatName`. -/
def SdpNegotiator.GetFormatName : SdpMediaFormat → String
  | .H264 => "H264"
  | .H265 => "H265"
  | .PS => "MP2T"
  | .PCMU => "PCMU"
  | .PCMA => "PCMA"
  | .AAC => "AAC"

/-- `SdpNegotiator::CreateSdpAnswer`: the new object (its session version is incremented)
and the returned text; `none` when `++sessionVersion_` or `rtpPort + 2` overflows `int`. -/
def SdpNegotiator.CreateSdpAnswer (self : SdpNegotiator) (localIp : String) (rtpPort : Int)
    (videoFormat audioFormat : SdpMediaFormat) : Option (SdpNegotiator × String) :=
  if self.sessionVersion_ + 1 > 2147483647 then none
  else if rtpPort + 2 > 2147483647 then none
  else
    let sessionVersion := self.sessionVersion_ + 1
    let ss := "v=0\r\n"
    let ss := ss ++ "o=- " ++ self.sessionId_ ++ " " ++ toString sessionVersion ++ " IN IP4 "
      ++ localIp ++ "\r\n"
    let ss := ss ++ "s=Play\r\n"
    let ss := ss ++ "c=IN IP4 " ++ localIp ++ "\r\n"
    let ss := ss ++ "t=0 0\r\n"
    let videoPayload := SdpNegotiator.GetVideoPayloadType videoFormat
    let ss := ss ++ "m=video " ++ toString rtpPort ++ " RTP/AVP " ++ toString videoPayload ++ "\r\n"
    let ss := ss ++ "a=rtpmap:" ++ toString videoPayload ++ " "
      ++ SdpNegotiator.GetFormatName videoFormat ++ "/90000\r\n"
    let ss :=
      if videoFormat = .H264 then
        ss ++ "a=fmtp:" ++ toString videoPayload
          ++ " profile-level-id=42e01f;packetization-mode=1\r\n"
      else if videoFormat = .H265 then
        ss ++ "a=fmtp:" ++ toString videoPayload ++ " profile-id=1\r\n"
      else ss
    let audioPayload := SdpNegotiator.GetAudioPayloadType audioFormat
    let audioPort := rtpPort + 2
    let ss := ss ++ "m=audio " ++ toString audioPort ++ " RTP/AVP " ++ toString audioPayload
      ++ "\r\n"
    let ss := ss ++ "a=rtpmap:" ++ toString audioPayload ++ " "
      ++ SdpNegotiator.GetFormatName audioFormat ++ "/8000/1\r\n"
    some ({ self with sessionVersion_ := sessionVersion }, ss)

/-! ## The SDP offer of an INVITE (`src/sip/sip_manager.cpp`) -/

/-- The lines that successive calls of `std::getline` read from a text: the pieces between
line feeds; a text that ends with a line feed has no further empty line. -/
def getlines : List Char → List (List Char)
  | [] => []
  | c :: cs =>
    if c = '\n' then [] :: getlines cs
    else
      match getlines cs with
      | [] => [[c]]
      | line :: lines => (c :: line) :: lines

/-- `std::string::find` for a string argument: the first position at which `pat` occurs,
`none` for `npos`. -/
def find (pat : List Char) : List Char → Option Nat
  | [] => if pat.isEmpty then some 0 else none
  | c :: cs => if pat.isPrefixOf (c :: cs) then some 0 else (find pat cs).map fun pos => pos + 1

/-- `std::string::find_last_of` for one character: its last position, `none` for `npos`. -/
def find_last_of (ch : Char) : List Char → Option Nat
  | [] => none
  | c :: cs =>
    match find_last_of ch cs with
    | some pos => some (pos + 1)
    | none => if c = ch then some 0 else none

/-- `isspace` in the C locale. -/
def isspace (c : Char) : Bool := c.toNat = 32 || (9 ≤ c.toNat && c.toNat ≤ 13)

/-- The value of `currentPort` after `mss >> dummy >> currentPort` on a stream holding
`content`.  The first extraction reads the first blank-separated word; when it fails or
ends at the end of the stream, the second extraction does not touch the variable.
Otherwise the second one skips blanks, leaves the variable alone at the end of the stream,
and else stores the decimal number it reads: 0 when there is no digit, the nearest bound
of `int` when the number is out of range. -/
def extractPort (content : List Char) (currentPort : Int) : Int :=
  let rest := (content.dropWhile isspace).dropWhile fun c => !isspace c
  if rest.isEmpty then currentPort
  else
    let rest := rest.dropWhile isspace
    if rest.isEmpty then currentPort
    else
      let negative := rest.head? = some '-'
      let rest := if rest.head? = some '-' ∨ rest.head? = some '+' then rest.drop 1 else rest
      let digits := rest.takeWhile Char.isDigit
      if digits.isEmpty then 0
      else
        let value : Int := digits.foldl (fun acc c => acc * 10 + ((c.toNat : Int) - 48)) 0
        let value := if negative then -value else value
        if value > 2147483647 then 2147483647
        else if value < -2147483648 then -2147483648
        else value

/-- The variables of the loop of `Impl::ParseSdpOffer`: the five reference parameters,
`currentMedia` and `currentPort`. -/
structure ParseSdpOfferState where
  offer : SdpOffer
  currentMedia : String
  currentPort : Int

/-- One round of the loop of `Impl::ParseSdpOffer`, for the line `std::getline` has read. -/
def Impl.ParseSdpOffer.line (st : ParseSdpOfferState) (line : List Char) : ParseSdpOfferState :=
  if line.isEmpty then st
  else
    let line := if line.getLast? = some '\r' then line.dropLast else line
    if line.length < 2 then st
    else
      let type := line.head?
      let content := line.drop 2
      if type = some 'c' then
        if (find "IN IP4".data content).isSome then
          match find_last_of ' ' content with
          | some pos =>
            { st with offer := { st.offer with remoteIp := String.mk (content.drop (pos + 1)) } }
          | none => st
        else st
      else if type = some 'm' then
        if find "video".data content = some 0 then
          let currentPort := extractPort content st.currentPort
          { offer := { st.offer with remoteVideoPort := currentPort },
            currentMedia := "video", currentPort := currentPort }
        else if find "audio".data content = some 0 then
          let currentPort := extractPort content st.currentPort
          { offer := { st.offer with remoteAudioPort := currentPort },
            currentMedia := "audio", currentPort := currentPort }
        else st
      else if type = some 'a' then
        if find "rtpmap:".data content = some 0 then
          let rtpmapContent := content.drop 7
          if st.currentMedia = "video" then
            if (find "H264".data rtpmapContent).isSome then
              { st with offer := { st.offer with videoCodec := "H264" } }
            else if (find "H265".data rtpmapContent).isSome then
              { st with offer := { st.offer with videoCodec := "H265" } }
            else if (find "PS".data rtpmapContent).isSome then
              { st with offer := { st.offer with videoCodec := "PS" } }
            else st
          else if st.currentMedia = "audio" then
            if (find "PCMA".data rtpmapContent).isSome then
              { st with offer := { st.offer with audioCodec := "PCMA" } }
            else if (find "PCMU".data rtpmapContent).isSome then
              { st with offer := { st.offer with audioCodec := "PCMU" } }
            else st
          else st
        else st
      else st

/-- The variables of `Impl::ParseSdpOffer` when its loop ends; `offer` holds the values the
caller passes in the five reference parameters. -/
def Impl.ParseSdpOffer.loop (sdpStr : String) (offer : SdpOffer) : ParseSdpOfferState :=
  (getlines sdpStr.data).foldl Impl.ParseSdpOffer.line
    { offer := offer, currentMedia := "", currentPort := 0 }

/-- `Impl::ParseSdpOffer`: the values of the five reference parameters on return. -/
def Impl.ParseSdpOffer (sdpStr : String) (offer : SdpOffer) : SdpOffer :=
  (Impl.ParseSdpOffer.loop sdpStr offer).offer

/-- The video format `HandleInvite` passes to `CreateSdpAnswer` for a codec name. -/
def Impl.HandleInvite.videoFormat (videoCodec : String) : SdpMediaFormat :=
  if videoCodec = "H264" then .H264 else if videoCodec = "H265" then .H265 else .PS

/-- The audio format `HandleInvite` passes to `CreateSdpAnswer` for a codec name. -/
def Impl.HandleInvite.audioFormat (audioCodec : String) : SdpMediaFormat :=
  if audioCodec = "PCMA" then .PCMA else .PCMU

/-- The SDP answer `HandleInvite` builds for the body `sdpBody` of the INVITE once it has
the local video port `localVideoPort`: `ParseSdpOffer` on the engine defaults, then
`CreateSdpAnswer` of a negotiator constructed at `time`. -/
def Impl.HandleInvite.sdpAnswer (self : Impl) (sdpBody : String) (localVideoPort : Int)
    (time : Int) : Option String :=
  let offer := Impl.ParseSdpOffer (c_str sdpBody) defaultOffer
  ((SdpNegotiator.new time).CreateSdpAnswer self.localIp_ localVideoPort
    (Impl.HandleInvite.videoFormat offer.videoCodec)
    (Impl.HandleInvite.audioFormat offer.audioCodec)).map fun r => r.2

/-- The ports that successive calls of `AllocateRtpPort` return when the engines of the
list make them one after the other, in a process whose `static` variable has the value
`nextPort` before the first of them, with the value of the variable after the last;
`none` when one of the calls overflows. -/
def AllocateRtpPorts (nextPort : Option Int) : List Impl → Option (Option Int × List Int)
  | [] => some (nextPort, [])
  | self :: engines =>
    match self.AllocateRtpPort nextPort with
    | none => none
    | some (nextPort, port) =>
      match AllocateRtpPorts nextPort engines with
      | none => none
      | some (nextPort, ports) => some (nextPort, port :: ports)

/-! ## The PTZ controller (`src/device/ptz_controller.cpp`) -/

/-- `enum class PTZCommand`. -/
inductive PTZCommand where
  | STOP
  | UP
  | DOWN
  | LEFT
  | RIGHT
  | UP_LEFT
  | UP_RIGHT
  | DOWN_LEFT
  | DOWN_RIGHT
  | ZOOM_IN
  | ZOOM_OUT
  | FOCUS_NEAR
  | FOCUS_FAR
  | IRIS_OPEN
  | IRIS_CLOSE
  | PRESET_SET
  | PRESET_CALL
  | PRESET_DELETE
  | CRUISE_START
  | CRUISE_STOP
  | CRUISE_ADD
  | SCAN_START
  | SCAN_STOP
  deriving DecidableEq

/-- `struct PTZControlParams`. -/
structure PTZControlParams where
  command : PTZCommand
  speed : Int
  presetId : Int
  cruiseId : Int
  dwellTime : Int
  channelId : String
  deriving DecidableEq

/-- The value-initialised object `PTZControlParams{}`. -/
def PTZControlParams.new : PTZControlParams :=
  { command := .STOP, speed := 0, presetId := 0, cruiseId := 0, dwellTime := 0, channelId := "" }

/-- `PTZController::ParseCommandCode`. -/
def PTZController.ParseCommandCode (code : Int) : PTZCommand :=
  if code = 0 then .STOP
  else if code = 1 then .UP
  else if code = 2 then .DOWN
  else if code = 3 then .LEFT
  else if code = 4 then .RIGHT
  else if code = 5 then .UP_LEFT
  else if code = 6 then .DOWN_LEFT
  else if code = 7 then .UP_RIGHT
  else if code = 8 then .DOWN_RIGHT
  else if code = 11 then .ZOOM_IN
  else if code = 12 then .ZOOM_OUT
  else if code = 13 then .FOCUS_NEAR
  else if code = 14 then .FOCUS_FAR
  else if code = 15 then .IRIS_OPEN
  else if code = 16 then .IRIS_CLOSE
  else if code = 21 then .PRESET_CALL
  else if code = 22 then .PRESET_SET
  else if code = 23 then .PRESET_DELETE
  else if code = 31 then .CRUISE_START
  else if code = 32 then .CRUISE_STOP
  else if code = 33 then .CRUISE_ADD
  else if code = 41 then .SCAN_START
  else if code = 42 then .SCAN_STOP
  else .STOP

/-- The exceptions `std::stoi` throws. -/
inductive StoiError where
  | invalid_argument
  | out_of_range
  deriving DecidableEq

deriving instance DecidableEq for Except

/-- The decimal number written by a list of digits. -/
def decimalValue (digits : List Char) : Int :=
  digits.foldl (fun acc c => acc * 10 + ((c.toNat : Int) - 48)) 0

/-- `std::stoi(str)`: blanks are skipped, then an optional sign and the longest run of
decimal digits are read; `invalid_argument` is thrown when there is no digit,
`out_of_range` when the number is not an `int`. -/
def stoi (str : List Char) : Except StoiError Int :=
  let rest := str.dropWhile isspace
  let negative := rest.head? = some '-'
  let rest := if rest.head? = some '-' ∨ rest.head? = some '+' then rest.drop 1 else rest
  let digits := rest.takeWhile Char.isDigit
  if digits.isEmpty then .error .invalid_argument
  else
    let value := if negative then -decimalValue digits else decimalValue digits
    if value < -2147483648 ∨ value > 2147483647 then .error .out_of_range else .ok value

/-- The character class `\w` of the regular expression (C locale). -/
def regexWord (c : Char) : Bool := c.isAlphanum || c = '_'

/-- The character class `[^\s&]` of the regular expression. -/
def regexParamValueChar (c : Char) : Bool := !isspace c && c ≠ '&'

/-- A match of `(\w+)=([^\s&]+)` that starts at the beginning of the text: the two capture
groups and the text after the match.  Both repetitions are greedy, and giving back
characters of the first one cannot help, as `=` is not a word character. -/
def paramRegex.matchAt (s : List Char) : Option (List Char × List Char × List Char) :=
  let key := s.takeWhile regexWord
  if key.isEmpty then none
  else
    match s.dropWhile regexWord with
    | '=' :: rest =>
      let value := rest.takeWhile regexParamValueChar
      if value.isEmpty then none else some (key, value, rest.dropWhile regexParamValueChar)
    | _ => none

/-- The leftmost match of `(\w+)=([^\s&]+)` in the text. -/
def paramRegex.search : List Char → Option (List Char × List Char × List Char)
  | [] => none
  | c :: cs =>
    match paramRegex.matchAt (c :: cs) with
    | some m => some m
    | none => paramRegex.search cs

/-- The matches a `std::sregex_iterator` for `(\w+)=([^\s&]+)` runs through: each search
starts where the match before ended.  `fuel` bounds the number of matches; the length of
the text is enough, as every match has at least three characters. -/
def paramRegex.matches : Nat → List Char → List (List Char × List Char)
  | 0, _ => []
  | fuel + 1, s =>
    match paramRegex.search s with
    | none => []
    | some (key, value, rest) => (key, value) :: paramRegex.matches fuel rest

/-- One round of the loop of `PTZController::ParsePTZCommand` for the match `key=value`. -/
def PTZController.ParsePTZCommand.step (params : PTZControlParams)
    (pair : List Char × List Char) : Except StoiError PTZControlParams :=
  if pair.1 = "Command".data then
    match stoi pair.2 with
    | .error e => .error e
    | .ok code => .ok { params with command := PTZController.ParseCommandCode code }
  else if pair.1 = "Speed".data then
    match stoi pair.2 with
    | .error e => .error e
    | .ok value => .ok { params with speed := value }
  else if pair.1 = "PresetID".data then
    match stoi pair.2 with
    | .error e => .error e
    | .ok value => .ok { params with presetId := value }
  else if pair.1 = "DwellTime".data then
    match stoi pair.2 with
    | .error e => .error e
    | .ok value => .ok { params with dwellTime := value }
  else if pair.1 = "CruiseID".data then
    match stoi pair.2 with
    | .error e => .error e
    | .ok value => .ok { params with cruiseId := value }
  else .ok params

/-- The loop of `PTZController::ParsePTZCommand` over the matches. -/
def PTZController.ParsePTZCommand.loop (params : PTZControlParams) :
    List (List Char × List Char) → Except StoiError PTZControlParams
  | [] => .ok params
  | pair :: pairs =>
    match PTZController.ParsePTZCommand.step params pair with
    | .error e => .error e
    | .ok params => PTZController.ParsePTZCommand.loop params pairs

/-- `PTZController::ParsePTZCommand`: the returned flag and the value left in `params`, or
the exception that leaves the function. -/
def PTZController.ParsePTZCommand (cmdStr : String) : Except StoiError (Bool × PTZControlParams) :=
  let params := { PTZControlParams.new with speed := 128 }
  match PTZController.ParsePTZCommand.loop params
      (paramRegex.matches cmdStr.length cmdStr.data) with
  | .error e => .error e
  | .ok params => .ok (true, params)

/-- `std::string::find(pat, pos)`: the first position from `pos` on at which `pat`
occurs. -/
def findFrom (pat : List Char) (s : List Char) (pos : Nat) : Option Nat :=
  if pos ≤ s.length then (find pat (s.drop pos)).map fun found => found + pos else none

/-- `PTZController::ParsePTZCommandFromXML`; `params` is the value the caller passes in. -/
def PTZController.ParsePTZCommandFromXML (xmlStr : String) (params : PTZControlParams) :
    Except StoiError (Bool × PTZControlParams) :=
  match find "<PTZCmd>".data xmlStr.data with
  | none => .ok (false, params)
  | some pos =>
    let pos := pos + 8
    match findFrom "</PTZCmd>".data xmlStr.data pos with
    | none => .ok (false, params)
    | some endPos =>
      let cmdStr := String.mk ((xmlStr.data.drop pos).take (endPos - pos))
      PTZController.ParsePTZCommand cmdStr

/-! ## Device control in the SIP engine (`src/sip/sip_manager.cpp`) -/

/-- `strstr`: the text from the first occurrence of `needle` on. -/
def strstr (haystack needle : List Char) : Option (List Char) :=
  (find needle haystack).map fun pos => haystack.drop pos

/-- `atoi`: blanks are skipped, then an optional sign and the longest run of decimal
digits are read; 0 when there is no digit, undefined (`none`) when the number is not an
`int`. -/
def atoi (str : List Char) : Option Int :=
  let rest := str.dropWhile isspace
  let negative := rest.head? = some '-'
  let rest := if rest.head? = some '-' ∨ rest.head? = some '+' then rest.drop 1 else rest
  let digits := rest.takeWhile Char.isDigit
  let value := if negative then -decimalValue digits else decimalValue digits
  if value < -2147483648 ∨ value > 2147483647 then none else some value

/-- `Impl::PtzControl`: the event handed to the event callback when one is registered, and
the returned flag. -/
def Impl.PtzControl (_channelId : String) (command speed : Int) : (String × String) × Bool :=
  let cmdStr :=
    if command = 0 then "STOP"
    else if command = 1 then "UP"
    else if command = 2 then "DOWN"
    else if command = 3 then "LEFT"
    else if command = 4 then "RIGHT"
    else if command = 5 then "UP_LEFT"
    else if command = 6 then "DOWN_LEFT"
    else if command = 7 then "UP_RIGHT"
    else if command = 8 then "DOWN_RIGHT"
    else "UNKNOWN"
  (("PTZ_CONTROL", cmdStr ++ " speed=" ++ toString speed), true)

/-- `Impl::PtzZoom`. -/
def Impl.PtzZoom (_channelId : String) (command speed : Int) : (String × String) × Bool :=
  let cmdStr :=
    if command = 0 then "ZOOM_STOP"
    else if command = 1 then "ZOOM_IN"
    else if command = 2 then "ZOOM_OUT"
    else "ZOOM_UNKNOWN"
  (("PTZ_ZOOM", cmdStr ++ " speed=" ++ toString speed), true)

/-- `Impl::PtzPreset`. -/
def Impl.PtzPreset (_channelId : String) (command presetId : Int) : (String × String) × Bool :=
  let cmdStr :=
    if command = 0 then "PRESET_DELETE"
    else if command = 1 then "PRESET_CALL"
    else if command = 2 then "PRESET_SET"
    else "PRESET_UNKNOWN"
  (("PTZ_PRESET", cmdStr ++ " id=" ++ toString presetId), true)

/-- The body `Impl::SendDeviceControlResponse` gives to its answer. -/
def Impl.SendDeviceControlResponse.body (deviceId result : String) : String :=
  "<?xml version=\"1.0\"?>\r\n"
    ++ "<Response>\r\n"
    ++ "<CmdType>DeviceControl</CmdType>\r\n"
    ++ "<SN>1</SN>\r\n"
    ++ "<DeviceID>" ++ deviceId ++ "</DeviceID>\r\n"
    ++ "<Result>" ++ result ++ "</Result>\r\n"
    ++ "</Response>\r\n"

/-- What `Impl::HandleDeviceControl` answers: the body of the answer that
`SendDeviceControlResponse` sends, the status of the answer that
`eXosip_message_build_answer_and_send` sends, or nothing. -/
inductive DeviceControlAnswer where
  | response (body : String)
  | status (code : Int)
  | nothing
  deriving DecidableEq

/-- The command number that the chain of `strstr` tests of `HandleDeviceControl` finds in
`cmdStr`. -/
def Impl.HandleDeviceControl.command (cmdStr : List Char) : Int :=
  if (strstr cmdStr "Command=1".data).isSome then 1
  else if (strstr cmdStr "Command=2".data).isSome then 2
  else if (strstr cmdStr "Command=3".data).isSome then 3
  else if (strstr cmdStr "Command=4".data).isSome then 4
  else if (strstr cmdStr "Command=5".data).isSome then 5
  else if (strstr cmdStr "Command=6".data).isSome then 6
  else if (strstr cmdStr "Command=7".data).isSome then 7
  else if (strstr cmdStr "Command=8".data).isSome then 8
  else if (strstr cmdStr "Command=11".data).isSome then 11
  else if (strstr cmdStr "Command=12".data).isSome then 12
  else if (strstr cmdStr "Command=21".data).isSome then 21
  else if (strstr cmdStr "Command=22".data).isSome then 22
  else if (strstr cmdStr "Command=23".data).isSome then 23
  else 0

/-- `Impl::HandleDeviceControl`: the event that the PTZ function it calls hands to the
event callback (when one is registered), and the answer it sends; `none` when an `atoi`
is undefined. -/
def Impl.HandleDeviceControl (self : Impl) (event : eXosip_event_t) :
    Option (Option (String × String) × DeviceControlAnswer) :=
  match event.request with
  | none => some (none, .nothing)
  | some request =>
    match osip_message_get_body request with
    | none => some (none, .status 400)
    | some body =>
      let body := (c_str body).data
      match strstr body "<PTZCmd>".data with
      | none => some (none, .status 400)
      | some ptzCmd =>
        match strstr ptzCmd ">".data with
        | none => some (none, .status 400)
        | some start =>
          let start := start.drop 1
          match find "<".data start with
          | none => some (none, .status 400)
          | some len =>
            if len < 256 then
              let cmdStr := start.take len
              let command := Impl.HandleDeviceControl.command cmdStr
              let speed :=
                match strstr cmdStr "Speed=".data with
                | some speedStr => atoi (speedStr.drop 6)
                | none => some 128
              let presetId :=
                match strstr cmdStr "PresetID=".data with
                | some presetStr => atoi (presetStr.drop 9)
                | none => some 0
              match speed, presetId with
              | some speed, some presetId =>
                let called :=
                  if 1 ≤ command ∧ command ≤ 8 then
                    some (Impl.PtzControl self.deviceId_ command speed)
                  else if command = 11 ∨ command = 12 then
                    some (Impl.PtzZoom self.deviceId_ (if command = 11 then 1 else 2) speed)
                  else if 21 ≤ command ∧ command ≤ 23 then
                    some (Impl.PtzPreset self.deviceId_
                      (if command = 21 then 1 else if command = 22 then 2 else 0) presetId)
                  else none
                let success := match called with
                  | some r => r.2
                  | none => false
                let result := if success then "OK" else "ERROR"
                match self.excontext_ with
                | some _ =>
                  some (called.map fun r => r.1,
                    .response (Impl.SendDeviceControlResponse.body self.deviceId_ result))
                | none => some (called.map fun r => r.1, .nothing)
              | _, _ => none
            else some (none, .status 400)

/-- The body `Impl::SendCatalogResponse` gives to its answer. -/
def Impl.SendCatalogResponse.body (deviceId localIp : String) (localPort : Int) : String :=
  "<?xml version=\"1.0\"?>\r\n"
    ++ "<Response>\r\n"
    ++ "<CmdType>Catalog</CmdType>\r\n"
    ++ "<SN>1</SN>\r\n"
    ++ "<DeviceID>" ++ deviceId ++ "</DeviceID>\r\n"
    ++ "<SumNum>1</SumNum>\r\n"
    ++ "<DeviceList Num=\"1\">\r\n"
    ++ "<Item>\r\n"
    ++ "<DeviceID>" ++ deviceId ++ "</DeviceID>\r\n"
    ++ "<Name>Camera 1</Name>\r\n"
    ++ "<Manufacturer>GB28181 Inc.</Manufacturer>\r\n"
    ++ "<Model>IPC-1000</Model>\r\n"
    ++ "<Status>ON</Status>\r\n"
    ++ "<IPAddress>" ++ localIp ++ "</IPAddress>\r\n"
    ++ "<Port>" ++ toString localPort ++ "</Port>\r\n"
    ++ "</Item>\r\n"
    ++ "</DeviceList>\r\n"
    ++ "</Response>\r\n"

/-- The body `Impl::SendDeviceInfoResponse` gives to its answer. -/
def Impl.SendDeviceInfoResponse.body (deviceId : String) : String :=
  "<?xml version=\"1.0\"?>\r\n"
    ++ "<Response>\r\n"
    ++ "<CmdType>DeviceInfo</CmdType>\r\n"
    ++ "<SN>1</SN>\r\n"
    ++ "<DeviceID>" ++ deviceId ++ "</DeviceID>\r\n"
    ++ "<DeviceName>GB28181 Camera</DeviceName>\r\n"
    ++ "<Manufacturer>GB28181 Inc.</Manufacturer>\r\n"
    ++ "<Model>IPC-1000</Model>\r\n"
    ++ "<FirmwareVersion>1.0.0</FirmwareVersion>\r\n"
    ++ "</Response>\r\n"

/-- The body `Impl::SendDeviceStatusResponse` gives to its answer. -/
def Impl.SendDeviceStatusResponse.body (deviceId : String) : String :=
  "<?xml version=\"1.0\"?>\r\n"
    ++ "<Response>\r\n"
    ++ "<CmdType>DeviceStatus</CmdType>\r\n"
    ++ "<SN>1</SN>\r\n"
    ++ "<DeviceID>" ++ deviceId ++ "</DeviceID>\r\n"
    ++ "<Result>OK</Result>\r\n"
    ++ "<Online>ONLINE</Online>\r\n"
    ++ "<Status>OK</Status>\r\n"
    ++ "<Encode>ON</Encode>\r\n"
    ++ "<Record>OFF</Record>\r\n"
    ++ "</Response>\r\n"

/-- The body `Impl::SendRecordInfoResponse` gives to its answer. -/
def Impl.SendRecordInfoResponse.body (deviceId : String) : String :=
  "<?xml version=\"1.0\"?>\r\n"
    ++ "<Response>\r\n"
    ++ "<CmdType>RecordInfo</CmdType>\r\n"
    ++ "<SN>1</SN>\r\n"
    ++ "<DeviceID>" ++ deviceId ++ "</DeviceID>\r\n"
    ++ "<SumNum>0</SumNum>\r\n"
    ++ "<RecordList Num=\"0\">\r\n"
    ++ "</RecordList>\r\n"
    ++ "</Response>\r\n"

/-- `Impl::HandleMessage`: the answers it sends, in order: the answer with a body that the
`Send...Response` function or `HandleDeviceControl` it calls sends, if any, and then the
answer 200 of `eXosip_message_build_answer_and_send`.  An answer is built when the
transaction context exists.  The result is `none` when `HandleDeviceControl` is
undefined. -/
def Impl.HandleMessage (self : Impl) (event : eXosip_event_t) :
    Option (List DeviceControlAnswer) :=
  match event.request with
  | none => some []
  | some request =>
    let answer (a : DeviceControlAnswer) : List DeviceControlAnswer :=
      match self.excontext_ with
      | some _ => [a]
      | none => []
    match osip_message_get_body request with
    | none => some (answer (.status 200))
    | some body =>
      let body := (c_str body).data
      if (strstr body "<CmdType>Catalog</CmdType>".data).isSome then
        some (answer (.response
            (Impl.SendCatalogResponse.body self.deviceId_ self.localIp_ self.localPort_))
          ++ answer (.status 200))
      else if (strstr body "<CmdType>DeviceInfo</CmdType>".data).isSome then
        some (answer (.response (Impl.SendDeviceInfoResponse.body self.deviceId_))
          ++ answer (.status 200))
      else if (strstr body "<CmdType>DeviceStatus</CmdType>".data).isSome then
        some (answer (.response (Impl.SendDeviceStatusResponse.body self.deviceId_))
          ++ answer (.status 200))
      else if (strstr body "<CmdType>RecordInfo</CmdType>".data).isSome then
        some (answer (.response (Impl.SendRecordInfoResponse.body self.deviceId_))
          ++ answer (.status 200))
      else if (strstr body "<CmdType>DeviceControl</CmdType>".data).isSome then
        match self.HandleDeviceControl event with
        | none => none
        | some (_, sent) =>
          some ((if sent = .nothing then [] else [sent]) ++ answer (.status 200))
      else some (answer (.status 200))

/-! ## The MANSCDP helpers (`src/utils/xml_parser.cpp`) -/

/-- `MscdpXmlHelper::GetCommandType`. -/
def MscdpXmlHelper.GetCommandType (xmlStr : String) : String :=
  match find "<CmdType>".data xmlStr.data with
  | some pos =>
    let pos := pos + 10
    match findFrom "</CmdType>".data xmlStr.data pos with
    | some endPos => String.mk ((xmlStr.data.drop pos).take (endPos - pos))
    | none => ""
  | none => ""

/-- `MscdpXmlHelper::GetDeviceId`. -/
def MscdpXmlHelper.GetDeviceId (xmlStr : String) : String :=
  match find "<DeviceID>".data xmlStr.data with
  | some pos =>
    let pos := pos + 11
    match findFrom "</DeviceID>".data xmlStr.data pos with
    | some endPos => String.mk ((xmlStr.data.drop pos).take (endPos - pos))
    | none => ""
  | none => ""

/-- `MscdpXmlHelper::GetSN`. -/
def MscdpXmlHelper.GetSN (xmlStr : String) : String :=
  match find "<SN>".data xmlStr.data with
  | some pos =>
    let pos := pos + 4
    match findFrom "</SN>".data xmlStr.data pos with
    | some endPos => String.mk ((xmlStr.data.drop pos).take (endPos - pos))
    | none => ""
  | none => ""

/-- The text between the first `open` and the next `close` that starts at least `skip`
characters after the beginning of `open`, as the three blocks of `ParseRecordInfoQuery`
extract it; `none` when the variable is left as it is. -/
def MscdpXmlHelper.ParseRecordInfoQuery.element (xmlStr : String) (open_ close : String)
    (skip : Nat) : Option String :=
  match find open_.data xmlStr.data with
  | some pos =>
    let pos := pos + skip
    match findFrom close.data xmlStr.data pos with
    | some endPos => some (String.mk ((xmlStr.data.drop pos).take (endPos - pos)))
    | none => none
  | none => none

/-- `MscdpXmlHelper::ParseRecordInfoQuery`: the returned flag and the values left in
`channelId`, `startTime` and `endTime`. -/
def MscdpXmlHelper.ParseRecordInfoQuery (xmlStr : String) : Bool × String × String × String :=
  let channelId :=
    (MscdpXmlHelper.ParseRecordInfoQuery.element xmlStr "<DeviceID>" "</DeviceID>" 11).getD ""
  let startTime :=
    (MscdpXmlHelper.ParseRecordInfoQuery.element xmlStr "<StartTime>" "</StartTime>" 11).getD ""
  let endTime :=
    (MscdpXmlHelper.ParseRecordInfoQuery.element xmlStr "<EndTime>" "</EndTime>" 9).getD ""
  (!channelId.isEmpty, channelId, startTime, endTime)

/-! ## The XML parser (`src/utils/xml_parser.cpp`)

A position `pos` in the text `str` is represented by the text from `pos` on, so that
`pos < str.length()` is "the rest is not empty", `str[pos]` its first character and
`pos++` its tail; a position at or past the end is the empty rest. -/

/-- The attributes of a node (`std::map<std::string, std::string>`). -/
abbrev XmlAttributes := AList fun _ : String => String

/-- `class XmlNode`: tag name, text, attributes and children. -/
inductive XmlNode where
  | mk (tagName_ text_ : String) (attributes_ : XmlAttributes) (children_ : List XmlNode)

/-- `XmlNode::GetTagName`. -/
def XmlNode.GetTagName : XmlNode → String
  | .mk tagName_ _ _ _ => tagName_

/-- `XmlNode::GetText`. -/
def XmlNode.GetText : XmlNode → String
  | .mk _ text_ _ _ => text_

/-- `XmlNode::GetAttributes`. -/
def XmlNode.GetAttributes : XmlNode → XmlAttributes
  | .mk _ _ attributes_ _ => attributes_

/-- `XmlNode::GetChildren`. -/
def XmlNode.GetChildren : XmlNode → List XmlNode
  | .mk _ _ _ children_ => children_

/-- The test of `XmlParser::SkipWhitespace`. -/
def XmlParser.isWhitespace (c : Char) : Bool := c = ' ' || c = '\t' || c = '\n' || c = '\r'

/-- `XmlParser::SkipWhitespace`. -/
def XmlParser.SkipWhitespace (pos : List Char) : List Char := pos.dropWhile XmlParser.isWhitespace

/-- The test of `XmlParser::ParseTagName` (`isalnum` in the C locale). -/
def XmlParser.isTagNameChar (c : Char) : Bool := c.isAlphanum || c = '_' || c = '-' || c = ':'

/-- `XmlParser::ParseTagName`: the name and the new position. -/
def XmlParser.ParseTagName (pos : List Char) : String × List Char :=
  (String.mk (pos.takeWhile XmlParser.isTagNameChar), pos.dropWhile XmlParser.isTagNameChar)

/-- The test of the attribute-name loop of `XmlParser::ParseAttributes`. -/
def XmlParser.isAttrNameChar (c : Char) : Bool := c.isAlphanum || c = '_' || c = '-'

/-- The loop of `XmlParser::ParseAttributes` that reads a quoted value: the value and the
position at which it stops (the closing quote or the end). -/
def XmlParser.ParseAttributes.value (quote : Char) : List Char → List Char × List Char
  | [] => ([], [])
  | c :: rest =>
    if c = quote then ([], c :: rest)
    else if c = '\\' then
      match rest with
      | d :: rest =>
        match XmlParser.ParseAttributes.value quote rest with
        | (value, pos) => (d :: value, pos)
      | [] => ([c], [])
    else
      match XmlParser.ParseAttributes.value quote rest with
      | (value, pos) => (c :: value, pos)

/-- `XmlParser::ParseAttributes`: the one attribute it has read, if any, and the new
position. -/
def XmlParser.ParseAttributes (pos : List Char) : Option (String × String) × List Char :=
  let pos := XmlParser.SkipWhitespace pos
  if pos.isEmpty ∨ pos.head? = some '>' ∨ pos.head? = some '/' then (none, pos)
  else
    let attrName := String.mk (pos.takeWhile XmlParser.isAttrNameChar)
    let pos := pos.dropWhile XmlParser.isAttrNameChar
    let pos := XmlParser.SkipWhitespace pos
    let pos := if pos.head? = some '=' then pos.drop 1 else pos
    let pos := XmlParser.SkipWhitespace pos
    if pos.head? = some '"' ∨ pos.head? = some '\'' then
      match XmlParser.ParseAttributes.value (pos.headD ' ') (pos.drop 1) with
      | (attrValue, pos) => (some (attrName, String.mk attrValue), pos.drop 1)
    else (none, pos)

/-- `XmlParser::ParseText`: the text and the new position. -/
def XmlParser.ParseText (pos : List Char) : String × List Char :=
  (String.mk (pos.takeWhile fun c => c ≠ '<'), pos.dropWhile fun c => c ≠ '<')

/-- The loop of `XmlParser::ParseComment`. -/
def XmlParser.ParseComment.loop : List Char → List Char
  | [] => []
  | a :: tail =>
    match tail with
    | b :: c :: rest =>
      if a = '-' ∧ b = '-' ∧ c = '>' then rest else XmlParser.ParseComment.loop tail
    | _ => a :: tail

/-- `XmlParser::ParseComment`. -/
def XmlParser.ParseComment (pos : List Char) : List Char :=
  XmlParser.ParseComment.loop (pos.drop 3)

/-- The loop of `XmlParser::ParseDeclaration`. -/
def XmlParser.ParseDeclaration.loop : List Char → List Char
  | [] => []
  | a :: tail =>
    match tail with
    | b :: rest =>
      if a = '?' ∧ b = '>' then rest else XmlParser.ParseDeclaration.loop tail
    | [] => a :: tail

/-- `XmlParser::ParseDeclaration`. -/
def XmlParser.ParseDeclaration (pos : List Char) : List Char :=
  XmlParser.ParseDeclaration.loop (pos.drop 2)

/-- The attribute loop of `XmlParser::ParseElement`: the attributes of the node and the
position when the loop ends; `none` when it has not ended after `fuel` rounds. -/
def XmlParser.ParseElement.attributes : Nat → List Char → XmlAttributes →
    Option (XmlAttributes × List Char)
  | 0, _, _ => none
  | fuel + 1, pos, attributes_ =>
    if !pos.isEmpty ∧ pos.head? ≠ some '>' ∧ pos.head? ≠ some '/' then
      match XmlParser.ParseAttributes pos with
      | (attrs, pos) =>
        let attributes_ :=
          match attrs with
          | some attr => attributes_.insert attr.1 attr.2
          | none => attributes_
        XmlParser.ParseElement.attributes fuel (XmlParser.SkipWhitespace pos) attributes_
    else some (attributes_, pos)

mutual

/-- `XmlParser::ParseElement`: the node (`none` for `nullptr`) and the new position;
`none` when the call has not returned within `fuel` nested calls and loop rounds. -/
def XmlParser.ParseElement : Nat → List Char → Option (Option XmlNode × List Char)
  | 0, _ => none
  | fuel + 1, pos =>
    let pos := XmlParser.SkipWhitespace pos
    if pos.head? ≠ some '<' then some (none, pos)
    else
      let pos := pos.drop 1
      if pos.head? = some '/' then some (none, pos)
      else if 3 < pos.length ∧ pos.take 3 = ['!', '-', '-'] then
        XmlParser.ParseElement fuel (XmlParser.SkipWhitespace (XmlParser.ParseComment pos))
      else
        match XmlParser.ParseTagName pos with
        | (tagName, pos) =>
          match XmlParser.ParseElement.attributes fuel (XmlParser.SkipWhitespace pos) ∅ with
          | none => none
          | some (attributes_, pos) =>
            if pos.head? = some '/' then
              let pos := pos.drop 1
              let pos := if pos.head? = some '>' then pos.drop 1 else pos
              some (some (.mk tagName "" attributes_ []), pos)
            else
              let pos := if pos.head? = some '>' then pos.drop 1 else pos
              match XmlParser.ParseElement.children fuel pos "" [] with
              | none => none
              | some (text_, children_, pos) =>
                some (some (.mk tagName text_ attributes_ children_), pos)

/-- The loop of `XmlParser::ParseElement` over child nodes and text: the text and the
children of the node and the position when the loop ends. -/
def XmlParser.ParseElement.children : Nat → List Char → String → List XmlNode →
    Option (String × List XmlNode × List Char)
  | 0, _, _, _ => none
  | fuel + 1, pos, text_, children_ =>
    if pos.isEmpty then some (text_, children_, pos)
    else
      let pos := XmlParser.SkipWhitespace pos
      if pos.isEmpty then some (text_, children_, pos)
      else if pos.head? = some '<' then
        if (pos.drop 1).head? = some '/' then
          let pos := XmlParser.SkipWhitespace (XmlParser.ParseTagName (pos.drop 2)).2
          let pos := if pos.head? = some '>' then pos.drop 1 else pos
          some (text_, children_, pos)
        else
          match XmlParser.ParseElement fuel pos with
          | none => none
          | some (child, pos) =>
            match child with
            | some child => XmlParser.ParseElement.children fuel pos text_ (children_ ++ [child])
            | none => XmlParser.ParseElement.children fuel pos text_ children_
      else
        match XmlParser.ParseText pos with
        | (text, pos) => XmlParser.ParseElement.children fuel pos text children_

end

/-- `XmlParser::Parse`: the root node (`none` for `nullptr`); `none` when the call has not
returned within `fuel` nested calls and loop rounds. -/
def XmlParser.Parse (fuel : Nat) (xmlStr : String) : Option (Option XmlNode) :=
  let pos := XmlParser.SkipWhitespace xmlStr.data
  let pos :=
    if pos.head? = some '<' ∧ 1 < pos.length ∧ (pos.drop 1).head? = some '?' then
      XmlParser.SkipWhitespace (XmlParser.ParseDeclaration pos)
    else pos
  (XmlParser.ParseElement fuel pos).map fun r => r.1

/-- The tag name, the text, the number of attributes and the tag names of the children of
a node. -/
def XmlNode.summary (node : XmlNode) : String × String × Nat × List String :=
  (node.GetTagName, node.GetText, node.GetAttributes.keys.length,
    node.GetChildren.map XmlNode.GetTagName)

/-- `XmlNode::GetIntValue`: `std::stoi` of the text, 0 when it throws. -/
def XmlNode.GetIntValue (node : XmlNode) : Int :=
  match stoi node.GetText.data with
  | .ok value => value
  | .error _ => 0

/-! ## The alarm manager (`src/device/alarm_manager.cpp`) -/

/-- `enum class AlarmLevel`. -/
inductive AlarmLevel where
  | INFO
  | WARNING
  | CRITICAL
  | EMERGENCY
  deriving DecidableEq

/-- `enum class AlarmType`. -/
inductive AlarmType where
  | VIDEO_LOSS
  | MOTION_DETECT
  | IO_ALARM
  | STORAGE_FAILURE
  | NETWORK_FAILURE
  | ILLEGAL_ACCESS
  | VIDEO_BLIND
  | OTHER
  deriving DecidableEq

/-- `struct AlarmInfo`; the two `double` fields hold the bit patterns of their values. -/
structure AlarmInfo where
  alarmId : String
  deviceId : String
  channelId : String
  type : AlarmType
  level : AlarmLevel
  method : String
  startTime : String
  endTime : String
  description : String
  latitude : Nat
  longitude : Nat
  priority : Int
  attachment : String
  isActive : Bool
  deriving DecidableEq

/-- The data members of `AlarmManager` (without the reporting thread), and the alarms the
alarm callback has received so far. -/
structure AlarmManager where
  alarms_ : AList fun _ : String => AlarmInfo
  alarmHistory_ : List AlarmInfo
  alarmCallback_ : Bool
  initialized_ : Bool
  reportingEnabled_ : Bool
  reportingInterval_ : Int
  running_ : Bool
  alarmCounter_ : Int
  reported : List AlarmInfo

/-- The constructor of `AlarmManager`. -/
def AlarmManager.new : AlarmManager :=
  { alarms_ := ∅, alarmHistory_ := [], alarmCallback_ := false, initialized_ := false,
    reportingEnabled_ := false, reportingInterval_ := 60, running_ := false,
    alarmCounter_ := 0, reported := [] }

/-- `AlarmManager::Initialize`. -/
def AlarmManager.Initialize (self : AlarmManager) : AlarmManager × Bool :=
  ({ self with initialized_ := true }, true)

/-- `AlarmManager::SetAlarmCallback` with a non-empty function. -/
def AlarmManager.SetAlarmCallback (self : AlarmManager) : AlarmManager :=
  { self with alarmCallback_ := true }

/-- `AlarmManager::GenerateAlarmId`; `clock` is the tick count of the system clock.
`none` when `++alarmCounter_` overflows `int`. -/
def AlarmManager.GenerateAlarmId (self : AlarmManager) (clock : Int) :
    Option (AlarmManager × String) :=
  if self.alarmCounter_ + 1 > 2147483647 then none
  else
    some ({ self with alarmCounter_ := self.alarmCounter_ + 1 },
      "alarm_" ++ toString clock ++ "_" ++ toString (self.alarmCounter_ + 1))

/-- The copy `newAlarm` that `TriggerAlarm` makes of its argument: the generated id, the
active flag, and the current time as start time when the argument has none. -/
def AlarmManager.TriggerAlarm.newAlarm (alarm : AlarmInfo) (alarmId currentTime : String) :
    AlarmInfo :=
  let newAlarm := { alarm with alarmId := alarmId, isActive := true }
  if newAlarm.startTime.isEmpty then { newAlarm with startTime := currentTime } else newAlarm

/-- `AlarmManager::TriggerAlarm`; `clock` is the tick count `GenerateAlarmId` reads and
`currentTime` the text `GetCurrentTime` returns. -/
def AlarmManager.TriggerAlarm (self : AlarmManager) (alarm : AlarmInfo) (clock : Int)
    (currentTime : String) : Option (AlarmManager × String) :=
  if !self.initialized_ then some (self, "")
  else
    match self.GenerateAlarmId clock with
    | none => none
    | some (self, alarmId) =>
      let newAlarm := AlarmManager.TriggerAlarm.newAlarm alarm alarmId currentTime
      let alarms := self.alarms_.insert alarmId newAlarm
      let alarmHistory := self.alarmHistory_ ++ [newAlarm]
      let alarmHistory := if alarmHistory.length > 1000 then alarmHistory.drop 1 else alarmHistory
      let reported := if self.alarmCallback_ then self.reported ++ [newAlarm] else self.reported
      some ({ self with alarms_ := alarms, alarmHistory_ := alarmHistory, reported := reported },
        alarmId)

/-- `AlarmManager::ClearAlarm` (the end time it writes is erased with the entry). -/
def AlarmManager.ClearAlarm (self : AlarmManager) (alarmId : String) : AlarmManager × Bool :=
  match self.alarms_.lookup alarmId with
  | none => (self, false)
  | some _ => ({ self with alarms_ := self.alarms_.erase alarmId }, true)

/-- One call of `TriggerAlarm` or `ClearAlarm`, with the clock readings it meets. -/
inductive AlarmOp where
  | TriggerAlarm (alarm : AlarmInfo) (clock : Int) (currentTime : String)
  | ClearAlarm (alarmId : String)

/-- The manager after a sequence of calls, with the ids the `TriggerAlarm` calls returned,
in order; `none` when one of the calls is undefined. -/
def AlarmManager.run (self : AlarmManager) : List AlarmOp → Option (AlarmManager × List String)
  | [] => some (self, [])
  | .TriggerAlarm alarm clock currentTime :: ops =>
    match self.TriggerAlarm alarm clock currentTime with
    | none => none
    | some (self, alarmId) =>
      match self.run ops with
      | none => none
      | some (self, ids) => some (self, alarmId :: ids)
  | .ClearAlarm alarmId :: ops => (self.ClearAlarm alarmId).1.run ops

/-- The number of `TriggerAlarm` calls in a sequence. -/
def AlarmOp.triggers : List AlarmOp → Nat
  | [] => 0
  | .TriggerAlarm _ _ _ :: ops => AlarmOp.triggers ops + 1
  | .ClearAlarm _ :: ops => AlarmOp.triggers ops

/-- `std::sort(first, last, comp)` for a strict weak ordering `comp`: the elements in an
order in which none comes before an element that `comp` puts before it.  The C++
standard leaves the relative order of equivalent elements open; the model is the insertion
sort, which keeps it. -/
def std_sort {α : Type} (comp : α → α → Bool) (l : List α) : List α :=
  l.insertionSort fun a b => comp b a = false

/-- The entries of a `std::map` with `std::string` keys in the order in which a loop over
the map meets them: by increasing key. -/
def traverse {β : Type} (m : AList fun _ : String => β) : List (String × β) :=
  (m.entries.insertionSort fun a b => a.1 ≤ b.1).map fun e => (e.1, e.2)

/-- `AlarmManager::GetActiveAlarms`. -/
def AlarmManager.GetActiveAlarms (self : AlarmManager) : List AlarmInfo :=
  ((traverse self.alarms_).filter fun pair => pair.2.isActive).map fun pair => pair.2

/-- `AlarmManager::GetAlarmHistory(channelId, limit)`; the header gives the arguments the
defaults `""` and `100`. -/
def AlarmManager.GetAlarmHistory (self : AlarmManager) (channelId : String) (limit : Int) :
    List AlarmInfo :=
  let history := self.alarmHistory_.filter fun alarm =>
    channelId.isEmpty || alarm.channelId = channelId
  let history := std_sort (fun a b => decide (b.startTime < a.startTime)) history
  if limit > 0 ∧ history.length > limit.toNat then history.take limit.toNat else history

/-- `AlarmManager::GetAlarmTypeName`. -/
def AlarmManager.GetAlarmTypeName : AlarmType → String
  | .VIDEO_LOSS => "1"
  | .MOTION_DETECT => "2"
  | .IO_ALARM => "3"
  | .STORAGE_FAILURE => "4"
  | .NETWORK_FAILURE => "5"
  | .ILLEGAL_ACCESS => "6"
  | .VIDEO_BLIND => "7"
  | _ => "8"

/-- `AlarmManager::GetAlarmLevelName`. -/
def AlarmManager.GetAlarmLevelName : AlarmLevel → String
  | .INFO => "1"
  | .WARNING => "2"
  | .CRITICAL => "3"
  | .EMERGENCY => "4"

/-- The test `x != 0` on the `double` of bit pattern `bits`: false for the two zeros. -/
def doubleIsNonZero (bits : Nat) : Bool := bits % 2 ^ 63 ≠ 0

/-- The optional line `<name>text</name>` that `GenerateAlarmNotify` writes when `text` is
not empty. -/
def AlarmManager.GenerateAlarmNotify.optional (name text : String) : String :=
  if !text.isEmpty then "<" ++ name ++ ">" ++ text ++ "</" ++ name ++ ">\r\n" else ""

/-- `AlarmManager::GenerateAlarmNotify`: the new object and the text.  `showDouble` gives
the text that `operator<<` writes for the `double` of a given bit pattern; `none` when
`++alarmCounter_` overflows `int`. -/
def AlarmManager.GenerateAlarmNotify (self : AlarmManager) (alarm : AlarmInfo)
    (showDouble : Nat → String) : Option (AlarmManager × String) :=
  if self.alarmCounter_ + 1 > 2147483647 then none
  else
    some ({ self with alarmCounter_ := self.alarmCounter_ + 1 },
      "<?xml version=\"1.0\" encoding=\"GB2312\"?>\r\n"
        ++ "<Notify>\r\n"
        ++ "<CmdType>Alarm</CmdType>\r\n"
        ++ "<SN>" ++ toString (self.alarmCounter_ + 1) ++ "</SN>\r\n"
        ++ "<DeviceID>" ++ alarm.deviceId ++ "</DeviceID>\r\n"
        ++ "<AlarmPriority>" ++ toString alarm.priority ++ "</AlarmPriority>\r\n"
        ++ "<AlarmTime>" ++ alarm.startTime ++ "</AlarmTime>\r\n"
        ++ "<AlarmMethod>" ++ alarm.method ++ "</AlarmMethod>\r\n"
        ++ "<AlarmType>" ++ AlarmManager.GetAlarmTypeName alarm.type ++ "</AlarmType>\r\n"
        ++ "<AlarmLevel>" ++ AlarmManager.GetAlarmLevelName alarm.level ++ "</AlarmLevel>\r\n"
        ++ AlarmManager.GenerateAlarmNotify.optional "DeviceID" alarm.channelId
        ++ AlarmManager.GenerateAlarmNotify.optional "Description" alarm.description
        ++ (if doubleIsNonZero alarm.latitude || doubleIsNonZero alarm.longitude then
              "<Longitude>" ++ showDouble alarm.longitude ++ "</Longitude>\r\n"
                ++ "<Latitude>" ++ showDouble alarm.latitude ++ "</Latitude>\r\n"
            else "")
        ++ AlarmManager.GenerateAlarmNotify.optional "Attachment" alarm.attachment
        ++ "</Notify>\r\n")

/-- An alarm as a caller fills it in: motion detected on channel 1. -/
def motionAlarm : AlarmInfo :=
  { alarmId := "", deviceId := "34020000001320000001", channelId := "34020000001320000001",
    type := .MOTION_DETECT, level := .WARNING, method := "0", startTime := "", endTime := "",
    description := "motion", latitude := 0, longitude := 0, priority := 1, attachment := "",
    isActive := false }

/-! ## The SIP message parser (`3rd/osip/src/osip_parser.c`)

The buffer `buf` of `len` octets is a list of characters; an index stands for the pointer
to that octet.  The octet at index `len` is the NUL that ends the text, as in the buffer
`osip_message_to_str` fills, so that the octet at an index from `len` on reads as NUL here;
the parser writes NUL octets into the buffer. -/

/-- The NUL character. -/
def NUL : Char := Char.ofNat 0

/-- The C string at the index `str` of the buffer: the octets before the next NUL. -/
def cstrAt (buf : List Char) (str : Nat) : List Char :=
  (buf.drop str).takeWhile fun c => c ≠ NUL

/-- `strchr(str, ch)` in the buffer: the index of the first `ch` of the C string at `str`. -/
def strchr (buf : List Char) (str : Nat) (ch : Char) : Option Nat :=
  if ch ∈ cstrAt buf str then some (str + (cstrAt buf str).indexOf ch) else none

/-- The blanks that `trim` removes. -/
def trim.isBlank (c : Char) : Bool := c = ' ' || c = '\t' || c = '\r'

/-- The static function `trim(str)`: the buffer after the NUL it writes, and the returned
pointer. -/
def trim (buf : List Char) (str : Nat) : List Char × Nat :=
  let str := str + ((buf.drop str).takeWhile trim.isBlank).length
  if buf.getD str NUL = NUL then (buf, str)
  else
    let end_ := str + (cstrAt buf str).length - 1
    let end_ := end_ - (((cstrAt buf str).drop 1).reverse.takeWhile trim.isBlank).length
    (buf.set (end_ + 1) NUL, str)

/-- The scan `while (pos < end && *pos != '\r' && *pos != '\n') pos++`: the new `pos`. -/
def osip_message_parse.scan (buf : List Char) (pos : Nat) : Nat :=
  pos + ((buf.drop pos).takeWhile fun c => c ≠ '\r' ∧ c ≠ '\n').length

/-- The step of `osip_message_parse` after a scan: a CR LF or LF at `pos` is ended with NUL
and skipped.  The result is the buffer and the new `pos`. -/
def osip_message_parse.endLine (buf : List Char) (pos : Nat) : List Char × Nat :=
  if buf.getD pos NUL = '\r' ∧ buf.getD (pos + 1) NUL = '\n' then (buf.set pos NUL, pos + 2)
  else if buf.getD pos NUL = '\n' then (buf.set pos NUL, pos + 1)
  else (buf, pos)

/-- The first-line block of `osip_message_parse` for the line at index 0 of the buffer;
`none` when `atoi` is undefined or reads past the NUL that ends the buffer. -/
def osip_message_parse.firstLine (msg : osip_message_t) (buf : List Char) :
    Option osip_message_t :=
  if (cstrAt buf 0).take 7 = "SIP/2.0".data then
    if 8 ≤ buf.length then
      (atoi (cstrAt buf 8)).map fun code =>
        { msg with type := .OSIP_RESPONSE, status_code := code }
    else none
  else
    let msg := { msg with type := .OSIP_REQUEST }
    match strchr buf 0 ' ' with
    | some space =>
      let msg := { msg with sip_method := some (String.mk (buf.take space)) }
      let uri := space + 1
      match strchr buf uri ' ' with
      | some space =>
        some { msg with sip_uri := some (String.mk ((buf.drop uri).take (space - uri))) }
      | none => some msg
    | none => some msg

/-- The header loop of `osip_message_parse` from `pos` on: the buffer, `pos` and the message
when the loop ends.  Every round that does not end the loop moves `pos` forward, so that
`fuel` rounds are enough when `fuel` exceeds the length of the buffer.  The chain of
`strcasecmp` tests on the header name is the one of `osip_message_set_header`. -/
def osip_message_parse.headers : Nat → List Char → Nat → osip_message_t →
    List Char × Nat × osip_message_t
  | 0, buf, pos, msg => (buf, pos, msg)
  | fuel + 1, buf, pos, msg =>
    if pos < buf.length then
      let line := pos
      let pos := osip_message_parse.scan buf pos
      if pos = line then (buf, pos, msg)
      else
        match osip_message_parse.endLine buf pos with
        | (buf, pos) =>
          match strchr buf line ':' with
          | some colon =>
            match trim (buf.set colon NUL) line with
            | (buf, header_name) =>
              match trim buf (colon + 1) with
              | (buf, header_value) =>
                osip_message_parse.headers fuel buf pos
                  (osip_message_set_header msg (String.mk (cstrAt buf header_name))
                    (String.mk (cstrAt buf header_value)))
          | none => osip_message_parse.headers fuel buf pos msg
    else (buf, pos, msg)

/-- `osip_message_parse(msg, buf, len)` for the `len` octets `buf`: the return value and the
message; `none` when the behaviour is undefined. -/
def osip_message_parse (msg : osip_message_t) (buf : String) : Option (Int × osip_message_t) :=
  if buf.data.isEmpty then some (-1, msg)
  else
    match osip_message_parse.endLine buf.data (osip_message_parse.scan buf.data 0) with
    | (data, pos) =>
      match osip_message_parse.firstLine msg data with
      | none => none
      | some msg =>
        match osip_message_parse.headers (data.length + 1) data pos msg with
        | (data, pos, msg) =>
          if pos < data.length then
            some (0, { msg with
              body := some (String.mk
                (((data.drop pos).take (data.length - pos)).takeWhile fun c => c ≠ NUL)),
              body_length := data.length - pos })
          else some (0, msg)

/-! ## The device manager (`src/device/device_manager.cpp`) -/

/-- `enum class DeviceStatus`. -/
inductive DeviceStatus where
  | ONLINE
  | OFFLINE
  | REGISTERING
  deriving DecidableEq

/-- `struct DeviceInfo`. -/
structure DeviceInfo where
  deviceId : String
  deviceName : String
  manufacturer : String
  model : String
  firmwareVersion : String
  ipAddress : String
  port : Int
  status : DeviceStatus
  deriving DecidableEq

/-- `struct ChannelInfo`. -/
structure ChannelInfo where
  channelId : String
  channelName : String
  channelType : Int
  status : String
  deriving DecidableEq

/-- The data members of `DeviceManager::Impl`; `eventCallback_` tells whether a callback
is registered. -/
structure DeviceManager where
  deviceInfo_ : DeviceInfo
  channels_ : AList fun _ : String => ChannelInfo
  status_ : DeviceStatus
  eventCallback_ : Bool

/-- The constructor of `DeviceManager::Impl`.  It leaves the members `port` and `status`
of `deviceInfo_` uninitialised: `port` and `status` are the values they happen to hold. -/
def DeviceManager.new (port : Int) (status : DeviceStatus) : DeviceManager :=
  { deviceInfo_ := { deviceId := "", deviceName := "", manufacturer := "", model := "",
                     firmwareVersion := "", ipAddress := "", port := port, status := status }
    channels_ := ∅
    status_ := .OFFLINE
    eventCallback_ := false }

/-- The text that one round of the loop of `GenerateCatalogResponse` writes for the
channel `channel`. -/
def DeviceManager.GenerateCatalogResponse.item (deviceInfo : DeviceInfo)
    (channel : ChannelInfo) : String :=
  "<Item>\r\n"
    ++ "<DeviceID>" ++ channel.channelId ++ "</DeviceID>\r\n"
    ++ "<Name>" ++ channel.channelName ++ "</Name>\r\n"
    ++ "<Manufacturer>" ++ deviceInfo.manufacturer ++ "</Manufacturer>\r\n"
    ++ "<Model>" ++ deviceInfo.model ++ "</Model>\r\n"
    ++ "<Status>" ++ channel.status ++ "</Status>\r\n"
    ++ "<IPAddress>" ++ deviceInfo.ipAddress ++ "</IPAddress>\r\n"
    ++ "<Port>" ++ toString deviceInfo.port ++ "</Port>\r\n"
    ++ "</Item>\r\n"

/-- The loop of `GenerateCatalogResponse` over the channels that are left. -/
def DeviceManager.GenerateCatalogResponse.items (deviceInfo : DeviceInfo) :
    List ChannelInfo → String
  | [] => ""
  | channel :: channels =>
    DeviceManager.GenerateCatalogResponse.item deviceInfo channel
      ++ DeviceManager.GenerateCatalogResponse.items deviceInfo channels

/-- `DeviceManager::GenerateCatalogResponse`; `channels_.size()` is the number of keys of
the map, and the counter `index` of the loop is not used. -/
def DeviceManager.GenerateCatalogResponse (self : DeviceManager) : String :=
  "<?xml version=\"1.0\"?>\r\n"
    ++ "<Response>\r\n"
    ++ "<CmdType>Catalog</CmdType>\r\n"
    ++ "<SN>1</SN>\r\n"
    ++ "<DeviceID>" ++ self.deviceInfo_.deviceId ++ "</DeviceID>\r\n"
    ++ "<SumNum>" ++ toString self.channels_.keys.length ++ "</SumNum>\r\n"
    ++ "<DeviceList Num=\"" ++ toString self.channels_.keys.length ++ "\">\r\n"
    ++ DeviceManager.GenerateCatalogResponse.items self.deviceInfo_
        ((traverse self.channels_).map fun pair => pair.2)
    ++ "</DeviceList>\r\n"
    ++ "</Response>\r\n"

/-! ## The record manager (`src/device/record_manager.cpp`) -/

/-- `enum class RecordType`. -/
inductive RecordType where
  | TIME
  | MANUAL
  | ALARM
  | ALL
  deriving DecidableEq

/-- `struct RecordInfo`. -/
structure RecordInfo where
  deviceId : String
  channelId : String
  startTime : String
  endTime : String
  type : RecordType
  filePath : String
  fileSize : Nat
  storage : String
  hasPrivacy : Bool
  deriving DecidableEq

/-- `struct RecordQueryCondition`. -/
structure RecordQueryCondition where
  channelId : String
  startTime : String
  endTime : String
  type : RecordType
  maxResults : Int
  order : String
  deriving DecidableEq

/-- The data members of `RecordManager`. -/
structure RecordManager where
  recordPath_ : String
  records_ : List RecordInfo
  initialized_ : Bool
  deriving DecidableEq

/-- The constructor of `RecordManager`. -/
def RecordManager.new : RecordManager :=
  { recordPath_ := "", records_ := [], initialized_ := false }

/-- `RecordManager::AddRecord`. -/
def RecordManager.AddRecord (self : RecordManager) (record : RecordInfo) : RecordManager :=
  { self with records_ := self.records_ ++ [record] }

/-- `RecordManager::Initialize`; `directory` tells whether the directory exists or has been
created, and `found` lists the records that `ScanRecordFiles` adds for its files. -/
def RecordManager.Initialize (self : RecordManager) (recordPath : String) (directory : Bool)
    (found : List RecordInfo) : RecordManager × Bool :=
  let self := { self with recordPath_ := recordPath }
  if !directory then (self, false)
  else (found.foldl RecordManager.AddRecord { self with initialized_ := true }, true)

/-- The three filters of the loop of `QueryRecords`: `true` when `record` passes them. -/
def RecordManager.QueryRecords.passes (condition : RecordQueryCondition)
    (record : RecordInfo) : Bool :=
  if !condition.channelId.isEmpty ∧ record.channelId ≠ condition.channelId then false
  else if condition.type ≠ RecordType.ALL ∧ record.type ≠ condition.type then false
  else if !condition.startTime.isEmpty ∧ record.endTime < condition.startTime then false
  else if !condition.endTime.isEmpty ∧ record.startTime > condition.endTime then false
  else true

/-- The loop of `QueryRecords` over the records that are left, with the results so far. -/
def RecordManager.QueryRecords.loop (condition : RecordQueryCondition) :
    List RecordInfo → List RecordInfo → List RecordInfo
  | [], results => results
  | record :: records, results =>
    if !RecordManager.QueryRecords.passes condition record then
      RecordManager.QueryRecords.loop condition records results
    else
      let results := results ++ [record]
      if condition.maxResults > 0 ∧ results.length ≥ condition.maxResults.toNat then results
      else RecordManager.QueryRecords.loop condition records results

/-- `RecordManager::QueryRecords`. -/
def RecordManager.QueryRecords (self : RecordManager) (condition : RecordQueryCondition) :
    List RecordInfo :=
  if !self.initialized_ then []
  else
    let results := RecordManager.QueryRecords.loop condition self.records_ []
    if condition.order = "asc" then
      std_sort (fun a b => decide (a.startTime < b.startTime)) results
    else if condition.order = "desc" then
      std_sort (fun a b => decide (a.startTime > b.startTime)) results
    else results

/-! ## Writing a tree as text (`XmlParser::ToString` in `src/utils/xml_parser.cpp`) -/

/-- The loop of `XmlParser::ToString` over the attributes that are left. -/
def XmlParser.ToString.attributes : List (String × String) → String
  | [] => ""
  | attr :: attrs =>
    " " ++ attr.1 ++ "=\"" ++ attr.2 ++ "\"" ++ XmlParser.ToString.attributes attrs

mutual

/-- `XmlParser::ToString(node, pretty)` for a node that is not null. -/
def XmlParser.ToString.node : XmlNode → Bool → String
  | .mk tagName_ text_ attributes_ children_, pretty =>
    "<" ++ tagName_ ++ XmlParser.ToString.attributes (traverse attributes_)
      ++ (if children_.isEmpty ∧ text_.isEmpty then "/>"
          else
            ">" ++ text_ ++ XmlParser.ToString.children children_ pretty
              ++ "</" ++ tagName_ ++ ">")

/-- The loop of `XmlParser::ToString` over the children that are left. -/
def XmlParser.ToString.children : List XmlNode → Bool → String
  | [], _ => ""
  | child :: children, pretty =>
    (if pretty then "\n" else "") ++ XmlParser.ToString.node child pretty
      ++ XmlParser.ToString.children children pretty

end

/-- `XmlParser::ToString(node, pretty)`; `none` is the null pointer. -/
def XmlParser.ToString (node : Option XmlNode) (pretty : Bool) : String :=
  match node with
  | none => ""
  | some node => XmlParser.ToString.node node pretty

/-! ## Predicates used in the statements -/

/-- A string of exactly 32 lowercase hexadecimal digits. -/
def isLowerHex32 (s : String) : Prop :=
  s.length = 32 ∧ ∀ c ∈ s.data, c ∈ "0123456789abcdef".data

/-- The lines of an SDP text as `std::getline` reads them, each without its final carriage
return. -/
def sdpLines (text : String) : List String :=
  (getlines text.data).map fun line =>
    String.mk (if line.getLast? = some '\r' then line.dropLast else line)

/-- The text made of the given lines, each ended by CR LF. -/
def crlfLines : List String → String
  | [] => ""
  | line :: lines => line ++ "\r\n" ++ crlfLines lines

/-- The lines of an SDP text that begin with `start`. -/
def linesFrom (start : String) (text : String) : List String :=
  (sdpLines text).filter fun line => start.data.isPrefixOf line.data

/-- The pieces of a text between the occurrences of the character `sep`. -/
def pieces (sep : Char) : List Char → List (List Char)
  | [] => [[]]
  | c :: cs =>
    if c = sep then [] :: pieces sep cs
    else
      match pieces sep cs with
      | [] => [[c]]
      | piece :: rest => (c :: piece) :: rest

/-- The payload-type list of a media line `m=<media> <port> <proto> <fmt> ...`: its
blank-separated fields after the third. -/
def payloadTypes (mline : String) : List String :=
  (((pieces ' ' mline.data).filter fun piece => !piece.isEmpty).drop 3).map String.mk

/-- The lines `CreateSdpAnswer` writes, in order, for session id, incremented session
version, address, port and formats. -/
def SdpNegotiator.CreateSdpAnswer.lines (sessionId : String) (sessionVersion : Int)
    (localIp : String) (rtpPort : Int) (videoFormat audioFormat : SdpMediaFormat) :
    List String :=
  [ "v=0",
    "o=- " ++ sessionId ++ " " ++ toString sessionVersion ++ " IN IP4 " ++ localIp,
    "s=Play",
    "c=IN IP4 " ++ localIp,
    "t=0 0",
    "m=video " ++ toString rtpPort ++ " RTP/AVP "
      ++ toString (SdpNegotiator.GetVideoPayloadType videoFormat),
    "a=rtpmap:" ++ toString (SdpNegotiator.GetVideoPayloadType videoFormat) ++ " "
      ++ SdpNegotiator.GetFormatName videoFormat ++ "/90000" ]
  ++ (if videoFormat = .H264 then
        [ "a=fmtp:" ++ toString (SdpNegotiator.GetVideoPayloadType videoFormat)
            ++ " profile-level-id=42e01f;packetization-mode=1" ]
      else if videoFormat = .H265 then
        [ "a=fmtp:" ++ toString (SdpNegotiator.GetVideoPayloadType videoFormat)
            ++ " profile-id=1" ]
      else [])
  ++ [ "m=audio " ++ toString (rtpPort + 2) ++ " RTP/AVP "
        ++ toString (SdpNegotiator.GetAudioPayloadType audioFormat),
       "a=rtpmap:" ++ toString (SdpNegotiator.GetAudioPayloadType audioFormat) ++ " "
        ++ SdpNegotiator.GetFormatName audioFormat ++ "/8000/1" ]

/-- An offer with one video and one audio section that offers PS as payload type 96, as
GB28181 platforms do, and PCMA as payload type 8. -/
def psOffer : String :=
  "v=0\r\no=34020000002000000001 0 0 IN IP4 192.168.1.1\r\ns=Play\r\n"
    ++ "c=IN IP4 192.168.1.1\r\nt=0 0\r\n"
    ++ "m=video 6000 RTP/AVP 96\r\na=rtpmap:96 PS/90000\r\n"
    ++ "m=audio 6002 RTP/AVP 8\r\na=rtpmap:8 PCMA/8000\r\n"

/-- An offer whose video section offers H264 and then H265 and whose audio section offers
PCMA and then PCMU. -/
def preferredFirstOffer : String :=
  "v=0\r\nc=IN IP4 192.168.1.1\r\n"
    ++ "m=video 6000 RTP/AVP 96 98\r\na=rtpmap:96 H264/90000\r\na=rtpmap:98 H265/90000\r\n"
    ++ "m=audio 6002 RTP/AVP 8 0\r\na=rtpmap:8 PCMA/8000\r\na=rtpmap:0 PCMU/8000\r\n"

/-- The offer `preferredFirstOffer` with the two `rtpmap` lines of each section in the
other order. -/
def preferredLastOffer : String :=
  "v=0\r\nc=IN IP4 192.168.1.1\r\n"
    ++ "m=video 6000 RTP/AVP 96 98\r\na=rtpmap:98 H265/90000\r\na=rtpmap:96 H264/90000\r\n"
    ++ "m=audio 6002 RTP/AVP 8 0\r\na=rtpmap:0 PCMU/8000\r\na=rtpmap:8 PCMA/8000\r\n"

/-- An offer whose audio section offers AAC only. -/
def aacOffer : String :=
  "v=0\r\nc=IN IP4 192.168.1.1\r\n"
    ++ "m=video 6000 RTP/AVP 96\r\na=rtpmap:96 H264/90000\r\n"
    ++ "m=audio 6002 RTP/AVP 97\r\na=rtpmap:97 AAC/8000\r\n"

/-- The beginning of an offer: a video media line and an `rtpmap` line for H264. -/
def h264Section : String := "m=video 6000 RTP/AVP 96 98\r\na=rtpmap:96 H264/90000\r\n"

/-- The 23 command codes of the GB28181 table. -/
def tableCodes : List Int :=
  [0, 1, 2, 3, 4, 5, 6, 7, 8, 11, 12, 13, 14, 15, 16, 21, 22, 23, 31, 32, 33, 41, 42]

/-- The MESSAGE event of a DeviceControl request whose `PTZCmd` element has the text
`ptzCmd`. -/
def deviceControlEvent (ptzCmd : String) : eXosip_event_t :=
  { tid := 1
    request := some { osip_message_new with
      sip_method := some "MESSAGE", call_id := some "call-1",
      body := some ("<?xml version=\"1.0\"?>\r\n<Control>\r\n"
        ++ "<CmdType>DeviceControl</CmdType>\r\n<SN>11</SN>\r\n"
        ++ "<DeviceID>34020000001320000001</DeviceID>\r\n"
        ++ "<PTZCmd>" ++ ptzCmd ++ "</PTZCmd>\r\n</Control>\r\n") }
    response := none }

/-- The body of the Catalog query of scenario S2. -/
def catalogQuery : String :=
  "<?xml version=\"1.0\"?><Query><CmdType>Catalog</CmdType><SN>17</SN>"
    ++ "<DeviceID>34020000001320000001</DeviceID></Query>"

/-- A RecordInfo query for the channel `channel` over one day. -/
def recordInfoQuery (channel : String) : String :=
  "<?xml version=\"1.0\"?><Query><CmdType>RecordInfo</CmdType><SN>18</SN>"
    ++ "<DeviceID>" ++ channel ++ "</DeviceID>"
    ++ "<StartTime>2024-01-01T00:00:00</StartTime><EndTime>2024-01-02T00:00:00</EndTime>"
    ++ "</Query>"

/-- An initialised alarm manager whose history is full: 1000 entries. -/
def fullAlarmManager : AlarmManager :=
  { AlarmManager.new.Initialize.1 with alarmHistory_ := List.replicate 1000 motionAlarm }

/-- The text `name=value` of a pair, the value written in decimal. -/
def ptzPairText (pair : String × Int) : List Char :=
  pair.1.data ++ '=' :: (toString pair.2).data

/-- The text of a list of pairs with one separator character between neighbours, the
separators taken from `seps` in order (`&` when `seps` is used up). -/
def joinPairs : List (String × Int) → List Char → List Char
  | [], _ => []
  | [pair], _ => ptzPairText pair
  | pair :: next :: rest, seps =>
    ptzPairText pair ++ seps.headD '&' :: joinPairs (next :: rest) seps.tail

/-- What the loop of `ParsePTZCommand` assigns for a pair whose value is the number
`pair.2`. -/
def PTZController.ParsePTZCommand.assign (params : PTZControlParams) (pair : String × Int) :
    PTZControlParams :=
  if pair.1.data = "Command".data then
    { params with command := PTZController.ParseCommandCode pair.2 }
  else if pair.1.data = "Speed".data then { params with speed := pair.2 }
  else if pair.1.data = "PresetID".data then { params with presetId := pair.2 }
  else if pair.1.data = "DwellTime".data then { params with dwellTime := pair.2 }
  else if pair.1.data = "CruiseID".data then { params with cruiseId := pair.2 }
  else params

/-- The alarm types in the order of the GB28181 coding: video loss, motion detection, I/O
alarm, storage failure, network failure, illegal access, video blind, other. -/
def specAlarmTypes : List AlarmType :=
  [.VIDEO_LOSS, .MOTION_DETECT, .IO_ALARM, .STORAGE_FAILURE, .NETWORK_FAILURE,
   .ILLEGAL_ACCESS, .VIDEO_BLIND, .OTHER]

/-- The alarm levels in the order of the GB28181 coding: info, warning, critical,
emergency. -/
def specAlarmLevels : List AlarmLevel := [.INFO, .WARNING, .CRITICAL, .EMERGENCY]

/-- The first lines of an alarm notification, up to the alarm level. -/
def alarmNotifyHead (sn : Int) (alarm : AlarmInfo) (type level : String) : List String :=
  [ "<?xml version=\"1.0\" encoding=\"GB2312\"?>",
    "<Notify>",
    "<CmdType>Alarm</CmdType>",
    "<SN>" ++ toString sn ++ "</SN>",
    "<DeviceID>" ++ alarm.deviceId ++ "</DeviceID>",
    "<AlarmPriority>" ++ toString alarm.priority ++ "</AlarmPriority>",
    "<AlarmTime>" ++ alarm.startTime ++ "</AlarmTime>",
    "<AlarmMethod>" ++ alarm.method ++ "</AlarmMethod>",
    "<AlarmType>" ++ type ++ "</AlarmType>",
    "<AlarmLevel>" ++ level ++ "</AlarmLevel>" ]

/-- A manager on which two alarms have been triggered, the first with the start time
2 January 2024, the second with the start time 1 January 2024. -/
def twoAlarmOps : List AlarmOp :=
  [ .TriggerAlarm { motionAlarm with startTime := "20240102T000000" } 1 "20240103T000000",
    .TriggerAlarm { motionAlarm with startTime := "20240101T000000" } 2 "20240103T000001" ]

/-- The MESSAGE event of a query with the body `body`. -/
def queryEvent (body : String) : eXosip_event_t :=
  { tid := 1
    request := some { osip_message_new with
      sip_method := some "MESSAGE", call_id := some "call-1", body := some body,
      body_length := body.length }
    response := none }

/-- The first four lines of a response to a query of type `cmdType`, as the engine writes
them. -/
def responseHead (cmdType : String) : String :=
  "<?xml version=\"1.0\"?>\r\n<Response>\r\n<CmdType>" ++ cmdType ++ "</CmdType>\r\n"
    ++ "<SN>1</SN>\r\n"

/-- A MESSAGE request with four header fields and the body `<a/>`. -/
def messageDatagram : String :=
  "MESSAGE sip:34020000002000000001@3402000000 SIP/2.0\r\n"
    ++ "Call-ID: 1\r\nCSeq: 20 MESSAGE\r\nContent-Type: Application/MANSCDP+xml\r\n"
    ++ "Content-Length: 4\r\n\r\n<a/>"

/-- The message that `osip_message_parse` reads from the text that `osip_message_to_str`
writes for `msg`. -/
def reparse (msg : osip_message_t) : Option (Int × osip_message_t) :=
  match osip_message_to_str msg with
  | some text => osip_message_parse osip_message_new text
  | none => none

/-- A message without its Content-Length value. -/
def osip_message_t.withoutContentLength (msg : osip_message_t) : osip_message_t :=
  { msg with content_length := none }

/-- The request of `messageDatagram` with the body `body`, without Content-Length. -/
def parsedDatagram (body : String) : osip_message_t :=
  { osip_message_new with
    sip_method := some "MESSAGE", sip_uri := some "sip:34020000002000000001@3402000000",
    call_id := some "1", cseq := some "20 MESSAGE",
    content_type := some "Application/MANSCDP+xml", body := some body,
    body_length := body.length }

/-- A record of the channel `34020000001320000001` over the first hour of the given
day of January 2024. -/
def hourRecord (day : String) : RecordInfo :=
  { deviceId := "34020000001320000001", channelId := "34020000001320000001",
    startTime := "2024-01-" ++ day ++ "T00:00:00", endTime := "2024-01-" ++ day ++ "T01:00:00",
    type := .TIME, filePath := "", fileSize := 0, storage := "", hasPrivacy := false }

/-- An initialised record manager to which the record of 2 January and then the record of
1 January have been added. -/
def twoRecordManager : RecordManager :=
  ((RecordManager.new.Initialize "/records" true []).1.AddRecord (hourRecord "02")).AddRecord
    (hourRecord "01")

/-- The query for all records in the given order, at most `maxResults` of them. -/
def allRecords (maxResults : Int) (order : String) : RecordQueryCondition :=
  { channelId := "", startTime := "", endTime := "", type := .ALL, maxResults := maxResults,
    order := order }

/-- A name of a tag or of an attribute that is not empty and made of letters and digits. -/
def plainName (name : String) : Bool :=
  !name.data.isEmpty && name.data.all Char.isAlphanum

mutual

/-- The trees that `Parse` is claimed to read back: the names of the tags and of the
attributes are not empty and made of letters and digits, no attribute value contains a
double quote or a backslash, and a text is not empty only on a node without children,
contains no `<` and does not begin with whitespace. -/
def XmlNode.plain : XmlNode → Bool
  | .mk tagName_ text_ attributes_ children_ =>
    plainName tagName_
      && attributes_.entries.all (fun attr =>
          plainName attr.1 && !attr.2.data.contains '"' && !attr.2.data.contains '\\')
      && (text_.data.isEmpty || children_.isEmpty)
      && !text_.data.contains '<'
      && decide (XmlParser.SkipWhitespace text_.data = text_.data)
      && XmlNode.plainList children_

/-- All trees of a list are as `XmlNode.plain` describes. -/
def XmlNode.plainList : List XmlNode → Bool
  | [] => true
  | child :: children => XmlNode.plain child && XmlNode.plainList children

end

mutual

/-- Two trees have the same tag names, texts and attributes (the same value for every
name) and the same children in the same order. -/
def XmlNode.same : XmlNode → XmlNode → Prop
  | .mk tagName_ text_ attributes_ children_, other =>
    tagName_ = other.GetTagName ∧ text_ = other.GetText
      ∧ (∀ name, attributes_.lookup name = other.GetAttributes.lookup name)
      ∧ XmlNode.sameList children_ other.GetChildren

/-- Two lists of trees have the same length and the same trees at each place. -/
def XmlNode.sameList : List XmlNode → List XmlNode → Prop
  | [], others => others = []
  | child :: children, others =>
    match others with
    | [] => False
    | other :: others => XmlNode.same child other ∧ XmlNode.sameList children others

end

/-- A catalog response as a tree: an element with an attribute and two children, one with
a text and one empty. -/
def sampleTree : XmlNode :=
  .mk "Response" "" ∅
    [ .mk "CmdType" "Catalog" ∅ [],
      .mk "DeviceList" "" ((∅ : XmlAttributes).insert "Num" "1")
        [ .mk "Item" "" (((∅ : XmlAttributes).insert "id" "a b").insert "Index" "1") [] ] ]

/-- A 401 response whose challenge asks for `qop="auth"`. -/
def qopAuthChallenge : String :=
  "SIP/2.0 401 Unauthorized\r\n"
    ++ "WWW-Authenticate: Digest realm=\"3402000000\", nonce=\"abc\", qop=\"auth\"\r\n\r\n"

/-! ## Properties of MD5 -/

theorem MD5.Update.loop_some (data : List Nat) (hlen : data.length + 63 < 2 ^ 32) :
    ∀ (fuel i : Nat) (state : List Nat), i ≤ data.length → (data.length - i) / 64 < fuel →
      ∃ r, MD5.Update.loop data fuel i state = some r := by
  intro fuel
  induction fuel with
  | zero => intro i state _ h; exact absurd h (Nat.not_lt_zero _)
  | succ fuel ih =>
    intro i state hi hfuel
    unfold MD5.Update.loop
    have hmod : (i + 63) % 2 ^ 32 = i + 63 := Nat.mod_eq_of_lt (by omega)
    rw [hmod]
    by_cases hc : i + 63 < data.length
    · have h64 : i + 64 ≤ data.length := by omega
      have hmod2 : (i + 64) % 2 ^ 32 = i + 64 := Nat.mod_eq_of_lt (by omega)
      rw [if_pos hc, if_pos h64, hmod2]
      apply ih _ _ h64
      have : (data.length - (i + 64)) / 64 + 1 = (data.length - i) / 64 := by omega
      omega
    · rw [if_neg hc]
      exact ⟨_, rfl⟩

theorem MD5.Update_some (self : MD5) (data : List Nat) (hlen : data.length + 63 < 2 ^ 32) :
    ∃ md5, self.Update data = some md5 ∧ md5.finalized_ = self.finalized_ ∧
      md5.digest_ = self.digest_ := by
  unfold MD5.Update
  by_cases hf : self.finalized_ = true
  · simp [hf]
  · simp only [hf, Bool.false_eq_true, if_false]
    split
    · rename_i hge
      obtain ⟨r, hr⟩ := MD5.Update.loop_some data hlen (data.length / 64 + 1)
        (64 - ((self.count_.getD 0 0 >>> 3) &&& 0x3F))
        (Transform self.state_ (memcpy self.buffer_ ((self.count_.getD 0 0 >>> 3) &&& 0x3F)
          (data.take (64 - ((self.count_.getD 0 0 >>> 3) &&& 0x3F))))) hge
        (by
          have : (data.length - (64 - ((self.count_.getD 0 0 >>> 3) &&& 0x3F))) / 64
              ≤ data.length / 64 := Nat.div_le_div_right (Nat.sub_le _ _)
          omega)
      rw [hr]
      exact ⟨_, rfl, rfl, rfl⟩
    · exact ⟨_, rfl, rfl, rfl⟩

theorem MD5.Update_fields (self md5 : MD5) (data : List Nat) (h : self.Update data = some md5) :
    md5.finalized_ = self.finalized_ ∧ md5.digest_ = self.digest_ := by
  unfold MD5.Update at h
  by_cases hf : self.finalized_ = true
  · rw [if_pos hf] at h
    simp only [Option.some.injEq] at h
    rw [← h]
    exact ⟨rfl, rfl⟩
  · rw [if_neg hf] at h
    dsimp only at h
    split at h
    · split at h
      · cases h
      · simp only [Option.some.injEq] at h
        rw [← h]
        exact ⟨rfl, rfl⟩
    · simp only [Option.some.injEq] at h
      rw [← h]
      exact ⟨rfl, rfl⟩

theorem Encode_length_16 (input : List Nat) : (Encode input 16).length = 16 := rfl

theorem Encode_length_8 (input : List Nat) : (Encode input 8).length = 8 := rfl

theorem PADDING_take_length (n : Nat) (h : n ≤ 64) : (PADDING.take n).length = n := by
  have : PADDING.length = 64 := rfl
  rw [List.length_take]
  omega

theorem MD5.Final_some (self : MD5) :
    ∃ md5 digest, self.Final = some (md5, digest) ∧ md5.finalized_ = true ∧
      md5.digest_ = digest ∧ (self.finalized_ = true → digest = self.digest_) ∧
      (self.finalized_ = false → digest.length = 16) := by
  unfold MD5.Final
  by_cases hf : self.finalized_ = true
  · rw [if_pos hf]
    exact ⟨self, self.digest_, rfl, hf, rfl, fun _ => rfl, fun h => by rw [hf] at h; cases h⟩
  · rw [if_neg hf]
    have hpad : ((if (self.count_.getD 0 0 >>> 3) &&& 0x3F < 56
        then 56 - ((self.count_.getD 0 0 >>> 3) &&& 0x3F)
        else 120 - ((self.count_.getD 0 0 >>> 3) &&& 0x3F)) : Nat) ≤ 64 := by
      split <;> omega
    obtain ⟨s1, h1, _, _⟩ := MD5.Update_some self (PADDING.take _)
      (by rw [PADDING_take_length _ hpad]; omega)
    obtain ⟨s2, h2, _, _⟩ := MD5.Update_some s1 (Encode self.count_ 8)
      (by rw [Encode_length_8]; omega)
    simp only [h1, h2]
    exact ⟨_, _, rfl, rfl, rfl, fun h => absurd h hf, fun _ => Encode_length_16 _⟩

theorem hexDigit_mem (n : Nat) (h : n < 16) : hexDigit n ∈ "0123456789abcdef".data := by
  interval_cases n <;> decide

theorem hexPairs_length (l : List Nat) :
    (l.flatMap fun b => [hexDigit (b % 256 / 16), hexDigit (b % 256 % 16)]).length
      = 2 * l.length := by
  induction l with
  | nil => rfl
  | cons b l ih => simp only [List.flatMap_cons, List.length_append, List.length_cons, ih,
      List.length_nil]; omega

theorem hexPairs_mem (l : List Nat) :
    ∀ c ∈ (l.flatMap fun b => [hexDigit (b % 256 / 16), hexDigit (b % 256 % 16)]),
      c ∈ "0123456789abcdef".data := by
  intro c hc
  rw [List.mem_flatMap] at hc
  obtain ⟨b, _, hb⟩ := hc
  simp only [List.mem_cons, List.mem_singleton, List.not_mem_nil, or_false] at hb
  rcases hb with rfl | rfl
  · exact hexDigit_mem _ (by omega)
  · exact hexDigit_mem _ (by omega)

theorem MD5.GetHexString_isLowerHex32 (md5 : MD5) (hf : md5.finalized_ = true)
    (hd : md5.digest_.length = 16) : isLowerHex32 md5.GetHexString := by
  unfold MD5.GetHexString isLowerHex32
  simp only [hf, Bool.not_true, Bool.false_eq_true, if_false]
  refine ⟨?_, hexPairs_mem _⟩
  show (List.flatMap _ _).length = 32
  rw [hexPairs_length, hd]

theorem MD5.Digest_some (str : String) (hlen : (bytes str).length + 63 < 2 ^ 32) :
    ∃ hex, MD5.Digest str = some hex ∧ isLowerHex32 hex := by
  unfold MD5.Digest
  obtain ⟨m1, h1, hf1, _⟩ := MD5.Update_some MD5.new (bytes str) hlen
  rw [h1]
  obtain ⟨m2, d, h2, hf2, hd2, _, hlen2⟩ := MD5.Final_some m1
  simp only [h2]
  refine ⟨_, rfl, MD5.GetHexString_isLowerHex32 m2 hf2 ?_⟩
  rw [hd2]
  exact hlen2 (by rw [hf1]; rfl)

theorem bytes_length (s : String) : (bytes s).length = s.length := by
  unfold bytes
  rw [List.length_map]
  rfl

theorem Encode_lt (input : List Nat) (len : Nat) : ∀ b ∈ Encode input len, b < 256 := by
  intro b hb
  unfold Encode at hb
  rw [List.mem_flatMap] at hb
  obtain ⟨i, _, hi⟩ := hb
  simp only [List.mem_cons, List.mem_singleton, List.not_mem_nil, or_false] at hi
  have h255 : ∀ x : Nat, x &&& 0xFF < 256 := fun x => Nat.lt_succ_of_le Nat.and_le_right
  rcases hi with rfl | rfl | rfl | rfl <;> exact h255 _

theorem MD5.Final_octets (self : MD5) (hf : self.finalized_ = false) :
    ∀ md5 digest, self.Final = some (md5, digest) → ∀ b ∈ digest, b < 256 := by
  intro md5 digest h
  unfold MD5.Final at h
  rw [if_neg (by rw [hf]; exact Bool.false_ne_true)] at h
  dsimp only at h
  split at h
  · cases h
  · split at h
    · cases h
    · simp only [Option.some.injEq, Prod.mk.injEq] at h
      rw [← h.2]
      exact Encode_lt _ _

/-- The digest for `qop = "auth"`: the hex MD5 of `HA1:nonce:nc:cnonce:auth:HA2` with
`nc = "00000001"` and the `cnonce` `0a4f113b`; the text `auth.str()` of `Handle401Response`
for this `qop` ends with that same `cnonce` and `nc`; the digests do return when the inputs
are shorter than `2 ^ 32 - 63` octets. -/
theorem CalculateDigestResponse_qop_auth
    (method uri username realm password nonce cseq algorithm : String) :
    ("0a4f113b".length = 8 ∧ ∀ c ∈ "0a4f113b".data, c ∈ "0123456789abcdef".data) ∧
    MD5.CalculateDigestResponse method uri username realm password nonce "auth" cseq
      = (MD5.Digest (username ++ ":" ++ realm ++ ":" ++ password)).bind (fun ha1 =>
          (MD5.Digest (method ++ ":" ++ uri)).bind (fun ha2 =>
            MD5.Digest (ha1 ++ ":" ++ nonce ++ ":" ++ "00000001" ++ ":" ++ "0a4f113b" ++ ":"
              ++ "auth" ++ ":" ++ ha2))) ∧
    (∀ response, Impl.Handle401Response.auth username realm nonce uri response algorithm "auth"
      = "Digest username=\"" ++ username ++ "\",realm=\"" ++ realm ++ "\",nonce=\"" ++ nonce
        ++ "\",uri=\"" ++ uri ++ "\",response=\"" ++ response ++ "\",algorithm=" ++ algorithm
        ++ ",qop=auth,cnonce=\"" ++ "0a4f113b" ++ "\",nc=" ++ "00000001") ∧
    ((username ++ ":" ++ realm ++ ":" ++ password).length + 63 < 2 ^ 32 →
      (method ++ ":" ++ uri).length + 63 < 2 ^ 32 →
      nonce.length + 152 < 2 ^ 32 →
      ∃ response,
        MD5.CalculateDigestResponse method uri username realm password nonce "auth" cseq
          = some response ∧ isLowerHex32 response) := by
  have hid : MD5.CalculateDigestResponse method uri username realm password nonce "auth" cseq
      = (MD5.Digest (username ++ ":" ++ realm ++ ":" ++ password)).bind (fun ha1 =>
          (MD5.Digest (method ++ ":" ++ uri)).bind (fun ha2 =>
            MD5.Digest (ha1 ++ ":" ++ nonce ++ ":" ++ "00000001" ++ ":" ++ "0a4f113b" ++ ":"
              ++ "auth" ++ ":" ++ ha2))) := by
    unfold MD5.CalculateDigestResponse
    dsimp only
    cases MD5.Digest (username ++ ":" ++ realm ++ ":" ++ password) with
    | none => rfl
    | some ha1 =>
      simp only [ite_self, Option.some_bind]
      cases MD5.Digest (method ++ ":" ++ uri) with
      | none => rfl
      | some ha2 => rfl
  refine ⟨⟨rfl, by decide⟩, hid, ?_, ?_⟩
  · intro response
    unfold Impl.Handle401Response.auth
    have hq : (!"auth".isEmpty) = true := by decide
    simp only [hq, if_true, String.append_assoc]
    rfl
  · intro h1 h2 h3
    obtain ⟨ha1, e1, x1⟩ := MD5.Digest_some _ (by rw [bytes_length]; exact h1)
    obtain ⟨ha2, e2, x2⟩ := MD5.Digest_some _ (by rw [bytes_length]; exact h2)
    obtain ⟨response, e3, x3⟩ := MD5.Digest_some
      (ha1 ++ ":" ++ nonce ++ ":" ++ "00000001" ++ ":" ++ "0a4f113b" ++ ":" ++ "auth" ++ ":"
        ++ ha2)
      (by
        rw [bytes_length]
        simp only [String.length_append, x1.1, x2.1]
        have : ":".length = 1 := rfl
        have : "00000001".length = 8 := rfl
        have : "0a4f113b".length = 8 := rfl
        have : "auth".length = 4 := rfl
        omega)
    refine ⟨response, ?_, x3⟩
    rw [hid, e1, Option.some_bind, e2, Option.some_bind]
    exact e3

set_option maxRecDepth 100000 in
/-- C3: `MD5::CalculateDigestResponse` is a function of its arguments alone (it reads no
other state and ignores `cseq`), and on the RFC 2617 example inputs it returns the RFC 2617
example response. -/
theorem C3_digest_response_rfc2617_vector :
    (∀ method uri username realm password nonce qop cseq cseq',
      MD5.CalculateDigestResponse method uri username realm password nonce qop cseq
        = MD5.CalculateDigestResponse method uri username realm password nonce qop cseq') ∧
    MD5.CalculateDigestResponse "GET" "/dir/index.html" "Mufasa" "testrealm@host.com"
      "Circle Of Life" "dcd98b7102dd2f0e8b11d0f600bfb0c093" "auth" ""
      = some "6629fae49393a05397450978507c4ef1" :=
  ⟨fun _ _ _ _ _ _ _ _ _ => rfl, by decide!⟩

set_option maxRecDepth 100000 in
/-- C4: `MD5::Final` returns exactly 16 octets, whatever was fed to the object: from every
object state, and in particular after any `Update` that returns, which every `Update` of
fewer than `2 ^ 32 - 63` octets does; and `MD5::Digest` gives the RFC 1321 test values for
the empty string, for `abc`, for the 62-character alphabet string and for the 80-character
digit string. -/
theorem C4_md5_final_sixteen_octets_and_rfc1321_suite :
    (∀ md5 : MD5, md5.digest_.length = 16 →
      ∃ md5' digest, md5.Final = some (md5', digest) ∧ digest.length = 16) ∧
    (∀ (data : List Nat) (md5 : MD5), MD5.new.Update data = some md5 →
      ∃ md5' digest, md5.Final = some (md5', digest) ∧ digest.length = 16 ∧
        ∀ b ∈ digest, b < 256) ∧
    (∀ data : List Nat, data.length + 63 < 2 ^ 32 → ∃ md5, MD5.new.Update data = some md5) ∧
    MD5.Digest "" = some "d41d8cd98f00b204e9800998ecf8427e" ∧
    MD5.Digest "abc" = some "900150983cd24fb0d6963f7d28e17f72" ∧
    MD5.Digest "ABCDEFGHIJKLMNOPQRSTUVWXYZabcdefghijklmnopqrstuvwxyz0123456789"
      = some "d174ab98d277d9f5a5611c2c9f419d9f" ∧
    MD5.Digest
      "12345678901234567890123456789012345678901234567890123456789012345678901234567890"
      = some "57edf4a22be3c955ac49da2e2107b67a" := by
  refine ⟨?_, ?_, ?_, by decide!, by decide!, by decide!, by decide!⟩
  · intro md5 hd
    obtain ⟨m, d, h, _, _, hfin, hnew⟩ := MD5.Final_some md5
    refine ⟨m, d, h, ?_⟩
    cases hf : md5.finalized_ with
    | true => rw [hfin hf]; exact hd
    | false => exact hnew hf
  · intro data m1 h1
    obtain ⟨m2, d, h2, _, _, _, hnew⟩ := MD5.Final_some m1
    have hf : m1.finalized_ = false := by rw [(MD5.Update_fields MD5.new m1 data h1).1]; rfl
    exact ⟨m2, d, h2, hnew hf, MD5.Final_octets m1 hf m2 d h2⟩
  · intro data hlen
    obtain ⟨m1, h1, _, _⟩ := MD5.Update_some MD5.new data hlen
    exact ⟨m1, h1⟩

/-- Witness of C4: the three octets of `abc` fed to a fresh object. -/
theorem C4_md5_final_sixteen_octets_and_rfc1321_suite_witness :
    (∃ md5, MD5.new.Update [97, 98, 99] = some md5) ∧
    (∃ md5' digest, MD5.new.Final = some (md5', digest) ∧ digest.length = 16) :=
  ⟨C4_md5_final_sixteen_octets_and_rfc1321_suite.2.2.1 [97, 98, 99] (by decide),
   C4_md5_final_sixteen_octets_and_rfc1321_suite.1 MD5.new (by decide)⟩

/-! ## Properties of the registration handlers -/

set_option maxRecDepth 100000 in
/-- C5 (the code at the input of scenario S1): `osip_message_get_header` knows no
`WWW-Authenticate` header, so for every engine state and every 401 event
`Handle401Response` returns without handing a REGISTER to the transport; and
`osip_message_set_header` ignores the name `Authorization`.  On the header value of S1 the
handler's own parameter parser and digest give the nonce `abc`, the realm `3402000000`, no
`qop` and the response `fa14486879c8e539973566845d0b93ac` of scenario S1. -/
theorem C5_handle401_sends_no_register :
    (∀ (self : Impl) (event : eXosip_event_t), self.Handle401Response event = some none) ∧
    (∀ msg : osip_message_t, osip_message_get_header msg "WWW-Authenticate" = none) ∧
    (∀ (msg : osip_message_t) (value : String),
      osip_message_set_header msg "Authorization" value = msg) ∧
    Impl.ParseAuthenticateParam "Digest realm=\"3402000000\", nonce=\"abc\"" "nonce" = "abc" ∧
    Impl.ParseAuthenticateParam "Digest realm=\"3402000000\", nonce=\"abc\"" "realm"
      = "3402000000" ∧
    Impl.ParseAuthenticateParam "Digest realm=\"3402000000\", nonce=\"abc\"" "qop" = "" ∧
    MD5.CalculateDigestResponse "REGISTER" "sip:3402000000" "u" "3402000000" "p" "abc" "" "1"
      = some "fa14486879c8e539973566845d0b93ac" := by
  refine ⟨?_, fun _ => rfl, fun _ _ => rfl, by decide, by decide, by decide, by decide!⟩
  intro self event
  unfold Impl.Handle401Response
  cases event.response with
  | none => rfl
  | some _ => rfl

set_option maxRecDepth 100000 in
/-- C2 (the code at a challenge with `qop="auth"`): for all strings, with `qop = "auth"`
`MD5::CalculateDigestResponse` returns the hex MD5 of `HA1:nonce:nc:cnonce:auth:HA2` with
`nc = "00000001"` and the `cnonce` `0a4f113b`, a string of 8 hexadecimal digits.  But
`Handle401Response` writes them into no header that is sent: for every engine and every 401
event it returns without handing a REGISTER to the transport, because
`osip_message_get_header` finds no `WWW-Authenticate` header in any message.  So it is for
the response that `osip_message_parse` reads from a 401 whose challenge asks for
`qop="auth"`: the parser keeps nothing of the challenge.  From the header value the handler
would have read `qop = "auth"`, computed the response `11173212a4376d85c42c190a79dae5c8`
and built an `Authorization` text that ends with the same `cnonce` and `nc`; and
`osip_message_set_header` drops a header of the name `Authorization`. -/
theorem C2_qop_auth_challenge_gets_no_authorization :
    (∀ method uri username realm password nonce cseq : String,
      MD5.CalculateDigestResponse method uri username realm password nonce "auth" cseq
        = (MD5.Digest (username ++ ":" ++ realm ++ ":" ++ password)).bind (fun ha1 =>
            (MD5.Digest (method ++ ":" ++ uri)).bind (fun ha2 =>
              MD5.Digest (ha1 ++ ":" ++ nonce ++ ":" ++ "00000001" ++ ":" ++ "0a4f113b" ++ ":"
                ++ "auth" ++ ":" ++ ha2)))) ∧
    ("0a4f113b".length = 8 ∧
      ("0a4f113b".data.all fun c => "0123456789abcdef".data.contains c) = true) ∧
    (∀ (self : Impl) (event : eXosip_event_t), self.Handle401Response event = some none) ∧
    (osip_message_parse osip_message_new qopAuthChallenge).map (fun r => r.2)
      = some { osip_message_new with
          type := .OSIP_RESPONSE, status_code := 401, body := some "\r\n", body_length := 2 } ∧
    (∀ (self : Impl) (tid : Int) (request : Option osip_message_t),
      (osip_message_parse osip_message_new qopAuthChallenge).map (fun r =>
          self.Handle401Response { tid := tid, request := request, response := some r.2 })
        = some (some none)) ∧
    Impl.ParseAuthenticateParam "Digest realm=\"3402000000\", nonce=\"abc\", qop=\"auth\"" "qop"
      = "auth" ∧
    MD5.CalculateDigestResponse "REGISTER" "sip:3402000000" "u" "3402000000" "p" "abc" "auth" "1"
      = some "11173212a4376d85c42c190a79dae5c8" ∧
    Impl.Handle401Response.auth "u" "3402000000" "abc" "sip:3402000000"
        "11173212a4376d85c42c190a79dae5c8" "" "auth"
      = "Digest username=\"u\",realm=\"3402000000\",nonce=\"abc\",uri=\"sip:3402000000\""
        ++ ",response=\"11173212a4376d85c42c190a79dae5c8\",algorithm=,qop=auth"
        ++ ",cnonce=\"0a4f113b\",nc=00000001" ∧
    (∀ (msg : osip_message_t) (value : String),
      osip_message_set_header msg "Authorization" value = msg) := by
  have hsend : ∀ (self : Impl) (event : eXosip_event_t),
      self.Handle401Response event = some none := by
    intro self event
    unfold Impl.Handle401Response
    cases event.response with
    | none => rfl
    | some _ => rfl
  refine ⟨?_, ⟨rfl, by decide⟩, hsend, by decide!, ?_, by decide, by decide!, by decide!,
    fun _ _ => rfl⟩
  · intro method uri username realm password nonce cseq
    exact (CalculateDigestResponse_qop_auth method uri username realm password nonce cseq
      "MD5").2.1
  · intro self tid request
    have hp : osip_message_parse osip_message_new qopAuthChallenge
        = some (0, { osip_message_new with
            type := .OSIP_RESPONSE, status_code := 401, body := some "\r\n",
            body_length := 2 }) := by decide!
    rw [hp, Option.map_some', hsend]

theorem TriggerEvent_sessions (self : MediaSessionManager) (id : String) (st : SessionState)
    (ev : String) : (self.TriggerEvent id st ev).sessions_ = self.sessions_ := by
  unfold MediaSessionManager.TriggerEvent
  split <;> rfl

theorem TriggerEvent_eventCallback (self : MediaSessionManager) (id : String)
    (st : SessionState) (ev : String) :
    (self.TriggerEvent id st ev).eventCallback_ = self.eventCallback_ := by
  unfold MediaSessionManager.TriggerEvent
  split <;> rfl

theorem TriggerEvent_events (self : MediaSessionManager) (id : String) (st : SessionState)
    (ev : String) :
    (self.TriggerEvent id st ev).events = self.events ++
      (if self.eventCallback_ then [{ sessionId := id, state := st, event := ev }] else []) := by
  unfold MediaSessionManager.TriggerEvent
  split <;> simp_all

theorem lookup_insert_if (m : SessionMap) (id id' : String) (s : MediaSessionInfo) :
    (m.insert id s).lookup id' = if id' = id then some s else m.lookup id' := by
  by_cases h : id' = id
  · subst h; rw [if_pos rfl]; exact AList.lookup_insert m
  · rw [if_neg h]; exact AList.lookup_insert_ne h

theorem lookup_erase_if (m : SessionMap) (id id' : String) :
    (m.erase id).lookup id' = if id' = id then none else m.lookup id' := by
  by_cases h : id' = id
  · subst h; rw [if_pos rfl]; exact AList.lookup_erase _ m
  · rw [if_neg h]; exact AList.lookup_erase_ne h

theorem keys_length_insert_of_lookup (m : SessionMap) (id : String) (s s' : MediaSessionInfo)
    (h : m.lookup id = some s) : (m.insert id s').keys.length = m.keys.length := by
  have hmem : id ∈ m.keys := by
    rw [← AList.mem_keys, ← AList.lookup_isSome, h]; rfl
  rw [AList.keys_insert, List.length_cons, List.length_erase_of_mem hmem]
  have : 0 < m.keys.length := List.length_pos_of_mem hmem
  omega

theorem keys_length_insert_of_none (m : SessionMap) (id : String) (s' : MediaSessionInfo)
    (h : m.lookup id = none) : (m.insert id s').keys.length = m.keys.length + 1 := by
  have hmem : id ∉ m.keys := by
    rw [← AList.mem_keys, ← AList.lookup_eq_none]; exact h
  rw [AList.keys_insert, List.length_cons, List.erase_of_not_mem hmem]

theorem keys_length_erase_of_lookup (m : SessionMap) (id : String) (s : MediaSessionInfo)
    (h : m.lookup id = some s) : (m.erase id).keys.length + 1 = m.keys.length := by
  have hmem : id ∈ m.keys := by
    rw [← AList.mem_keys, ← AList.lookup_isSome, h]; rfl
  rw [AList.keys_erase, List.length_erase_of_mem hmem]
  have : 0 < m.keys.length := List.length_pos_of_mem hmem
  omega

theorem UpdateSessionState_not_found (self : MediaSessionManager) (now : Int) (id : String)
    (st : SessionState) (h : self.GetSession id = none) :
    self.UpdateSessionState now id st = (self, false) := by
  unfold MediaSessionManager.GetSession at h
  unfold MediaSessionManager.UpdateSessionState
  rw [h]

theorem UpdateSessionState_found (self : MediaSessionManager) (now : Int) (id : String)
    (st : SessionState) (s : MediaSessionInfo) (h : self.GetSession id = some s) :
    (self.UpdateSessionState now id st).2 = true ∧
    (self.UpdateSessionState now id st).1.sessions_
      = self.sessions_.insert id { s with state := st, lastActivity := now } ∧
    (self.UpdateSessionState now id st).1.events = self.events ++
      (if self.eventCallback_ then [{ sessionId := id, state := st, event := "STATE_CHANGED" }]
       else []) ∧
    (self.UpdateSessionState now id st).1.eventCallback_ = self.eventCallback_ := by
  unfold MediaSessionManager.GetSession at h
  unfold MediaSessionManager.UpdateSessionState
  rw [h]
  exact ⟨rfl, TriggerEvent_sessions _ _ _ _, TriggerEvent_events _ _ _ _,
    TriggerEvent_eventCallback _ _ _ _⟩

theorem UpdateSessionState_lookup (self : MediaSessionManager) (now : Int) (id id' : String)
    (st : SessionState) :
    (self.UpdateSessionState now id st).1.GetSession id'
      = if id' = id then (self.GetSession id).map
          fun s => { s with state := st, lastActivity := now }
        else self.GetSession id' := by
  cases h : self.GetSession id with
  | none =>
    rw [UpdateSessionState_not_found self now id st h]
    by_cases e : id' = id
    · subst e; rw [if_pos rfl, h]; rfl
    · rw [if_neg e]
  | some s =>
    unfold MediaSessionManager.GetSession
    rw [(UpdateSessionState_found self now id st s h).2.1, lookup_insert_if]
    rfl

theorem SetLocalPorts_lookup (self : MediaSessionManager) (now : Int) (id id' : String)
    (v a : Int) :
    (self.SetLocalPorts now id v a).1.GetSession id'
      = if id' = id then (self.GetSession id).map
          fun s => { s with localVideoPort := v, localAudioPort := a, lastActivity := now }
        else self.GetSession id' := by
  unfold MediaSessionManager.SetLocalPorts MediaSessionManager.GetSession
  cases h : self.sessions_.lookup id with
  | none =>
    by_cases e : id' = id
    · subst e; simp only [if_pos, h]; rfl
    · simp only [if_neg e]
  | some s =>
    simp only [lookup_insert_if]
    rfl

theorem SetRemotePorts_lookup (self : MediaSessionManager) (now : Int) (id id' : String)
    (v a : Int) :
    (self.SetRemotePorts now id v a).1.GetSession id'
      = if id' = id then (self.GetSession id).map
          fun s => { s with remoteVideoPort := v, remoteAudioPort := a, lastActivity := now }
        else self.GetSession id' := by
  unfold MediaSessionManager.SetRemotePorts MediaSessionManager.GetSession
  cases h : self.sessions_.lookup id with
  | none =>
    by_cases e : id' = id
    · subst e; simp only [if_pos, h]; rfl
    · simp only [if_neg e]
  | some s =>
    simp only [lookup_insert_if]
    rfl

theorem SetSsrc_lookup (self : MediaSessionManager) (now : Int) (id id' : String)
    (v a : Nat) :
    (self.SetSsrc now id v a).1.GetSession id'
      = if id' = id then (self.GetSession id).map
          fun s => { s with videoSsrc := v % 2 ^ 32, audioSsrc := a % 2 ^ 32,
                            lastActivity := now }
        else self.GetSession id' := by
  unfold MediaSessionManager.SetSsrc MediaSessionManager.GetSession
  cases h : self.sessions_.lookup id with
  | none =>
    by_cases e : id' = id
    · subst e; simp only [if_pos, h]; rfl
    · simp only [if_neg e]
  | some s =>
    simp only [lookup_insert_if]
    rfl

theorem UpdateActivity_lookup (self : MediaSessionManager) (now : Int) (id id' : String) :
    (self.UpdateActivity now id).GetSession id'
      = if id' = id then (self.GetSession id).map fun s => { s with lastActivity := now }
        else self.GetSession id' := by
  unfold MediaSessionManager.UpdateActivity MediaSessionManager.GetSession
  cases h : self.sessions_.lookup id with
  | none =>
    by_cases e : id' = id
    · subst e; simp only [if_pos, h]; rfl
    · simp only [if_neg e]
  | some s =>
    simp only [lookup_insert_if]
    rfl

theorem TerminateSession_lookup (self : MediaSessionManager) (now : Int) (id id' : String) :
    (self.TerminateSession now id).1.GetSession id'
      = if id' = id then none else self.GetSession id' := by
  unfold MediaSessionManager.TerminateSession
  cases h : self.sessions_.lookup id with
  | none =>
    by_cases e : id' = id
    · subst e; simp only [if_pos, MediaSessionManager.GetSession, h]
    · simp only [if_neg e]
  | some s =>
    have hu := UpdateSessionState_lookup self now id id' .TERMINATING
    simp only [MediaSessionManager.GetSession] at hu ⊢
    simp only [lookup_erase_if, TriggerEvent_sessions, hu]
    by_cases e : id' = id
    · simp only [if_pos e]
    · simp only [if_neg e]

theorem dis_pos (raw : Nat) : dis raw ≠ 0 ∧ dis raw < 2 ^ 32 := by
  unfold dis
  constructor <;> omega

theorem GenerateSsrc_some (draws : Nat → Nat) (fuel : Nat) (hfuel : 0 < fuel) :
    MediaSessionManager.GenerateSsrc draws fuel = some (dis (draws 0)) := by
  unfold MediaSessionManager.GenerateSsrc
  cases fuel with
  | zero => exact absurd hfuel (Nat.lt_irrefl 0)
  | succ n =>
    unfold MediaSessionManager.GenerateSsrc.loop
    rw [if_neg (dis_pos _).1]

theorem CreateSession_null (self m : MediaSessionManager) (fuel : Nat)
    (draws1 draws2 : Nat → Nat) (now : Int) (id ch ip vc ac : String)
    (h : self.CreateSession fuel draws1 draws2 now id ch ip vc ac = some (m, none)) :
    m = self := by
  unfold MediaSessionManager.CreateSession at h
  split at h
  · simp only [Option.some.injEq, Prod.mk.injEq] at h; exact h.1.symm
  · split at h
    · simp only [Option.some.injEq, Prod.mk.injEq] at h; exact h.1.symm
    · split at h
      · cases h
      · split at h
        · cases h
        · simp only [Option.some.injEq, Prod.mk.injEq] at h
          exact absurd h.2 (by simp)

theorem CreateSession_stored (self m : MediaSessionManager) (s : MediaSessionInfo) (fuel : Nat)
    (draws1 draws2 : Nat → Nat) (now : Int) (id ch ip vc ac : String)
    (h : self.CreateSession fuel draws1 draws2 now id ch ip vc ac = some (m, some s)) :
    self.GetSession id = none ∧ self.initialized_ = true ∧
    m.sessions_ = self.sessions_.insert id s ∧
    s.localVideoPort = 0 ∧ s.localAudioPort = 0 ∧ s.state = .INVITING ∧
    m.events = self.events ++
      (if self.eventCallback_ then [⟨id, .INVITING, "SESSION_CREATED"⟩] else []) := by
  unfold MediaSessionManager.CreateSession at h
  split at h
  · simp at h
  · rename_i hinit
    split at h
    · simp at h
    · rename_i hnone
      split at h
      · cases h
      · split at h
        · cases h
        · simp only [Option.some.injEq, Prod.mk.injEq] at h
          obtain ⟨hm, hs⟩ := h
          subst hs
          subst hm
          refine ⟨?_, ?_, TriggerEvent_sessions _ _ _ _, rfl, rfl, rfl, TriggerEvent_events _ _ _ _⟩
          · unfold MediaSessionManager.GetSession
            cases hl : self.sessions_.lookup id with
            | none => rfl
            | some x => rw [hl] at hnone; simp at hnone
          · simpa using hinit

theorem CreateSession_fresh (self : MediaSessionManager) (fuel : Nat)
    (draws1 draws2 : Nat → Nat) (now : Int) (id ch ip vc ac : String)
    (hinit : self.initialized_ = true) (hnew : self.GetSession id = none) (hfuel : 0 < fuel) :
    ∃ m, self.CreateSession fuel draws1 draws2 now id ch ip vc ac
        = some (m, some (createdSession now id ch ip vc ac (dis (draws1 0)) (dis (draws2 0)))) ∧
      m.sessions_ = self.sessions_.insert id
        (createdSession now id ch ip vc ac (dis (draws1 0)) (dis (draws2 0))) ∧
      m.events = self.events ++
        (if self.eventCallback_ then [⟨id, .INVITING, "SESSION_CREATED"⟩] else []) ∧
      m.eventCallback_ = self.eventCallback_ ∧ m.initialized_ = self.initialized_ := by
  unfold MediaSessionManager.GetSession at hnew
  unfold MediaSessionManager.CreateSession
  simp only [hinit, hnew, GenerateSsrc_some _ _ hfuel]
  exact ⟨_, rfl, TriggerEvent_sessions _ _ _ _, TriggerEvent_events _ _ _ _,
    TriggerEvent_eventCallback _ _ _ _, by unfold MediaSessionManager.TriggerEvent; split <;> rfl⟩

/-- C10: on an initialised manager, `CreateSession` with a session id not yet present
returns (given one draw of fuel for each SSRC loop) and stores a session in state Inviting
whose two SSRCs are non-zero 32-bit numbers for every outcome of the generator, with the
given session id, channel id, remote IP and codecs; the callback, when one is registered,
is called once, with `SESSION_CREATED`; the session count grows by one and no other session
changes. -/
theorem C10_create_session_stores_inviting_session (self : MediaSessionManager) (fuel : Nat)
    (draws1 draws2 : Nat → Nat) (now : Int) (id ch ip vc ac : String)
    (hinit : self.initialized_ = true) (hnew : self.GetSession id = none) (hfuel : 0 < fuel) :
    ∃ m s, self.CreateSession fuel draws1 draws2 now id ch ip vc ac = some (m, some s) ∧
      m.GetSession id = some s ∧ s.state = .INVITING ∧
      s.videoSsrc ≠ 0 ∧ s.audioSsrc ≠ 0 ∧ s.videoSsrc < 2 ^ 32 ∧ s.audioSsrc < 2 ^ 32 ∧
      s.sessionId = id ∧ s.channelId = ch ∧ s.remoteIp = ip ∧
      s.videoCodec = vc ∧ s.audioCodec = ac ∧
      m.events = self.events ++
        (if self.eventCallback_ then [⟨id, .INVITING, "SESSION_CREATED"⟩] else []) ∧
      m.GetSessionCount = self.GetSessionCount + 1 ∧
      (∀ id', id' ≠ id → m.GetSession id' = self.GetSession id') := by
  obtain ⟨m, hc, hs, he, _, _⟩ :=
    CreateSession_fresh self fuel draws1 draws2 now id ch ip vc ac hinit hnew hfuel
  refine ⟨m, _, hc, ?_, rfl, (dis_pos _).1, (dis_pos _).1, (dis_pos _).2, (dis_pos _).2,
    rfl, rfl, rfl, rfl, rfl, he, ?_, ?_⟩
  · unfold MediaSessionManager.GetSession
    rw [hs]
    exact AList.lookup_insert _
  · unfold MediaSessionManager.GetSessionCount
    rw [hs]
    exact keys_length_insert_of_none _ _ _ hnew
  · intro id' hne
    unfold MediaSessionManager.GetSession
    rw [hs]
    exact AList.lookup_insert_ne hne

/-- The initialised manager with a registered callback and no session. -/
theorem C10_create_session_stores_inviting_session_witness :
    ∃ m s, (MediaSessionManager.new.Initialize.1.SetEventCallback).CreateSession 1
        (fun _ => 4294967294) (fun _ => 0) 0 "call-1" "34020000001320000001" "192.168.1.1"
        "H264" "PCMA" = some (m, some s) ∧
      m.GetSession "call-1" = some s ∧ s.state = .INVITING ∧
      s.videoSsrc ≠ 0 ∧ s.audioSsrc ≠ 0 ∧ s.videoSsrc < 2 ^ 32 ∧ s.audioSsrc < 2 ^ 32 ∧
      s.sessionId = "call-1" ∧ s.channelId = "34020000001320000001" ∧
      s.remoteIp = "192.168.1.1" ∧ s.videoCodec = "H264" ∧ s.audioCodec = "PCMA" ∧
      m.events = (MediaSessionManager.new.Initialize.1.SetEventCallback).events ++
        (if (MediaSessionManager.new.Initialize.1.SetEventCallback).eventCallback_
         then [⟨"call-1", .INVITING, "SESSION_CREATED"⟩] else []) ∧
      m.GetSessionCount
        = (MediaSessionManager.new.Initialize.1.SetEventCallback).GetSessionCount + 1 ∧
      (∀ id', id' ≠ "call-1" → m.GetSession id'
        = (MediaSessionManager.new.Initialize.1.SetEventCallback).GetSession id') :=
  C10_create_session_stores_inviting_session _ 1 _ _ 0 "call-1" "34020000001320000001"
    "192.168.1.1" "H264" "PCMA" (by decide) (by decide) (by decide)

set_option maxRecDepth 100000 in
/-- C8 (counterexample): after `Initialize`, `CreateSession("call-1", ...)` and
`UpdateSessionState("call-1", Established)` the session is Established; the backward
request `UpdateSessionState("call-1", Inviting)` then returns true and leaves the session
in state Inviting. -/
theorem C8_established_to_inviting_is_accepted :
    (MediaSessionManager.new.applyAll
        [ .Initialize,
          .CreateSession 1 (fun _ => 0) (fun _ => 0) 0 "call-1" "34020000001320000001"
            "192.168.1.1" "H264" "PCMA",
          .UpdateSessionState 1 "call-1" .ESTABLISHED ]).map
      (fun m =>
        ( (m.GetSession "call-1").map (fun s => s.state),
          (m.UpdateSessionState 2 "call-1" .INVITING).2,
          ((m.UpdateSessionState 2 "call-1" .INVITING).1.GetSession "call-1").map
            (fun s => s.state) ))
      = some (some .ESTABLISHED, true, some .INVITING) ∧
    SessionState.rank .INVITING < SessionState.rank .ESTABLISHED := by
  decide!

/-- C8 (amended): `UpdateSessionState(id, s)` is rejected (returns false and changes
nothing) exactly when `id` is not in the map.  For a stored session it returns true and
sets the state to `s` and the last activity to the clock reading, whatever the current
state and whatever `s`; no other session changes. -/
theorem C8_update_state_rejects_only_unknown_ids (self : MediaSessionManager) (now : Int)
    (id : String) (st : SessionState) :
    ((self.UpdateSessionState now id st).2 = false ↔ self.GetSession id = none) ∧
    (self.GetSession id = none → self.UpdateSessionState now id st = (self, false)) ∧
    (∀ s, self.GetSession id = some s →
      (self.UpdateSessionState now id st).2 = true ∧
      (self.UpdateSessionState now id st).1.GetSession id
        = some { s with state := st, lastActivity := now }) ∧
    (∀ id', id' ≠ id →
      (self.UpdateSessionState now id st).1.GetSession id' = self.GetSession id') := by
  refine ⟨?_, UpdateSessionState_not_found self now id st, ?_, ?_⟩
  · cases h : self.GetSession id with
    | none => rw [UpdateSessionState_not_found self now id st h]; simp
    | some s => rw [(UpdateSessionState_found self now id st s h).1]; simp
  · intro s h
    refine ⟨(UpdateSessionState_found self now id st s h).1, ?_⟩
    rw [UpdateSessionState_lookup, if_pos rfl, h]
    rfl
  · intro id' hne
    rw [UpdateSessionState_lookup, if_neg hne]

set_option maxRecDepth 100000 in
/-- Witness of C8 (amended): on the empty manager the id `call-1` is unknown and the
request is rejected; on the manager holding `call-1` in state Inviting the request for
state Idle is accepted. -/
theorem C8_update_state_rejects_only_unknown_ids_witness :
    MediaSessionManager.new.UpdateSessionState 0 "call-1" .ESTABLISHED
      = (MediaSessionManager.new, false) ∧
    ((oneSessionManager.UpdateSessionState 3 "call-1" .IDLE).2 = true ∧
      (oneSessionManager.UpdateSessionState 3 "call-1" .IDLE).1.GetSession "call-1"
        = some { createdSession 0 "call-1" "34020000001320000001" "192.168.1.1" "H264" "PCMA"
                   7 9 with state := .IDLE, lastActivity := 3 }) :=
  ⟨(C8_update_state_rejects_only_unknown_ids MediaSessionManager.new 0 "call-1"
      .ESTABLISHED).2.1 (by decide),
   (C8_update_state_rejects_only_unknown_ids oneSessionManager 3 "call-1" .IDLE).2.2.1
      (createdSession 0 "call-1" "34020000001320000001" "192.168.1.1" "H264" "PCMA" 7 9)
      (by decide!)⟩

theorem foldl_erase_absent (id : String) :
    ∀ (ids : List String) (m : SessionMap), m.lookup id = none →
      (ids.foldl (fun m sessionId => m.erase sessionId) m).lookup id = none := by
  intro ids
  induction ids with
  | nil => intro m h; exact h
  | cons i ids ih =>
    intro m h
    apply ih
    rw [lookup_erase_if]
    split
    · rfl
    · exact h

theorem apply_keeps_absent (id : String) (op : SessionOp) (m m' : MediaSessionManager)
    (hop : ¬ op.creates id) (happ : m.apply op = some m') (habs : m.GetSession id = none) :
    m'.GetSession id = none := by
  cases op with
  | Initialize =>
    simp only [MediaSessionManager.apply, Option.some.injEq] at happ
    rw [← happ]; exact habs
  | SetEventCallback =>
    simp only [MediaSessionManager.apply, Option.some.injEq] at happ
    rw [← happ]; exact habs
  | CreateSession fuel d1 d2 now sid ch ip vc ac =>
    simp only [MediaSessionManager.apply, Option.map_eq_some'] at happ
    obtain ⟨⟨m1, r⟩, hc, hm⟩ := happ
    simp only at hm
    subst hm
    cases r with
    | none => rw [CreateSession_null m m1 fuel d1 d2 now sid ch ip vc ac hc]; exact habs
    | some s =>
      have hs := (CreateSession_stored m m1 s fuel d1 d2 now sid ch ip vc ac hc).2.2.1
      have hne : id ≠ sid := fun e => hop e.symm
      unfold MediaSessionManager.GetSession at habs ⊢
      rw [hs, AList.lookup_insert_ne hne]
      exact habs
  | UpdateSessionState now sid st =>
    simp only [MediaSessionManager.apply, Option.some.injEq] at happ
    rw [← happ, UpdateSessionState_lookup]
    split
    · rename_i e; rw [← e, habs]; rfl
    · exact habs
  | SetLocalPorts now sid v a =>
    simp only [MediaSessionManager.apply, Option.some.injEq] at happ
    rw [← happ, SetLocalPorts_lookup]
    split
    · rename_i e; rw [← e, habs]; rfl
    · exact habs
  | SetRemotePorts now sid v a =>
    simp only [MediaSessionManager.apply, Option.some.injEq] at happ
    rw [← happ, SetRemotePorts_lookup]
    split
    · rename_i e; rw [← e, habs]; rfl
    · exact habs
  | SetSsrc now sid v a =>
    simp only [MediaSessionManager.apply, Option.some.injEq] at happ
    rw [← happ, SetSsrc_lookup]
    split
    · rename_i e; rw [← e, habs]; rfl
    · exact habs
  | TerminateSession now sid =>
    simp only [MediaSessionManager.apply, Option.some.injEq] at happ
    rw [← happ, TerminateSession_lookup]
    split
    · rfl
    · exact habs
  | CleanupTimeoutSessions now timeout =>
    simp only [MediaSessionManager.apply, Option.some.injEq] at happ
    rw [← happ]
    exact foldl_erase_absent id _ _ habs
  | UpdateActivity now sid =>
    simp only [MediaSessionManager.apply, Option.some.injEq] at happ
    rw [← happ, UpdateActivity_lookup]
    split
    · rename_i e; rw [← e, habs]; rfl
    · exact habs

theorem applyAll_keeps_absent (id : String) :
    ∀ (ops : List SessionOp) (m m' : MediaSessionManager),
      (∀ op ∈ ops, ¬ op.creates id) → m.applyAll ops = some m' → m.GetSession id = none →
      m'.GetSession id = none := by
  intro ops
  induction ops with
  | nil =>
    intro m m' _ h habs
    simp only [MediaSessionManager.applyAll, Option.some.injEq] at h
    rw [← h]; exact habs
  | cons op ops ih =>
    intro m m' hops h habs
    unfold MediaSessionManager.applyAll at h
    cases h1 : m.apply op with
    | none => rw [h1] at h; cases h
    | some m1 =>
      rw [h1] at h
      exact ih m1 m' (fun o ho => hops o (List.mem_cons_of_mem _ ho)) h
        (apply_keeps_absent id op m m1 (hops op (List.mem_cons_self _ _)) h1 habs)

theorem TerminateSession_true (self m1 : MediaSessionManager) (now : Int) (id : String)
    (h : self.TerminateSession now id = (m1, true)) :
    ∃ s, self.GetSession id = some s := by
  unfold MediaSessionManager.TerminateSession at h
  unfold MediaSessionManager.GetSession
  cases hl : self.sessions_.lookup id with
  | none => rw [hl] at h; simp at h
  | some s => exact ⟨s, rfl⟩

theorem TerminateSession_count (self : MediaSessionManager) (now : Int) (id : String)
    (s : MediaSessionInfo) (h : self.GetSession id = some s) :
    (self.TerminateSession now id).2 = true ∧
    (self.TerminateSession now id).1.GetSessionCount + 1 = self.GetSessionCount := by
  have hl : self.sessions_.lookup id = some s := h
  unfold MediaSessionManager.TerminateSession MediaSessionManager.GetSessionCount
  rw [hl]
  refine ⟨rfl, ?_⟩
  simp only [TriggerEvent_sessions, (UpdateSessionState_found self now id .TERMINATING s h).2.1]
  rw [← keys_length_insert_of_lookup self.sessions_ id s
    { s with state := .TERMINATING, lastActivity := now } hl]
  exact keys_length_erase_of_lookup _ id { s with state := .TERMINATING, lastActivity := now }
    (AList.lookup_insert _)

/-- C9: after `TerminateSession(id)` has returned true, the session count has dropped by
exactly one, and after any further calls of the manager, none of them a `CreateSession`
for `id`, every operation on `id` reports not-found: `GetSession(id)` is null,
`UpdateSessionState`, `SetLocalPorts`, `SetRemotePorts`, `SetSsrc` and a further
`TerminateSession` return false and change nothing, and `UpdateActivity` changes nothing. -/
theorem C9_terminated_session_stays_not_found (self m1 m2 : MediaSessionManager) (now : Int)
    (id : String) (ops : List SessionOp)
    (hterm : self.TerminateSession now id = (m1, true))
    (hops : ∀ op ∈ ops, ¬ op.creates id)
    (hrun : m1.applyAll ops = some m2) :
    m1.GetSessionCount + 1 = self.GetSessionCount ∧
    m1.GetSession id = none ∧
    m2.GetSession id = none ∧
    (∀ now' st, m2.UpdateSessionState now' id st = (m2, false)) ∧
    (∀ now' v a, m2.SetLocalPorts now' id v a = (m2, false)) ∧
    (∀ now' v a, m2.SetRemotePorts now' id v a = (m2, false)) ∧
    (∀ now' v a, m2.SetSsrc now' id v a = (m2, false)) ∧
    (∀ now', m2.TerminateSession now' id = (m2, false)) ∧
    (∀ now', m2.UpdateActivity now' id = m2) := by
  obtain ⟨s, hs⟩ := TerminateSession_true self m1 now id hterm
  have hcount := (TerminateSession_count self now id s hs).2
  rw [hterm] at hcount
  have h1 : m1.GetSession id = none := by
    have := TerminateSession_lookup self now id id
    rw [hterm, if_pos rfl] at this
    exact this
  have h2 : m2.GetSession id = none := applyAll_keeps_absent id ops m1 m2 hops hrun h1
  have hl : m2.sessions_.lookup id = none := h2
  refine ⟨hcount, h1, h2, ?_, ?_, ?_, ?_, ?_, ?_⟩
  · intro now' st; exact UpdateSessionState_not_found m2 now' id st h2
  · intro now' v a; unfold MediaSessionManager.SetLocalPorts; rw [hl]
  · intro now' v a; unfold MediaSessionManager.SetRemotePorts; rw [hl]
  · intro now' v a; unfold MediaSessionManager.SetSsrc; rw [hl]
  · intro now'; unfold MediaSessionManager.TerminateSession; rw [hl]
  · intro now'; unfold MediaSessionManager.UpdateActivity; rw [hl]

set_option maxRecDepth 100000 in
/-- Witness of C9: the session `call-1` is terminated at clock reading 5; afterwards another
session is created, the ports of `call-1` are set and a sweep runs. -/
theorem C9_terminated_session_stays_not_found_witness :
    (oneSessionManager.TerminateSession 5 "call-1").1.GetSessionCount + 1
      = oneSessionManager.GetSessionCount ∧
    (oneSessionManager.TerminateSession 5 "call-1").1.GetSession "call-1" = none ∧
    (((oneSessionManager.TerminateSession 5 "call-1").1.applyAll
        [ .CreateSession 1 (fun _ => 1) (fun _ => 2) 6 "call-2" "34020000001320000001"
            "192.168.1.1" "H264" "PCMA",
          .SetLocalPorts 7 "call-1" 50000 50002,
          .CleanupTimeoutSessions 8 300 ]).get (by decide!)).GetSession "call-1" = none :=
  have h := C9_terminated_session_stays_not_found oneSessionManager
    (oneSessionManager.TerminateSession 5 "call-1").1
    (((oneSessionManager.TerminateSession 5 "call-1").1.applyAll
        [ .CreateSession 1 (fun _ => 1) (fun _ => 2) 6 "call-2" "34020000001320000001"
            "192.168.1.1" "H264" "PCMA",
          .SetLocalPorts 7 "call-1" 50000 50002,
          .CleanupTimeoutSessions 8 300 ]).get (by decide!))
    5 "call-1"
    [ .CreateSession 1 (fun _ => 1) (fun _ => 2) 6 "call-2" "34020000001320000001"
        "192.168.1.1" "H264" "PCMA",
      .SetLocalPorts 7 "call-1" 50000 50002,
      .CleanupTimeoutSessions 8 300 ]
    (by rw [Prod.ext_iff]; exact ⟨rfl, by decide!⟩)
    (by
      intro op hop
      simp only [List.mem_cons, List.mem_singleton, List.not_mem_nil, or_false] at hop
      rcases hop with rfl | rfl | rfl
      · simp only [SessionOp.creates]; decide
      · simp only [SessionOp.creates, not_false_eq_true]
      · simp only [SessionOp.creates, not_false_eq_true])
    (Option.some_get _).symm
  ⟨h.1, h.2.1, h.2.2.1⟩

/-! ## Properties of the engine -/

theorem AllocateRtpPort_some (self : Impl) (nextPort nextPort' : Option Int) (port : Int)
    (h : self.AllocateRtpPort nextPort = some (nextPort', port)) :
    port = nextPort.getD self.rtpPortBase_ ∧ nextPort' = some (port + 4) := by
  unfold Impl.AllocateRtpPort at h
  dsimp only at h
  split at h
  · cases h
  · simp only [Option.some.injEq, Prod.mk.injEq] at h
    obtain ⟨h1, h2⟩ := h
    subst h1
    subst h2
    exact ⟨rfl, rfl⟩

theorem HandleInvite_portsInvariant (self impl : Impl) (nextPort nextPort' : Option Int)
    (event : eXosip_event_t) (offer : SdpOffer) (fuel : Nat) (draws1 draws2 : Nat → Nat)
    (clock : Nat → Int) (hinv : self.portsInvariant nextPort)
    (h : self.HandleInvite nextPort event offer fuel draws1 draws2 clock
      = some (impl, nextPort')) :
    impl.portsInvariant nextPort' := by
  unfold Impl.HandleInvite at h
  dsimp only at h
  by_cases hc : (Impl.callIdOf event).isEmpty = true
  · rw [if_pos hc] at h
    simp only [Option.some.injEq, Prod.mk.injEq] at h
    rw [← h.1, ← h.2]; exact hinv
  · rw [if_neg hc] at h
    cases hb : event.request.bind osip_message_get_body with
    | none =>
      rw [hb] at h
      simp only [Option.some.injEq, Prod.mk.injEq] at h
      rw [← h.1, ← h.2]; exact hinv
    | some body =>
      rw [hb] at h
      dsimp only at h
      cases ha : self.AllocateRtpPort nextPort with
      | none => rw [ha] at h; cases h
      | some r =>
        obtain ⟨next1, port⟩ := r
        rw [ha] at h
        dsimp only at h
        obtain ⟨hport, hnext⟩ := AllocateRtpPort_some self nextPort next1 port ha
        have hev : port % 2 = 0 := by rw [hport]; exact hinv.1
        have hnext' : (next1.getD self.rtpPortBase_) % 2 = 0 := by
          rw [hnext]; simp only [Option.getD_some]; omega
        cases hcr : self.mediaSessionManager_.CreateSession fuel draws1 draws2 (clock 0)
            (Impl.callIdOf event) self.deviceId_ offer.remoteIp offer.videoCodec
            offer.audioCodec with
        | none => rw [hcr] at h; cases h
        | some r =>
          obtain ⟨mgr, ptr⟩ := r
          rw [hcr] at h
          cases ptr with
          | none =>
            dsimp only at h
            simp only [Option.some.injEq, Prod.mk.injEq] at h
            rw [← h.1, ← h.2]
            have hm : mgr = self.mediaSessionManager_ :=
              CreateSession_null _ _ _ _ _ _ _ _ _ _ _ hcr
            refine ⟨hnext', ?_⟩
            intro id s hs
            dsimp only at hs
            rw [hm] at hs
            exact hinv.2 id s hs
          | some s0 =>
            dsimp only at h
            obtain ⟨_, _, hins, _, _, _, _⟩ :=
              CreateSession_stored _ _ _ _ _ _ _ _ _ _ _ _ hcr
            have hlook : ∀ id', mgr.GetSession id'
                = if id' = Impl.callIdOf event then some s0
                  else self.mediaSessionManager_.GetSession id' := by
              intro id'
              unfold MediaSessionManager.GetSession
              rw [hins, lookup_insert_if]
            have hfinal : ∀ (mf : MediaSessionManager),
                (∀ id' s, mf.GetSession id' = some s →
                  (id' = Impl.callIdOf event ∧ s.localVideoPort = port ∧
                    s.localAudioPort = port + 2) ∨
                  (id' ≠ Impl.callIdOf event ∧
                    self.mediaSessionManager_.GetSession id' = some s)) →
                ∀ id' s, mf.GetSession id' = some s → portsPaired s := by
              intro mf hmf id' s hs
              rcases hmf id' s hs with ⟨_, hv, ha⟩ | ⟨_, hold⟩
              · unfold portsPaired
                rw [hv, ha]
                omega
              · exact hinv.2 id' s hold
            have hterm : ∀ now id' s,
                (((((mgr.SetLocalPorts (clock 1) (Impl.callIdOf event) port (port + 2)).1
                  ).SetRemotePorts (clock 2) (Impl.callIdOf event) offer.remoteVideoPort
                    offer.remoteAudioPort).1).TerminateSession now
                    (Impl.callIdOf event)).1.GetSession id' = some s →
                (id' = Impl.callIdOf event ∧ s.localVideoPort = port ∧
                    s.localAudioPort = port + 2) ∨
                  (id' ≠ Impl.callIdOf event ∧
                    self.mediaSessionManager_.GetSession id' = some s) := by
              intro now id' s hs
              rw [TerminateSession_lookup] at hs
              by_cases e : id' = Impl.callIdOf event
              · rw [if_pos e] at hs; cases hs
              · rw [if_neg e, SetRemotePorts_lookup, if_neg e, SetLocalPorts_lookup, if_neg e,
                  hlook, if_neg e] at hs
                exact Or.inr ⟨e, hs⟩
            cases hba : eXosip_call_build_answer2 self.excontext_ event.tid 200 with
            | mk ret answer =>
              rw [hba] at h
              dsimp only at h
              by_cases hret : ret ≠ 0
              · rw [if_pos hret] at h
                simp only [Option.some.injEq, Prod.mk.injEq] at h
                rw [← h.1, ← h.2]
                exact ⟨hnext', hfinal _ (hterm _)⟩
              · rw [if_neg hret] at h
                by_cases hsend : eXosip_call_send_answer self.excontext_ event.tid 200 answer ≠ 0
                · rw [if_pos hsend] at h
                  simp only [Option.some.injEq, Prod.mk.injEq] at h
                  rw [← h.1, ← h.2]
                  exact ⟨hnext', hfinal _ (hterm _)⟩
                · rw [if_neg hsend] at h
                  simp only [Option.some.injEq, Prod.mk.injEq] at h
                  rw [← h.1, ← h.2]
                  refine ⟨hnext', hfinal _ ?_⟩
                  intro id' s hs
                  dsimp only at hs
                  rw [UpdateSessionState_lookup] at hs
                  by_cases e : id' = Impl.callIdOf event
                  · rw [if_pos e, SetRemotePorts_lookup, if_pos rfl, SetLocalPorts_lookup,
                      if_pos rfl, hlook, if_pos rfl] at hs
                    simp only [Option.map_some', Option.some.injEq] at hs
                    rw [← hs]
                    exact Or.inl ⟨e, rfl, rfl⟩
                  · rw [if_neg e, SetRemotePorts_lookup, if_neg e, SetLocalPorts_lookup,
                      if_neg e, hlook, if_neg e] at hs
                    exact Or.inr ⟨e, hs⟩

theorem HandleAck_portsInvariant (self : Impl) (nextPort : Option Int)
    (event : eXosip_event_t) (now : Int) (hinv : self.portsInvariant nextPort) :
    (self.HandleAck event now).portsInvariant nextPort := by
  unfold Impl.HandleAck
  dsimp only
  split
  · refine ⟨hinv.1, ?_⟩
    intro id s hs
    dsimp only at hs
    rw [UpdateActivity_lookup] at hs
    split at hs
    · rename_i e
      cases hg : self.mediaSessionManager_.GetSession (Impl.callIdOf event) with
      | none => rw [hg] at hs; cases hs
      | some s1 =>
        rw [hg] at hs
        simp only [Option.map_some', Option.some.injEq] at hs
        rw [← hs]
        exact hinv.2 _ s1 hg
    · exact hinv.2 id s hs
  · exact hinv

theorem HandleBye_portsInvariant (self : Impl) (nextPort : Option Int)
    (event : eXosip_event_t) (now : Int) (hinv : self.portsInvariant nextPort) :
    (self.HandleBye event now).portsInvariant nextPort := by
  unfold Impl.HandleBye
  dsimp only
  split
  · refine ⟨hinv.1, ?_⟩
    intro id s hs
    dsimp only at hs
    rw [TerminateSession_lookup] at hs
    split at hs
    · cases hs
    · exact hinv.2 id s hs
  · exact hinv

theorem run_portsInvariant :
    ∀ (events : List EngineEvent) (self impl : Impl) (nextPort nextPort' : Option Int),
      self.portsInvariant nextPort → self.run nextPort events = some (impl, nextPort') →
      impl.portsInvariant nextPort' := by
  intro events
  induction events with
  | nil =>
    intro self impl nextPort nextPort' hinv h
    simp only [Impl.run, Option.some.injEq, Prod.mk.injEq] at h
    rw [← h.1, ← h.2]; exact hinv
  | cons e es ih =>
    intro self impl nextPort nextPort' hinv h
    unfold Impl.run at h
    cases hp : self.ProcessMessage nextPort e with
    | none => rw [hp] at h; cases h
    | some r =>
      obtain ⟨self1, next1⟩ := r
      rw [hp] at h
      refine ih self1 impl next1 nextPort' ?_ h
      cases e with
      | invite event offer fuel draws1 draws2 clock =>
        exact HandleInvite_portsInvariant self self1 nextPort next1 event offer fuel draws1
          draws2 clock hinv hp
      | ack event now =>
        simp only [Impl.ProcessMessage, Option.some.injEq, Prod.mk.injEq] at hp
        rw [← hp.1, ← hp.2]; exact HandleAck_portsInvariant self nextPort event now hinv
      | bye event now =>
        simp only [Impl.ProcessMessage, Option.some.injEq, Prod.mk.injEq] at hp
        rw [← hp.1, ← hp.2]; exact HandleBye_portsInvariant self nextPort event now hinv

set_option maxRecDepth 100000 in
/-- C7 (counterexample): on an initialised manager `CreateSession("call-1", ...)` leaves a
session in state Inviting whose local ports are 0 and 0, so the audio port is not the video
port plus two; and `SetLocalPorts("call-1", 50001, 50004)` is then accepted and stores the
odd video port. -/
theorem C7_created_session_ports_are_not_paired :
    (MediaSessionManager.new.applyAll
        [ .Initialize,
          .CreateSession 1 (fun _ => 0) (fun _ => 0) 0 "call-1" "34020000001320000001"
            "192.168.1.1" "H264" "PCMA" ]).map
      (fun m =>
        ( (m.GetSession "call-1").map
            (fun s => (s.state, s.localVideoPort, s.localAudioPort)),
          (m.SetLocalPorts 1 "call-1" 50001 50004).2,
          ((m.SetLocalPorts 1 "call-1" 50001 50004).1.GetSession "call-1").map
            (fun s => (s.state, s.localVideoPort, s.localAudioPort)) ))
      = some (some (.INVITING, 0, 0), true, some (.INVITING, 50001, 50004)) ∧
    ¬ portsPaired (createdSession 0 "call-1" "34020000001320000001" "192.168.1.1" "H264"
      "PCMA" 1 1) := by
  refine ⟨by decide!, ?_⟩
  unfold portsPaired
  decide

/-- C7 (amended): the port relation is kept by the SIP engine, not by the manager.  When the
port counter of `AllocateRtpPort` is even (it starts at the base 50000 and moves in steps
of 4; it is the `static` variable `nextPort` of the process, or the base of the engine while
no call has initialised the variable) and every stored session has both local ports even
with the audio port two above the video port, the same holds after any sequence of INVITE,
ACK and BYE events that the engine handles: `HandleInvite` sets the ports of the session it
creates to `p` and `p + 2` for the allocated port `p` before it returns. -/
theorem C7_engine_events_keep_ports_paired (self impl : Impl) (nextPort nextPort' : Option Int)
    (events : List EngineEvent)
    (hbase : (nextPort.getD self.rtpPortBase_) % 2 = 0)
    (hold : ∀ id s, self.mediaSessionManager_.GetSession id = some s → portsPaired s)
    (hrun : self.run nextPort events = some (impl, nextPort')) :
    (nextPort'.getD impl.rtpPortBase_) % 2 = 0 ∧
    ∀ id s, impl.mediaSessionManager_.GetSession id = some s →
      s.localVideoPort % 2 = 0 ∧ s.localAudioPort % 2 = 0 ∧
        s.localAudioPort = s.localVideoPort + 2 :=
  run_portsInvariant events self impl nextPort nextPort' ⟨hbase, hold⟩ hrun

set_option maxRecDepth 100000 in
/-- Witness of C7 (amended): the engine of `main.cpp` handles an INVITE and an ACK for
`call-1` in a process that has not called `AllocateRtpPort` before; the session is then
Established on the ports 50000 and 50002. -/
theorem C7_engine_events_keep_ports_paired_witness :
    (((mainImpl.run none
        [ .invite inviteEvent defaultOffer 1 (fun _ => 0) (fun _ => 0) (fun k => k),
          .ack inviteEvent 9 ]).get (by decide!)).1.mediaSessionManager_.GetSession
            "call-1").map
      (fun s => (s.state, s.localVideoPort, s.localAudioPort))
      = some (.ESTABLISHED, 50000, 50002) ∧
    ((mainImpl.run none
        [ .invite inviteEvent defaultOffer 1 (fun _ => 0) (fun _ => 0) (fun k => k),
          .ack inviteEvent 9 ]).get (by decide!)).2 = some 50004 ∧
    ∀ id s, ((mainImpl.run none
        [ .invite inviteEvent defaultOffer 1 (fun _ => 0) (fun _ => 0) (fun k => k),
          .ack inviteEvent 9 ]).get (by decide!)).1.mediaSessionManager_.GetSession id
          = some s →
      s.localVideoPort % 2 = 0 ∧ s.localAudioPort % 2 = 0 ∧
        s.localAudioPort = s.localVideoPort + 2 :=
  ⟨by decide!, by decide!,
   (C7_engine_events_keep_ports_paired mainImpl
      ((mainImpl.run none
        [ .invite inviteEvent defaultOffer 1 (fun _ => 0) (fun _ => 0) (fun k => k),
          .ack inviteEvent 9 ]).get (by decide!)).1
      none
      ((mainImpl.run none
        [ .invite inviteEvent defaultOffer 1 (fun _ => 0) (fun _ => 0) (fun k => k),
          .ack inviteEvent 9 ]).get (by decide!)).2
      [ .invite inviteEvent defaultOffer 1 (fun _ => 0) (fun _ => 0) (fun k => k),
        .ack inviteEvent 9 ]
      (by decide)
      (fun id s hs => by
        have h0 : mainImpl.mediaSessionManager_.GetSession id = none := AList.lookup_empty id
        rw [h0] at hs
        cases hs)
      (Option.some_get (by decide!)).symm).2⟩

/-! ## Properties of session creation, the sweep and the port counter -/

theorem lookup_foldl_erase (id : String) :
    ∀ (ids : List String) (m : SessionMap),
      (ids.foldl (fun m sessionId => m.erase sessionId) m).lookup id
        = if id ∈ ids then none else m.lookup id := by
  intro ids
  induction ids with
  | nil => intro m; simp
  | cons i ids ih =>
    intro m
    rw [List.foldl_cons, ih, lookup_erase_if]
    by_cases h1 : id ∈ ids
    · simp [h1]
    · by_cases h2 : id = i
      · simp [h2]
      · simp [h1, h2]

theorem keys_length_foldl_erase :
    ∀ (ids : List String) (m : SessionMap), ids.Nodup → (∀ id ∈ ids, id ∈ m.keys) →
      (ids.foldl (fun m sessionId => m.erase sessionId) m).keys.length + ids.length
        = m.keys.length := by
  intro ids
  induction ids with
  | nil => intro m _ _; rfl
  | cons i ids ih =>
    intro m hnd hmem
    rw [List.nodup_cons] at hnd
    have hi : i ∈ m.keys := hmem i (List.mem_cons_self _ _)
    have hrest : ∀ id ∈ ids, id ∈ (m.erase i).keys := by
      intro id hid
      rw [AList.keys_erase]
      have hne : id ≠ i := fun e => hnd.1 (e ▸ hid)
      exact (List.mem_erase_of_ne hne).mpr (hmem id (List.mem_cons_of_mem _ hid))
    have h := ih (m.erase i) hnd.2 hrest
    have herase : (m.erase i).keys.length + 1 = m.keys.length := by
      rw [AList.keys_erase, List.length_erase_of_mem hi]
      have : 0 < m.keys.length := List.length_pos_of_mem hi
      omega
    rw [List.foldl_cons, List.length_cons]
    omega

theorem mem_timeoutSessions (m : SessionMap) (p : (_ : String) × MediaSessionInfo → Bool)
    (id : String) :
    id ∈ (m.entries.filter p).map (fun pair => pair.1)
      ↔ ∃ s, m.lookup id = some s ∧ p ⟨id, s⟩ = true := by
  constructor
  · intro h
    rcases List.mem_map.mp h with ⟨⟨k, s⟩, hks, rfl⟩
    rw [List.mem_filter] at hks
    exact ⟨s, AList.mem_lookup_iff.mpr hks.1, hks.2⟩
  · rintro ⟨s, hs, hp⟩
    exact List.mem_map.mpr ⟨⟨id, s⟩, List.mem_filter.mpr ⟨AList.mem_lookup_iff.mp hs, hp⟩, rfl⟩

theorem AllocateRtpPorts_from :
    ∀ (engines : List Impl) (nextPort : Option Int) (c : Int),
      (∀ e ∈ engines, nextPort.getD e.rtpPortBase_ = c) →
      c + 4 * (engines.length : Int) ≤ 2147483647 →
      ∃ nextPort', AllocateRtpPorts nextPort engines
        = some (nextPort', (List.range engines.length).map fun (k : Nat) => c + 4 * (k : Int)) := by
  intro engines
  induction engines with
  | nil => intro nextPort c _ _; exact ⟨nextPort, rfl⟩
  | cons self engines ih =>
    intro nextPort c hc hn
    rw [List.length_cons] at hn
    have hstep : self.AllocateRtpPort nextPort = some (some (c + 4), c) := by
      unfold Impl.AllocateRtpPort
      dsimp only
      rw [hc self (List.mem_cons_self _ _), if_neg (by push_cast at hn; omega)]
    obtain ⟨next1, hs⟩ := ih (some (c + 4)) (c + 4) (fun _ _ => rfl)
      (by push_cast at hn; omega)
    refine ⟨next1, ?_⟩
    unfold AllocateRtpPorts
    rw [hstep]
    dsimp only
    rw [hs]
    dsimp only
    rw [List.length_cons, List.range_succ_eq_map, List.map_cons, List.map_map]
    congr 3
    · simp
    · apply List.map_congr_left
      intro k _
      simp only [Function.comp_apply, Nat.succ_eq_add_one]
      push_cast
      ring

/-- C11: `CreateSession` for a session id (Call-ID) that is already in the session map
returns null whatever its other arguments are, and the manager is the one before the
call: no event is emitted, the map has the same entries and the same count, and the
session stored under the id is the one that was there. -/
theorem C11_create_session_rejects_existing_id (self : MediaSessionManager)
    (existing : MediaSessionInfo) (fuel : Nat) (draws1 draws2 : Nat → Nat) (now : Int)
    (sessionId channelId remoteIp videoCodec audioCodec : String)
    (h : self.GetSession sessionId = some existing) :
    ∃ m, self.CreateSession fuel draws1 draws2 now sessionId channelId remoteIp videoCodec
        audioCodec = some (m, none) ∧
      m.events = self.events ∧ m.sessions_ = self.sessions_ ∧
      m.GetSessionCount = self.GetSessionCount ∧ m.GetSession sessionId = some existing := by
  refine ⟨self, ?_, rfl, rfl, rfl, h⟩
  unfold MediaSessionManager.GetSession at h
  unfold MediaSessionManager.CreateSession
  by_cases hi : (!self.initialized_) = true
  · rw [if_pos hi]
  · rw [if_neg hi, if_pos (by rw [h]; rfl)]

set_option maxRecDepth 100000 in
/-- Witness of C11: a second `CreateSession` for `call-1`, with other arguments, on the
manager that already holds `call-1`. -/
theorem C11_create_session_rejects_existing_id_witness :
    ∃ m, oneSessionManager.CreateSession 1 (fun _ => 1) (fun _ => 2) 5 "call-1"
        "34020000001320000002" "10.0.0.1" "H265" "PCMU" = some (m, none) ∧
      m.events = oneSessionManager.events ∧ m.sessions_ = oneSessionManager.sessions_ ∧
      m.GetSessionCount = oneSessionManager.GetSessionCount ∧
      m.GetSession "call-1"
        = some (createdSession 0 "call-1" "34020000001320000001" "192.168.1.1" "H264" "PCMA"
            7 9) :=
  C11_create_session_rejects_existing_id oneSessionManager
    (createdSession 0 "call-1" "34020000001320000001" "192.168.1.1" "H264" "PCMA" 7 9)
    1 (fun _ => 1) (fun _ => 2) 5 "call-1" "34020000001320000002" "10.0.0.1" "H265" "PCMU"
    (by decide!)

/-- C12: for every manager, clock reading `now` and `timeoutSeconds`,
`CleanupTimeoutSessions` removes exactly the sessions whose last activity lies more than
`timeoutSeconds` seconds before `now`: such a session is not found afterwards, every other
session is found unchanged, no session appears, and the returned number is the number of
sessions removed (the count before minus the count after, which is the number of stored
sessions that had timed out). -/
theorem C12_cleanup_removes_exactly_timed_out_sessions (self : MediaSessionManager)
    (now timeoutSeconds : Int) :
    (∀ id s, self.GetSession id = some s →
      now - s.lastActivity > timeoutSeconds * ticksPerSecond →
      (self.CleanupTimeoutSessions now timeoutSeconds).1.GetSession id = none) ∧
    (∀ id s, self.GetSession id = some s →
      ¬ now - s.lastActivity > timeoutSeconds * ticksPerSecond →
      (self.CleanupTimeoutSessions now timeoutSeconds).1.GetSession id = some s) ∧
    (∀ id, self.GetSession id = none →
      (self.CleanupTimeoutSessions now timeoutSeconds).1.GetSession id = none) ∧
    (self.CleanupTimeoutSessions now timeoutSeconds).1.GetSessionCount
      + (self.CleanupTimeoutSessions now timeoutSeconds).2 = self.GetSessionCount ∧
    (self.CleanupTimeoutSessions now timeoutSeconds).2
      = (self.sessions_.entries.filter fun pair =>
          now - pair.2.lastActivity > timeoutSeconds * ticksPerSecond).length := by
  have hlookup : ∀ id, (self.CleanupTimeoutSessions now timeoutSeconds).1.GetSession id
      = if id ∈ (self.sessions_.entries.filter fun pair =>
            decide (now - pair.2.lastActivity > timeoutSeconds * ticksPerSecond)).map
            (fun pair => pair.1)
        then none else self.sessions_.lookup id := by
    intro id
    unfold MediaSessionManager.CleanupTimeoutSessions MediaSessionManager.GetSession
    dsimp only
    exact lookup_foldl_erase id _ _
  unfold MediaSessionManager.GetSession at *
  refine ⟨?_, ?_, ?_, ?_, ?_⟩
  · intro id s hs ht
    rw [hlookup, if_pos]
    exact (mem_timeoutSessions _ _ id).mpr ⟨s, hs, decide_eq_true ht⟩
  · intro id s hs ht
    rw [hlookup, if_neg, hs]
    intro hmem
    obtain ⟨s', hs', hp⟩ := (mem_timeoutSessions _ _ id).mp hmem
    rw [hs] at hs'
    cases hs'
    exact ht (of_decide_eq_true hp)
  · intro id hs
    rw [hlookup, hs]
    split <;> rfl
  · unfold MediaSessionManager.CleanupTimeoutSessions MediaSessionManager.GetSessionCount
    dsimp only
    rw [List.length_map]
    have h := keys_length_foldl_erase
      ((self.sessions_.entries.filter fun pair =>
        decide (now - pair.2.lastActivity > timeoutSeconds * ticksPerSecond)).map
        (fun pair => pair.1)) self.sessions_
      (by
        have hsub : List.Sublist
            ((self.sessions_.entries.filter fun pair =>
              decide (now - pair.2.lastActivity > timeoutSeconds * ticksPerSecond)).map
              (fun pair => pair.1)) self.sessions_.keys :=
          List.Sublist.map _ (List.filter_sublist _)
        exact hsub.nodup self.sessions_.keys_nodup)
      (by
        intro id hid
        obtain ⟨s, hs, _⟩ := (mem_timeoutSessions _ _ id).mp hid
        rw [← AList.mem_keys, ← AList.lookup_isSome, hs]; rfl)
    rw [List.length_map] at h
    exact h
  · unfold MediaSessionManager.CleanupTimeoutSessions
    dsimp only
    rw [List.length_map]

set_option maxRecDepth 100000 in
/-- C13: `CleanupTimeoutSessions` never calls `TriggerEvent`: for every manager, clock
reading and timeout the events the callback has observed are the same after the sweep as
before.  In scenario S6 (a session created at time 0, no activity, sweep with timeout 300
after 301 seconds, callback registered) the session is removed, the sweep returns 1 and
the callback has observed nothing, whereas `TerminateSession` on the same manager makes
the callback observe `SESSION_TERMINATED` for the session. -/
theorem C13_cleanup_emits_no_event :
    (∀ (self : MediaSessionManager) (now timeoutSeconds : Int),
      (self.CleanupTimeoutSessions now timeoutSeconds).1.events = self.events) ∧
    oneSessionManager.eventCallback_ = true ∧
    (oneSessionManager.CleanupTimeoutSessions (301 * ticksPerSecond) 300).2 = 1 ∧
    (oneSessionManager.CleanupTimeoutSessions (301 * ticksPerSecond) 300).1.GetSession "call-1"
      = none ∧
    (oneSessionManager.CleanupTimeoutSessions (301 * ticksPerSecond) 300).1.events = [] ∧
    (oneSessionManager.TerminateSession (301 * ticksPerSecond) "call-1").1.events
      = [⟨"call-1", .TERMINATING, "STATE_CHANGED"⟩, ⟨"call-1", .TERMINATED, "SESSION_TERMINATED"⟩] := by
  refine ⟨fun _ _ _ => rfl, rfl, ?_, ?_, ?_, ?_⟩ <;> decide!

set_option maxRecDepth 100000 in
/-- C14 (counterexample): the engine of `main.cpp` calls `AllocateRtpPort` three times and
gets 50000, 50004 and 50008; the `static` variable of the function is then 50012.  A second
engine, fresh from its constructor and with the base 50000, makes its first call in the same
process: it gets 50012, not 50000, because the variable is not initialised a second time. -/
theorem C14_second_engine_continues_the_counter :
    Impl.new.rtpPortBase_ = 50000 ∧
    AllocateRtpPorts none [mainImpl, mainImpl, mainImpl]
      = some (some 50012, [50000, 50004, 50008]) ∧
    Impl.new.AllocateRtpPort (some 50012) = some (some 50016, 50012) ∧
    AllocateRtpPorts none [mainImpl, mainImpl, mainImpl, Impl.new]
      = some (some 50016, [50000, 50004, 50008, 50012]) ∧
    Impl.new.AllocateRtpPort none = some (some 50004, 50000) := by
  refine ⟨rfl, ?_, ?_, ?_, ?_⟩ <;> decide!

/-- C14 (amended): the counter of `AllocateRtpPort` is one variable of the process, set to
the base by the first call that any engine makes.  In a process that has not called
`AllocateRtpPort` before, let engines with the base 50000 make calls in the order of the
list `engines` (the same engine may make several).  The calls all return, as long as the
counter stays in the range of `int`; the call number `k` of the process (from 0) returns
`50000 + 4 * k`; every returned port is even, at least the base, and neither it nor the
port two above it is returned by another call. -/
theorem C14_nth_allocated_port_is_base_plus_4n (engines : List Impl)
    (hbase : ∀ e ∈ engines, e.rtpPortBase_ = 50000)
    (hn : 50000 + 4 * (engines.length : Int) ≤ 2147483647) :
    ∃ nextPort ports, AllocateRtpPorts none engines = some (nextPort, ports) ∧
      ports.length = engines.length ∧
      (∀ k : Nat, k < engines.length → ports[k]? = some (50000 + 4 * (k : Int))) ∧
      (∀ p ∈ ports, p % 2 = 0 ∧ 50000 ≤ p ∧ p + 2 ∉ ports) ∧ ports.Nodup := by
  obtain ⟨s, hs⟩ := AllocateRtpPorts_from engines none 50000 hbase hn
  refine ⟨s, _, hs, by simp, ?_, ?_, ?_⟩
  · intro k hk
    simp [List.getElem?_map, List.getElem?_range hk]
  · intro p hp
    obtain ⟨i, _, rfl⟩ := List.mem_map.mp hp
    refine ⟨by omega, by omega, ?_⟩
    intro hmem
    obtain ⟨j, _, hj⟩ := List.mem_map.mp hmem
    omega
  · apply List.Nodup.map _ (List.nodup_range engines.length)
    intro i j hij
    simp only at hij
    omega

set_option maxRecDepth 100000 in
/-- Witness of C14 (amended): five calls in one process, three by the engine of `main.cpp`
and two by a second engine. -/
theorem C14_nth_allocated_port_is_base_plus_4n_witness :
    ∃ nextPort ports,
      AllocateRtpPorts none [mainImpl, mainImpl, Impl.new, mainImpl, Impl.new]
        = some (nextPort, ports) ∧
      ports.length = [mainImpl, mainImpl, Impl.new, mainImpl, Impl.new].length ∧
      (∀ k : Nat, k < [mainImpl, mainImpl, Impl.new, mainImpl, Impl.new].length →
        ports[k]? = some (50000 + 4 * (k : Int))) ∧
      (∀ p ∈ ports, p % 2 = 0 ∧ 50000 ≤ p ∧ p + 2 ∉ ports) ∧ ports.Nodup :=
  C14_nth_allocated_port_is_base_plus_4n [mainImpl, mainImpl, Impl.new, mainImpl, Impl.new]
    (by
      intro e he
      simp only [List.mem_cons, List.mem_singleton, List.not_mem_nil, or_false] at he
      rcases he with rfl | rfl | rfl | rfl | rfl <;> decide!)
    (by decide)

/-! ## Decimal rendering and the lines of a text -/

theorem digitChar_isDigit (n : Nat) : (Nat.digitChar (n % 10)).isDigit = true := by
  have h : n % 10 < 10 := Nat.mod_lt _ (by decide)
  generalize n % 10 = d at h
  interval_cases d <;> rfl

theorem toDigitsCore_isDigit : ∀ (fuel n : Nat) (ds : List Char),
    (∀ c ∈ ds, c.isDigit = true) → ∀ c ∈ Nat.toDigitsCore 10 fuel n ds, c.isDigit = true := by
  intro fuel
  induction fuel with
  | zero => intro n ds h; exact h
  | succ fuel ih =>
    intro n ds h
    unfold Nat.toDigitsCore
    dsimp only
    have hd : ∀ c ∈ Nat.digitChar (n % 10) :: ds, c.isDigit = true := by
      intro c hc
      rcases List.mem_cons.mp hc with rfl | hc
      · exact digitChar_isDigit n
      · exact h c hc
    split
    · exact hd
    · exact ih _ _ hd

theorem toString_nat_isDigit (n : Nat) : ∀ c ∈ (toString n).data, c.isDigit = true := by
  show ∀ c ∈ (Nat.toDigits 10 n).asString.data, c.isDigit = true
  exact toDigitsCore_isDigit _ _ _ (by intro c hc; cases hc)

theorem toString_int_chars (n : Int) : ∀ c ∈ (toString n).data, c = '-' ∨ c.isDigit = true := by
  intro c hc
  cases n with
  | ofNat m => exact Or.inr (toString_nat_isDigit m c hc)
  | negSucc m =>
    have : (toString (Int.negSucc m)).data = '-' :: (toString (m + 1)).data := rfl
    rw [this] at hc
    rcases List.mem_cons.mp hc with rfl | hc
    · exact Or.inl rfl
    · exact Or.inr (toString_nat_isDigit _ c hc)

theorem toString_int_no_lf (n : Int) : '\n' ∉ (toString n).data := by
  intro h
  rcases toString_int_chars n _ h with h | h
  · exact absurd h (by decide)
  · exact absurd h (by decide)

theorem getlines_eq_nil (s : List Char) : getlines s = [] ↔ s = [] := by
  constructor
  · intro h
    cases s with
    | nil => rfl
    | cons c cs =>
      unfold getlines at h
      split at h
      · cases h
      · split at h <;> cases h
  · rintro rfl; rfl

theorem getlines_line (l rest : List Char) (h : '\n' ∉ l) :
    getlines (l ++ '\n' :: rest) = l :: getlines rest := by
  induction l with
  | nil => simp [getlines]
  | cons c l ih =>
    have hc : c ≠ '\n' := fun e => h (e ▸ List.mem_cons_self _ _)
    have hl : '\n' ∉ l := fun e => h (List.mem_cons_of_mem _ e)
    rw [List.cons_append, getlines, if_neg hc, ih hl]

theorem getlines_append (s rest : List Char) (h : s = [] ∨ s.getLast? = some '\n') :
    getlines (s ++ rest) = getlines s ++ getlines rest := by
  induction s with
  | nil => simp [getlines]
  | cons c cs ih =>
    have hlast : (c :: cs).getLast? = some '\n' := by
      rcases h with h | h
      · cases h
      · exact h
    by_cases hc : c = '\n'
    · have hcs : cs = [] ∨ cs.getLast? = some '\n' := by
        cases cs with
        | nil => exact Or.inl rfl
        | cons d ds => right; rw [List.getLast?_cons_cons] at hlast; exact hlast
      rw [List.cons_append, getlines, if_pos hc, getlines, if_pos hc, ih hcs, List.cons_append]
    · cases cs with
      | nil =>
        simp only [List.getLast?_singleton, Option.some.injEq] at hlast
        exact absurd hlast hc
      | cons d ds =>
        rw [List.getLast?_cons_cons] at hlast
        have hne : getlines (d :: ds) ≠ [] := by
          rw [Ne, getlines_eq_nil]; exact List.cons_ne_nil _ _
        rw [List.cons_append, getlines, if_neg hc, getlines, if_neg hc, ih (Or.inr hlast)]
        cases hg : getlines (d :: ds) with
        | nil => exact absurd hg hne
        | cons line lines => rfl

theorem crlfLines_data (line : String) (lines : List String) :
    (crlfLines (line :: lines)).data = (line.data ++ ['\r']) ++ '\n' :: (crlfLines lines).data := by
  show (line ++ "\r\n" ++ crlfLines lines).data = _
  simp only [String.data_append, List.append_assoc]
  rfl

theorem sdpLines_crlfLines (lines : List String) (h : ∀ l ∈ lines, '\n' ∉ l.data) :
    sdpLines (crlfLines lines) = lines := by
  induction lines with
  | nil => rfl
  | cons line lines ih =>
    have hline : '\n' ∉ line.data ++ ['\r'] := by
      intro hmem
      rcases List.mem_append.mp hmem with hmem | hmem
      · exact h line (List.mem_cons_self _ _) hmem
      · simp at hmem
    have ih := ih fun l hl => h l (List.mem_cons_of_mem _ hl)
    unfold sdpLines at ih ⊢
    rw [crlfLines_data, getlines_line _ _ hline, List.map_cons, ih]
    simp

/-! ## Properties of the SDP negotiator -/

set_option maxRecDepth 100000 in
theorem CreateSdpAnswer_text (self : SdpNegotiator) (localIp : String) (rtpPort : Int)
    (videoFormat audioFormat : SdpMediaFormat)
    (hv : self.sessionVersion_ + 1 ≤ 2147483647) (hp : rtpPort + 2 ≤ 2147483647) :
    self.CreateSdpAnswer localIp rtpPort videoFormat audioFormat
      = some ({ self with sessionVersion_ := self.sessionVersion_ + 1 },
          crlfLines (SdpNegotiator.CreateSdpAnswer.lines self.sessionId_
            (self.sessionVersion_ + 1) localIp rtpPort videoFormat audioFormat)) := by
  unfold SdpNegotiator.CreateSdpAnswer
  rw [if_neg (by omega), if_neg (by omega)]
  dsimp only
  congr 2
  apply String.ext
  cases videoFormat <;>
    simp only [SdpNegotiator.CreateSdpAnswer.lines, crlfLines, String.data_append,
      List.append_assoc, List.cons_append, List.nil_append, reduceCtorEq, if_true, if_false,
      ite_true, ite_false, List.append_nil]

theorem GetFormatName_no_lf (format : SdpMediaFormat) :
    '\n' ∉ (SdpNegotiator.GetFormatName format).data := by
  cases format <;> decide

theorem CreateSdpAnswer_lines_no_lf (sessionId : String) (sessionVersion : Int)
    (localIp : String) (rtpPort : Int) (videoFormat audioFormat : SdpMediaFormat)
    (hs : '\n' ∉ sessionId.data) (hi : '\n' ∉ localIp.data) :
    ∀ l ∈ SdpNegotiator.CreateSdpAnswer.lines sessionId sessionVersion localIp rtpPort
      videoFormat audioFormat, '\n' ∉ l.data := by
  have h1 : '\n' ∉ "o=- ".data := by decide
  have h2 : '\n' ∉ " ".data := by decide
  have h3 : '\n' ∉ " IN IP4 ".data := by decide
  have h4 : '\n' ∉ "c=IN IP4 ".data := by decide
  have h5 : '\n' ∉ "m=video ".data := by decide
  have h6 : '\n' ∉ " RTP/AVP ".data := by decide
  have h7 : '\n' ∉ "a=rtpmap:".data := by decide
  have h8 : '\n' ∉ "/90000".data := by decide
  have h9 : '\n' ∉ "a=fmtp:".data := by decide
  have h10 : '\n' ∉ " profile-level-id=42e01f;packetization-mode=1".data := by decide
  have h11 : '\n' ∉ " profile-id=1".data := by decide
  have h12 : '\n' ∉ "m=audio ".data := by decide
  have h13 : '\n' ∉ "/8000/1".data := by decide
  have h14 : '\n' ∉ "v=0".data := by decide
  have h15 : '\n' ∉ "s=Play".data := by decide
  have h16 : '\n' ∉ "t=0 0".data := by decide
  intro l hl
  unfold SdpNegotiator.CreateSdpAnswer.lines at hl
  simp only [List.mem_append, List.mem_cons, List.mem_singleton, List.not_mem_nil,
    or_false] at hl
  rcases hl with ((hl | hl | hl | hl | hl | hl | hl) | hl) | hl | hl
  all_goals try subst hl
  all_goals try
    simp only [String.data_append, List.mem_append, not_or, h1, h2, h3, h4, h5, h6, h7, h8,
      h9, h10, h11, h12, h13, h14, h15, h16, hs, hi, toString_int_no_lf, GetFormatName_no_lf,
      not_false_eq_true, and_self]
  split at hl
  · simp only [List.mem_singleton] at hl
    subst hl
    simp only [String.data_append, List.mem_append, not_or, h9, h10, toString_int_no_lf,
      not_false_eq_true, and_self]
  · split at hl
    · simp only [List.mem_singleton] at hl
      subst hl
      simp only [String.data_append, List.mem_append, not_or, h9, h11, toString_int_no_lf,
        not_false_eq_true, and_self]
    · cases hl

theorem CreateSdpAnswer_sdpLines (self r : SdpNegotiator) (text localIp : String)
    (rtpPort : Int) (videoFormat audioFormat : SdpMediaFormat)
    (hs : '\n' ∉ self.sessionId_.data) (hi : '\n' ∉ localIp.data)
    (h : self.CreateSdpAnswer localIp rtpPort videoFormat audioFormat = some (r, text)) :
    sdpLines text = SdpNegotiator.CreateSdpAnswer.lines self.sessionId_
      (self.sessionVersion_ + 1) localIp rtpPort videoFormat audioFormat := by
  have hv : self.sessionVersion_ + 1 ≤ 2147483647 := by
    by_contra hv
    unfold SdpNegotiator.CreateSdpAnswer at h
    rw [if_pos (by omega)] at h
    cases h
  have hp : rtpPort + 2 ≤ 2147483647 := by
    by_contra hp
    unfold SdpNegotiator.CreateSdpAnswer at h
    rw [if_neg (by omega), if_pos (by omega)] at h
    cases h
  rw [CreateSdpAnswer_text self localIp rtpPort videoFormat audioFormat hv hp] at h
  simp only [Option.some.injEq, Prod.mk.injEq] at h
  rw [← h.2]
  exact sdpLines_crlfLines _ (CreateSdpAnswer_lines_no_lf _ _ _ _ _ _ hs hi)

set_option maxRecDepth 100000 in
theorem CreateSdpAnswer_lines_m (sessionId : String) (sessionVersion : Int)
    (localIp : String) (rtpPort : Int) (videoFormat audioFormat : SdpMediaFormat) :
    (SdpNegotiator.CreateSdpAnswer.lines sessionId sessionVersion localIp rtpPort videoFormat
        audioFormat).filter (fun line => "m=".data.isPrefixOf line.data)
      = [ "m=video " ++ toString rtpPort ++ " RTP/AVP "
            ++ toString (SdpNegotiator.GetVideoPayloadType videoFormat),
          "m=audio " ++ toString (rtpPort + 2) ++ " RTP/AVP "
            ++ toString (SdpNegotiator.GetAudioPayloadType audioFormat) ] := by
  cases videoFormat <;> rfl

set_option maxRecDepth 100000 in
theorem CreateSdpAnswer_lines_fmtp (sessionId : String) (sessionVersion : Int)
    (localIp : String) (rtpPort : Int) (videoFormat audioFormat : SdpMediaFormat) :
    (SdpNegotiator.CreateSdpAnswer.lines sessionId sessionVersion localIp rtpPort videoFormat
        audioFormat).filter (fun line => "a=fmtp".data.isPrefixOf line.data)
      = match videoFormat with
        | .H264 => ["a=fmtp:96 profile-level-id=42e01f;packetization-mode=1"]
        | .H265 => ["a=fmtp:98 profile-id=1"]
        | _ => [] := by
  cases videoFormat <;> rfl

set_option maxRecDepth 100000 in
theorem CreateSdpAnswer_lines_rtpmap (sessionId : String) (sessionVersion : Int)
    (localIp : String) (rtpPort : Int) (videoFormat audioFormat : SdpMediaFormat) :
    (SdpNegotiator.CreateSdpAnswer.lines sessionId sessionVersion localIp rtpPort videoFormat
        audioFormat).filter (fun line => "a=rtpmap".data.isPrefixOf line.data)
      = [ "a=rtpmap:" ++ toString (SdpNegotiator.GetVideoPayloadType videoFormat) ++ " "
            ++ SdpNegotiator.GetFormatName videoFormat ++ "/90000",
          "a=rtpmap:" ++ toString (SdpNegotiator.GetAudioPayloadType audioFormat) ++ " "
            ++ SdpNegotiator.GetFormatName audioFormat ++ "/8000/1" ] := by
  cases videoFormat <;> rfl

theorem new_sessionId_no_lf (time : Int) : '\n' ∉ (SdpNegotiator.new time).sessionId_.data :=
  toString_int_no_lf time

/-- C15: the payload-type table of `GetVideoPayloadType` and `GetAudioPayloadType` is
H264 96, H265 98, PS 99, PCMU 0, PCMA 8, AAC 97, and these six numbers are pairwise
distinct. -/
theorem C15_payload_type_table :
    SdpNegotiator.GetVideoPayloadType .H264 = 96 ∧
    SdpNegotiator.GetVideoPayloadType .H265 = 98 ∧
    SdpNegotiator.GetVideoPayloadType .PS = 99 ∧
    SdpNegotiator.GetAudioPayloadType .PCMU = 0 ∧
    SdpNegotiator.GetAudioPayloadType .PCMA = 8 ∧
    SdpNegotiator.GetAudioPayloadType .AAC = 97 ∧
    [ SdpNegotiator.GetVideoPayloadType .H264, SdpNegotiator.GetVideoPayloadType .H265,
      SdpNegotiator.GetVideoPayloadType .PS, SdpNegotiator.GetAudioPayloadType .PCMU,
      SdpNegotiator.GetAudioPayloadType .PCMA, SdpNegotiator.GetAudioPayloadType .AAC ].Nodup := by
  refine ⟨rfl, rfl, rfl, rfl, rfl, rfl, ?_⟩
  decide

/-- C16: for every local address and session id without a line feed, every port and every
pair of formats for which `CreateSdpAnswer` is defined (session version and `rtpPort + 2`
within `int`), the function returns a text whose first five lines are `v=0`,
`o=- <session id> <version> IN IP4 <localIp>`, `s=Play`, `c=IN IP4 <localIp>` and `t=0 0`,
and whose lines beginning with `m=` are exactly two, in this order:
`m=video <rtpPort> RTP/AVP <pt>` and `m=audio <rtpPort+2> RTP/AVP <pt>`, each with the one
payload type that the table gives for its format. -/
theorem C16_answer_has_session_lines_and_two_media_lines (self : SdpNegotiator)
    (localIp : String) (rtpPort : Int) (videoFormat audioFormat : SdpMediaFormat)
    (hs : '\n' ∉ self.sessionId_.data) (hi : '\n' ∉ localIp.data)
    (hv : self.sessionVersion_ + 1 ≤ 2147483647) (hp : rtpPort + 2 ≤ 2147483647) :
    ∃ r text, self.CreateSdpAnswer localIp rtpPort videoFormat audioFormat = some (r, text) ∧
      (sdpLines text).take 5
        = [ "v=0",
            "o=- " ++ self.sessionId_ ++ " " ++ toString (self.sessionVersion_ + 1)
              ++ " IN IP4 " ++ localIp,
            "s=Play",
            "c=IN IP4 " ++ localIp,
            "t=0 0" ] ∧
      linesFrom "m=" text
        = [ "m=video " ++ toString rtpPort ++ " RTP/AVP "
              ++ toString (SdpNegotiator.GetVideoPayloadType videoFormat),
            "m=audio " ++ toString (rtpPort + 2) ++ " RTP/AVP "
              ++ toString (SdpNegotiator.GetAudioPayloadType audioFormat) ] := by
  have h := CreateSdpAnswer_text self localIp rtpPort videoFormat audioFormat hv hp
  refine ⟨_, _, h, ?_, ?_⟩
  · rw [CreateSdpAnswer_sdpLines self _ _ localIp rtpPort videoFormat audioFormat hs hi h]
    rfl
  · unfold linesFrom
    rw [CreateSdpAnswer_sdpLines self _ _ localIp rtpPort videoFormat audioFormat hs hi h]
    exact CreateSdpAnswer_lines_m _ _ _ _ _ _

set_option maxRecDepth 100000 in
/-- Witness of C16: the answer of a new negotiator for the address of `main.cpp`, port
50000, H264 and PCMA. -/
theorem C16_answer_has_session_lines_and_two_media_lines_witness :
    ∃ r text, (SdpNegotiator.new 1700000000).CreateSdpAnswer "192.168.1.100" 50000 .H264 .PCMA
        = some (r, text) ∧
      (sdpLines text).take 5
        = [ "v=0", "o=- 1700000000 1 IN IP4 192.168.1.100", "s=Play",
            "c=IN IP4 192.168.1.100", "t=0 0" ] ∧
      linesFrom "m=" text = [ "m=video 50000 RTP/AVP 96", "m=audio 50002 RTP/AVP 8" ] :=
  C16_answer_has_session_lines_and_two_media_lines (SdpNegotiator.new 1700000000)
    "192.168.1.100" 50000 .H264 .PCMA (new_sessionId_no_lf 1700000000) (by decide)
    (by decide) (by decide)

set_option maxRecDepth 100000 in
/-- C17, counterexample: for the video format H265 the answer has an `a=fmtp` line,
`a=fmtp:98 profile-id=1`. -/
theorem C17_h265_answer_has_fmtp_line :
    ((SdpNegotiator.new 1700000000).CreateSdpAnswer "192.168.1.100" 50000 .H265 .PCMA).map
        (fun r => linesFrom "a=fmtp" r.2)
      = some ["a=fmtp:98 profile-id=1"] := by
  decide!

/-- C17, amended: the answer has an `a=fmtp` line exactly when the video format is H264 or
H265, and then exactly one: `a=fmtp:96 profile-level-id=42e01f;packetization-mode=1` for
H264 and `a=fmtp:98 profile-id=1` for H265; for PS (and every other format) it has
none. -/
theorem C17_fmtp_line_for_h264_and_h265 (self : SdpNegotiator)
    (localIp : String) (rtpPort : Int) (videoFormat audioFormat : SdpMediaFormat)
    (hs : '\n' ∉ self.sessionId_.data) (hi : '\n' ∉ localIp.data)
    (hv : self.sessionVersion_ + 1 ≤ 2147483647) (hp : rtpPort + 2 ≤ 2147483647) :
    ∃ r text, self.CreateSdpAnswer localIp rtpPort videoFormat audioFormat = some (r, text) ∧
      linesFrom "a=fmtp" text
        = match videoFormat with
          | .H264 => ["a=fmtp:96 profile-level-id=42e01f;packetization-mode=1"]
          | .H265 => ["a=fmtp:98 profile-id=1"]
          | _ => [] := by
  have h := CreateSdpAnswer_text self localIp rtpPort videoFormat audioFormat hv hp
  refine ⟨_, _, h, ?_⟩
  unfold linesFrom
  rw [CreateSdpAnswer_sdpLines self _ _ localIp rtpPort videoFormat audioFormat hs hi h]
  exact CreateSdpAnswer_lines_fmtp _ _ _ _ _ _

set_option maxRecDepth 100000 in
/-- Witness of C17 (amended): the answer for PS has no `a=fmtp` line. -/
theorem C17_fmtp_line_for_h264_and_h265_witness :
    ∃ r text, (SdpNegotiator.new 1700000000).CreateSdpAnswer "192.168.1.100" 50000 .PS .PCMA
        = some (r, text) ∧
      linesFrom "a=fmtp" text = [] :=
  C17_fmtp_line_for_h264_and_h265 (SdpNegotiator.new 1700000000)
    "192.168.1.100" 50000 .PS .PCMA (new_sessionId_no_lf 1700000000) (by decide)
    (by decide) (by decide)

/-! ## Properties of the SDP offer and its answer -/

theorem ParseSdpOffer_loop_append_line (text : String) (l : List Char) (offer : SdpOffer)
    (htext : text.data = [] ∨ text.data.getLast? = some '\n') (hl : '\n' ∉ l) :
    Impl.ParseSdpOffer.loop (text ++ String.mk l ++ "\r\n") offer
      = Impl.ParseSdpOffer.line (Impl.ParseSdpOffer.loop text offer) (l ++ ['\r']) := by
  have hdata : (text ++ String.mk l ++ "\r\n").data = text.data ++ ((l ++ ['\r']) ++ '\n' :: []) := by
    simp only [String.data_append, List.append_assoc]
    rfl
  have hline : '\n' ∉ l ++ ['\r'] := by
    intro hmem
    rcases List.mem_append.mp hmem with hmem | hmem
    · exact hl hmem
    · simp at hmem
  unfold Impl.ParseSdpOffer.loop
  rw [hdata, getlines_append _ _ htext, getlines_line _ _ hline, List.foldl_append]
  rfl

theorem ParseSdpOffer_line_rtpmap (st : ParseSdpOfferState) (x : List Char) :
    Impl.ParseSdpOffer.line st ("a=rtpmap:".data ++ x ++ ['\r'])
      = if st.currentMedia = "video" then
          if (find "H264".data x).isSome then
            { st with offer := { st.offer with videoCodec := "H264" } }
          else if (find "H265".data x).isSome then
            { st with offer := { st.offer with videoCodec := "H265" } }
          else if (find "PS".data x).isSome then
            { st with offer := { st.offer with videoCodec := "PS" } }
          else st
        else if st.currentMedia = "audio" then
          if (find "PCMA".data x).isSome then
            { st with offer := { st.offer with audioCodec := "PCMA" } }
          else if (find "PCMU".data x).isSome then
            { st with offer := { st.offer with audioCodec := "PCMU" } }
          else st
        else st := by
  have hform : "a=rtpmap:".data ++ x ++ ['\r']
      = ('a' :: '=' :: 'r' :: 't' :: 'p' :: 'm' :: 'a' :: 'p' :: ':' :: x) ++ ['\r'] := rfl
  have hfind : find "rtpmap:".data ('r' :: 't' :: 'p' :: 'm' :: 'a' :: 'p' :: ':' :: x)
      = some 0 := by
    unfold find
    rw [if_pos]
    show List.isPrefixOf ['r', 't', 'p', 'm', 'a', 'p', ':'] _ = true
    simp
  have hempty : (('a' :: '=' :: 'r' :: 't' :: 'p' :: 'm' :: 'a' :: 'p' :: ':' :: x)
      ++ ['\r']).isEmpty = false := rfl
  unfold Impl.ParseSdpOffer.line
  rw [hform, hempty, if_neg (by decide), List.getLast?_concat, if_pos rfl,
    List.dropLast_concat]
  simp only [List.length_cons, List.head?_cons, List.drop_succ_cons, List.drop_zero]
  rw [if_pos True.intro, if_pos hfind]
  rfl

set_option maxRecDepth 100000 in
/-- C18: the name in the video `rtpmap` line of a PS answer is not `PS`: `GetFormatName`
gives `MP2T` for PS, so the answer for PS has the lines `a=rtpmap:99 MP2T/90000` and
`a=rtpmap:8 PCMA/8000/1`.  For the other five formats the name is that of the codec.
`ParseSdpOffer` of the same engine recognises PS by the name `PS` and does not recognise
`MP2T`. -/
theorem C18_ps_answer_names_mp2t :
    SdpNegotiator.GetFormatName .PS = "MP2T" ∧
    ((SdpNegotiator.new 1700000000).CreateSdpAnswer "192.168.1.100" 50000 .PS .PCMA).map
        (fun r => linesFrom "a=rtpmap" r.2)
      = some ["a=rtpmap:99 MP2T/90000", "a=rtpmap:8 PCMA/8000/1"] ∧
    [SdpMediaFormat.H264, .H265, .PCMU, .PCMA, .AAC].map SdpNegotiator.GetFormatName
      = ["H264", "H265", "PCMU", "PCMA", "AAC"] ∧
    (Impl.ParseSdpOffer "m=video 6000 RTP/AVP 96\r\na=rtpmap:96 PS/90000\r\n"
      { defaultOffer with videoCodec := "" }).videoCodec = "PS" ∧
    (Impl.ParseSdpOffer "m=video 50000 RTP/AVP 99\r\na=rtpmap:99 MP2T/90000\r\n"
      { defaultOffer with videoCodec := "" }).videoCodec = "" := by
  refine ⟨rfl, ?_, rfl, ?_, ?_⟩ <;> decide!

set_option maxRecDepth 100000 in
theorem CreateSdpAnswer_lines_video (sessionId : String) (sessionVersion : Int)
    (localIp : String) (rtpPort : Int) (videoFormat audioFormat : SdpMediaFormat) :
    (SdpNegotiator.CreateSdpAnswer.lines sessionId sessionVersion localIp rtpPort videoFormat
        audioFormat).filter (fun line => "m=video".data.isPrefixOf line.data)
      = [ "m=video " ++ toString rtpPort ++ " RTP/AVP "
            ++ toString (SdpNegotiator.GetVideoPayloadType videoFormat) ] := by
  cases videoFormat <;> rfl

set_option maxRecDepth 100000 in
theorem CreateSdpAnswer_lines_audio (sessionId : String) (sessionVersion : Int)
    (localIp : String) (rtpPort : Int) (videoFormat audioFormat : SdpMediaFormat) :
    (SdpNegotiator.CreateSdpAnswer.lines sessionId sessionVersion localIp rtpPort videoFormat
        audioFormat).filter (fun line => "m=audio".data.isPrefixOf line.data)
      = [ "m=audio " ++ toString (rtpPort + 2) ++ " RTP/AVP "
            ++ toString (SdpNegotiator.GetAudioPayloadType audioFormat) ] := by
  cases videoFormat <;> rfl

set_option maxRecDepth 100000 in
/-- C19, counterexample: the offer `psOffer` has one video section with the payload-type
list `96` (PS) and one audio section with the list `8`; the answer the INVITE handler
builds for it has the video line `m=video 50000 RTP/AVP 99`, and 99 is not in the list of
the offer. -/
theorem C19_ps_offer_is_answered_with_payload_99 :
    (linesFrom "m=video" psOffer).map payloadTypes = [["96"]] ∧
    (linesFrom "m=audio" psOffer).map payloadTypes = [["8"]] ∧
    (linesFrom "m=" psOffer).length = 2 ∧
    (Impl.HandleInvite.sdpAnswer mainImpl psOffer 50000 1700000000).map
      (fun answer => linesFrom "m=video" answer) = some ["m=video 50000 RTP/AVP 99"] ∧
    (Impl.HandleInvite.sdpAnswer mainImpl psOffer 50000 1700000000).map
      (fun answer => (linesFrom "m=video" answer).map payloadTypes) = some [["99"]] ∧
    (Impl.HandleInvite.sdpAnswer mainImpl psOffer 50000 1700000000).map
      (fun answer => (linesFrom "m=audio" answer).map payloadTypes) = some [["8"]] := by
  refine ⟨?_, ?_, ?_, ?_, ?_, ?_⟩ <;> decide!

/-- C19, amended: for every body of an INVITE, the answer the handler builds has one
`m=video` line and one `m=audio` line, and their payload types are those of the table for
the codecs `ParseSdpOffer` chose by name: 96, 98 or 99 for video and 8 or 0 for audio.
The payload-type lists of the `m=` lines of the offer are not read. -/
theorem C19_answer_payload_types_come_from_the_table (self : Impl) (sdpBody : String)
    (localVideoPort time : Int)
    (hi : '\n' ∉ self.localIp_.data) (hp : localVideoPort + 2 ≤ 2147483647) :
    ∃ answer, Impl.HandleInvite.sdpAnswer self sdpBody localVideoPort time = some answer ∧
      linesFrom "m=video" answer
        = [ "m=video " ++ toString localVideoPort ++ " RTP/AVP "
            ++ toString (SdpNegotiator.GetVideoPayloadType (Impl.HandleInvite.videoFormat
                (Impl.ParseSdpOffer (c_str sdpBody) defaultOffer).videoCodec)) ] ∧
      linesFrom "m=audio" answer
        = [ "m=audio " ++ toString (localVideoPort + 2) ++ " RTP/AVP "
            ++ toString (SdpNegotiator.GetAudioPayloadType (Impl.HandleInvite.audioFormat
                (Impl.ParseSdpOffer (c_str sdpBody) defaultOffer).audioCodec)) ] ∧
      SdpNegotiator.GetVideoPayloadType (Impl.HandleInvite.videoFormat
        (Impl.ParseSdpOffer (c_str sdpBody) defaultOffer).videoCodec) ∈ [(96 : Int), 98, 99] ∧
      SdpNegotiator.GetAudioPayloadType (Impl.HandleInvite.audioFormat
        (Impl.ParseSdpOffer (c_str sdpBody) defaultOffer).audioCodec) ∈ [(8 : Int), 0] := by
  have h := CreateSdpAnswer_text (SdpNegotiator.new time) self.localIp_ localVideoPort
    (Impl.HandleInvite.videoFormat (Impl.ParseSdpOffer (c_str sdpBody) defaultOffer).videoCodec)
    (Impl.HandleInvite.audioFormat (Impl.ParseSdpOffer (c_str sdpBody) defaultOffer).audioCodec)
    (show (0 : Int) + 1 ≤ 2147483647 by decide) hp
  have hl := CreateSdpAnswer_sdpLines (SdpNegotiator.new time) _ _ self.localIp_ localVideoPort
    _ _ (new_sessionId_no_lf time) hi h
  have hanswer : Impl.HandleInvite.sdpAnswer self sdpBody localVideoPort time
      = some (crlfLines (SdpNegotiator.CreateSdpAnswer.lines (SdpNegotiator.new time).sessionId_
          ((SdpNegotiator.new time).sessionVersion_ + 1) self.localIp_ localVideoPort
          (Impl.HandleInvite.videoFormat
            (Impl.ParseSdpOffer (c_str sdpBody) defaultOffer).videoCodec)
          (Impl.HandleInvite.audioFormat
            (Impl.ParseSdpOffer (c_str sdpBody) defaultOffer).audioCodec))) := by
    unfold Impl.HandleInvite.sdpAnswer
    dsimp only
    rw [h]
    rfl
  refine ⟨_, hanswer, ?_, ?_, ?_, ?_⟩
  · unfold linesFrom
    rw [hl]
    exact CreateSdpAnswer_lines_video _ _ _ _ _ _
  · unfold linesFrom
    rw [hl]
    exact CreateSdpAnswer_lines_audio _ _ _ _ _ _
  · unfold Impl.HandleInvite.videoFormat
    split
    · decide
    · split <;> decide
  · unfold Impl.HandleInvite.audioFormat
    split <;> decide

set_option maxRecDepth 100000 in
/-- Witness of C19 (amended): the answer of the engine of `main.cpp` for `psOffer`. -/
theorem C19_answer_payload_types_come_from_the_table_witness :
    ∃ answer, Impl.HandleInvite.sdpAnswer mainImpl psOffer 50000 1700000000 = some answer ∧
      linesFrom "m=video" answer
        = [ "m=video " ++ toString (50000 : Int) ++ " RTP/AVP "
            ++ toString (SdpNegotiator.GetVideoPayloadType (Impl.HandleInvite.videoFormat
                (Impl.ParseSdpOffer (c_str psOffer) defaultOffer).videoCodec)) ] ∧
      linesFrom "m=audio" answer
        = [ "m=audio " ++ toString ((50000 : Int) + 2) ++ " RTP/AVP "
            ++ toString (SdpNegotiator.GetAudioPayloadType (Impl.HandleInvite.audioFormat
                (Impl.ParseSdpOffer (c_str psOffer) defaultOffer).audioCodec)) ] ∧
      SdpNegotiator.GetVideoPayloadType (Impl.HandleInvite.videoFormat
        (Impl.ParseSdpOffer (c_str psOffer) defaultOffer).videoCodec) ∈ [(96 : Int), 98, 99] ∧
      SdpNegotiator.GetAudioPayloadType (Impl.HandleInvite.audioFormat
        (Impl.ParseSdpOffer (c_str psOffer) defaultOffer).audioCodec) ∈ [(8 : Int), 0] :=
  C19_answer_payload_types_come_from_the_table mainImpl psOffer 50000 1700000000
    (by decide!) (by decide)

set_option maxRecDepth 100000 in
/-- C20, counterexample: with H264 offered before H265 and PCMA before PCMU,
`ParseSdpOffer` chooses H265 and PCMU; with the same `rtpmap` lines in the other order it
chooses H264 and PCMA; with AAC as the only audio codec offered it leaves the audio codec
at the value passed in (PCMA). -/
theorem C20_choice_depends_on_the_order_of_rtpmap_lines :
    (Impl.ParseSdpOffer preferredFirstOffer defaultOffer).videoCodec = "H265" ∧
    (Impl.ParseSdpOffer preferredFirstOffer defaultOffer).audioCodec = "PCMU" ∧
    (Impl.ParseSdpOffer preferredLastOffer defaultOffer).videoCodec = "H264" ∧
    (Impl.ParseSdpOffer preferredLastOffer defaultOffer).audioCodec = "PCMA" ∧
    (Impl.ParseSdpOffer aacOffer defaultOffer).audioCodec = "PCMA" := by
  refine ⟨?_, ?_, ?_, ?_, ?_⟩ <;> decide!

/-- C20, amended: `ParseSdpOffer` reads the offer line by line and every `rtpmap` line it
recognises overrides the codec chosen so far.  For an offer that consists of complete
lines followed by one more line `a=rtpmap:<x>`: when the last media line read was a video
line, the video codec is H264 if `x` contains `H264`, else H265 if `x` contains `H265`,
else PS if `x` contains `PS`, else what the earlier lines chose; when it was an audio line,
the audio codec is PCMA if `x` contains `PCMA`, else PCMU if `x` contains `PCMU`, else what
the earlier lines chose (AAC is not recognised); everything else is as the earlier lines
left it. -/
theorem C20_each_rtpmap_line_overrides_the_choice (text x : String) (offer : SdpOffer)
    (htext : text.data = [] ∨ text.data.getLast? = some '\n') (hx : '\n' ∉ x.data) :
    Impl.ParseSdpOffer (text ++ "a=rtpmap:" ++ x ++ "\r\n") offer
      = if (Impl.ParseSdpOffer.loop text offer).currentMedia = "video" then
          if (find "H264".data x.data).isSome then
            { Impl.ParseSdpOffer text offer with videoCodec := "H264" }
          else if (find "H265".data x.data).isSome then
            { Impl.ParseSdpOffer text offer with videoCodec := "H265" }
          else if (find "PS".data x.data).isSome then
            { Impl.ParseSdpOffer text offer with videoCodec := "PS" }
          else Impl.ParseSdpOffer text offer
        else if (Impl.ParseSdpOffer.loop text offer).currentMedia = "audio" then
          if (find "PCMA".data x.data).isSome then
            { Impl.ParseSdpOffer text offer with audioCodec := "PCMA" }
          else if (find "PCMU".data x.data).isSome then
            { Impl.ParseSdpOffer text offer with audioCodec := "PCMU" }
          else Impl.ParseSdpOffer text offer
        else Impl.ParseSdpOffer text offer := by
  have htxt : text ++ "a=rtpmap:" ++ x ++ "\r\n"
      = text ++ String.mk ("a=rtpmap:".data ++ x.data) ++ "\r\n" := by
    apply String.ext
    simp only [String.data_append, List.append_assoc]
  have hl : '\n' ∉ "a=rtpmap:".data ++ x.data := by
    intro hmem
    rcases List.mem_append.mp hmem with hmem | hmem
    · exact absurd hmem (by decide)
    · exact hx hmem
  unfold Impl.ParseSdpOffer
  rw [htxt, ParseSdpOffer_loop_append_line text _ offer htext hl, ParseSdpOffer_line_rtpmap]
  split
  · split
    · rfl
    · split
      · rfl
      · split <;> rfl
  · split
    · split
      · rfl
      · split <;> rfl
    · rfl

set_option maxRecDepth 100000 in
/-- Witness of C20 (amended): after a video section that offers H264, one more line
`a=rtpmap:98 H265/90000` changes the chosen video codec from H264 to H265. -/
theorem C20_each_rtpmap_line_overrides_the_choice_witness :
    (h264Section.data = [] ∨ h264Section.data.getLast? = some '\n') ∧
    '\n' ∉ "98 H265/90000".data ∧
    (Impl.ParseSdpOffer h264Section defaultOffer).videoCodec = "H264" ∧
    Impl.ParseSdpOffer (h264Section ++ "a=rtpmap:" ++ "98 H265/90000" ++ "\r\n") defaultOffer
      = { Impl.ParseSdpOffer h264Section defaultOffer with videoCodec := "H265" } :=
  ⟨by decide, by decide, by decide!,
    (C20_each_rtpmap_line_overrides_the_choice h264Section "98 H265/90000" defaultOffer
      (by decide) (by decide)).trans
      (by rw [if_pos (by decide!), if_neg (by decide!), if_pos (by decide!)])⟩

/-! ## Properties of the PTZ controller and of device control -/

/-- C21: `ParseCommandCode` maps the 23 codes of the table to Stop; Up, Down, Left, Right,
Up-Left, Down-Left, Up-Right, Down-Right; Zoom in, Zoom out; Focus near, Focus far; Iris
open, Iris close; Preset call, set, delete; Cruise start, stop, add; Scan start, stop; and
no two of the 23 codes are mapped to the same command. -/
theorem C21_command_code_table :
    tableCodes.map PTZController.ParseCommandCode
      = [ .STOP, .UP, .DOWN, .LEFT, .RIGHT, .UP_LEFT, .DOWN_LEFT, .UP_RIGHT, .DOWN_RIGHT,
          .ZOOM_IN, .ZOOM_OUT, .FOCUS_NEAR, .FOCUS_FAR, .IRIS_OPEN, .IRIS_CLOSE,
          .PRESET_CALL, .PRESET_SET, .PRESET_DELETE, .CRUISE_START, .CRUISE_STOP, .CRUISE_ADD,
          .SCAN_START, .SCAN_STOP ] ∧
    tableCodes.length = 23 ∧
    ∀ c ∈ tableCodes, ∀ d ∈ tableCodes,
      PTZController.ParseCommandCode c = PTZController.ParseCommandCode d → c = d := by
  refine ⟨by decide, rfl, ?_⟩
  decide

set_option maxRecDepth 100000 in
/-- C23: the action `HandleDeviceControl` executes is the table action only for the codes
1 to 8.  `Command=11` and `Command=12` execute the direction command Up (`Command=1` is
tested first and is a prefix of both), `Command=21`, `22` and `23` execute Down, and
`Command=0` executes nothing and is answered with Result ERROR.  The request of scenario
S4, `Command=3&Speed=200`, executes Left with speed 200 and is answered with Result OK. -/
theorem C23_device_control_executes_first_prefix_match :
    tableCodes.map (fun c => (Impl.HandleDeviceControl mainImpl
        (deviceControlEvent ("Command=" ++ toString c ++ "&Speed=128"))).map fun r => r.1)
      = [ some none,
          some (some ("PTZ_CONTROL", "UP speed=128")),
          some (some ("PTZ_CONTROL", "DOWN speed=128")),
          some (some ("PTZ_CONTROL", "LEFT speed=128")),
          some (some ("PTZ_CONTROL", "RIGHT speed=128")),
          some (some ("PTZ_CONTROL", "UP_LEFT speed=128")),
          some (some ("PTZ_CONTROL", "DOWN_LEFT speed=128")),
          some (some ("PTZ_CONTROL", "UP_RIGHT speed=128")),
          some (some ("PTZ_CONTROL", "DOWN_RIGHT speed=128")),
          some (some ("PTZ_CONTROL", "UP speed=128")),
          some (some ("PTZ_CONTROL", "UP speed=128")),
          some (some ("PTZ_CONTROL", "UP speed=128")),
          some (some ("PTZ_CONTROL", "UP speed=128")),
          some (some ("PTZ_CONTROL", "UP speed=128")),
          some (some ("PTZ_CONTROL", "UP speed=128")),
          some (some ("PTZ_CONTROL", "DOWN speed=128")),
          some (some ("PTZ_CONTROL", "DOWN speed=128")),
          some (some ("PTZ_CONTROL", "DOWN speed=128")),
          some (some ("PTZ_CONTROL", "LEFT speed=128")),
          some (some ("PTZ_CONTROL", "LEFT speed=128")),
          some (some ("PTZ_CONTROL", "LEFT speed=128")),
          some (some ("PTZ_CONTROL", "RIGHT speed=128")),
          some (some ("PTZ_CONTROL", "RIGHT speed=128")) ] ∧
    Impl.HandleDeviceControl mainImpl (deviceControlEvent "Command=11&Speed=128")
      = some (some ("PTZ_CONTROL", "UP speed=128"),
          .response (Impl.SendDeviceControlResponse.body "34020000001320000001" "OK")) ∧
    Impl.HandleDeviceControl mainImpl (deviceControlEvent "Command=0&Speed=128")
      = some (none,
          .response (Impl.SendDeviceControlResponse.body "34020000001320000001" "ERROR")) ∧
    Impl.HandleDeviceControl mainImpl (deviceControlEvent "Command=3&Speed=200")
      = some (some ("PTZ_CONTROL", "LEFT speed=200"),
          .response (Impl.SendDeviceControlResponse.body "34020000001320000001" "OK")) ∧
    Impl.PtzZoom "34020000001320000001" 1 128 = (("PTZ_ZOOM", "ZOOM_IN speed=128"), true) := by
  refine ⟨?_, ?_, ?_, ?_, ?_⟩ <;> decide!

set_option maxRecDepth 100000 in
/-- C28: `ParsePTZCommand` and `ParsePTZCommandFromXML` do not return for every input:
for `Command=abc` the exception `std::invalid_argument` of `std::stoi` leaves them, for
`Speed=99999999999` the exception `std::out_of_range`.  `XmlNode::GetIntValue` catches the
exceptions of the same conversion and returns 0. -/
theorem C28_parse_ptz_command_raises_on_bad_numbers :
    PTZController.ParsePTZCommand "Command=abc" = .error .invalid_argument ∧
    PTZController.ParsePTZCommand "Speed=99999999999" = .error .out_of_range ∧
    PTZController.ParsePTZCommandFromXML "<PTZCmd>Command=abc</PTZCmd>" PTZControlParams.new
      = .error .invalid_argument ∧
    PTZController.ParsePTZCommandFromXML "<PTZCmd>Speed=99999999999</PTZCmd>"
      PTZControlParams.new = .error .out_of_range ∧
    XmlNode.GetIntValue (.mk "Speed" "abc" ∅ []) = 0 ∧
    XmlNode.GetIntValue (.mk "Speed" "99999999999" ∅ []) = 0 ∧
    PTZController.ParsePTZCommand "Command=3&Speed=200"
      = .ok (true, { PTZControlParams.new with command := .LEFT, speed := 200 }) := by
  refine ⟨?_, ?_, ?_, ?_, ?_, ?_, ?_⟩ <;> decide!

/-! ## Properties of the MANSCDP helpers and of the XML parser -/

set_option maxRecDepth 100000 in
/-- C24: `GetCommandType` skips ten characters for the nine of `<CmdType>`: for the
Catalog query of scenario S2 it returns `atalog`, for a one-letter command type the empty
string.  `GetSN` skips the four characters of `<SN>` and returns `17`.  For a document
without a `CmdType` element the result is the empty string. -/
theorem C24_get_command_type_drops_first_character :
    MscdpXmlHelper.GetCommandType catalogQuery = "atalog" ∧
    MscdpXmlHelper.GetCommandType "<CmdType>Catalog</CmdType>" = "atalog" ∧
    MscdpXmlHelper.GetCommandType "<CmdType>X</CmdType>" = "" ∧
    MscdpXmlHelper.GetSN catalogQuery = "17" ∧
    MscdpXmlHelper.GetCommandType "<Query><SN>17</SN></Query>" = "" := by
  refine ⟨?_, ?_, ?_, ?_, ?_⟩ <;> decide!

set_option maxRecDepth 100000 in
/-- C25: `ParseRecordInfoQuery` and `GetDeviceId` skip eleven characters for the ten of
`<DeviceID>`: for a query with the channel `34020000001320000001` both give
`4020000001320000001`; for the one-character channel `1` the channel is empty and
`ParseRecordInfoQuery` returns false.  Start and end time are as in the document. -/
theorem C25_record_info_query_drops_first_character_of_channel :
    MscdpXmlHelper.ParseRecordInfoQuery (recordInfoQuery "34020000001320000001")
      = (true, "4020000001320000001", "2024-01-01T00:00:00", "2024-01-02T00:00:00") ∧
    MscdpXmlHelper.GetDeviceId (recordInfoQuery "34020000001320000001")
      = "4020000001320000001" ∧
    MscdpXmlHelper.ParseRecordInfoQuery (recordInfoQuery "1")
      = (false, "", "2024-01-01T00:00:00", "2024-01-02T00:00:00") ∧
    MscdpXmlHelper.GetDeviceId (recordInfoQuery "1") = "" := by
  refine ⟨?_, ?_, ?_, ?_⟩ <;> decide!

theorem attributes_mono : ∀ (fuel : Nat) (pos : List Char) (attributes_ : XmlAttributes)
    (r : XmlAttributes × List Char),
    XmlParser.ParseElement.attributes fuel pos attributes_ = some r →
    XmlParser.ParseElement.attributes (fuel + 1) pos attributes_ = some r := by
  intro fuel
  induction fuel with
  | zero => intro pos attributes_ r h; cases h
  | succ n ih =>
    intro pos attributes_ r h
    rw [XmlParser.ParseElement.attributes] at h ⊢
    by_cases hc : (!pos.isEmpty) = true ∧ pos.head? ≠ some '>' ∧ pos.head? ≠ some '/'
    · rw [if_pos hc] at h ⊢
      exact ih _ _ _ h
    · rw [if_neg hc] at h ⊢
      exact h

theorem ParseElement_mono : ∀ (fuel : Nat),
    (∀ (pos : List Char) (r : Option XmlNode × List Char),
      XmlParser.ParseElement fuel pos = some r → XmlParser.ParseElement (fuel + 1) pos = some r) ∧
    (∀ (pos : List Char) (text_ : String) (children_ : List XmlNode)
      (r : String × List XmlNode × List Char),
      XmlParser.ParseElement.children fuel pos text_ children_ = some r →
      XmlParser.ParseElement.children (fuel + 1) pos text_ children_ = some r) := by
  intro fuel
  induction fuel with
  | zero =>
    exact ⟨fun pos r h => (by cases h), fun pos t c r h => (by cases h)⟩
  | succ n ih =>
    constructor
    · intro pos r h
      rw [XmlParser.ParseElement] at h ⊢
      dsimp only at h ⊢
      by_cases h1 : (XmlParser.SkipWhitespace pos).head? ≠ some '<'
      · rw [if_pos h1] at h ⊢
        exact h
      · rw [if_neg h1] at h ⊢
        by_cases h2 : (List.drop 1 (XmlParser.SkipWhitespace pos)).head? = some '/'
        · rw [if_pos h2] at h ⊢
          exact h
        · rw [if_neg h2] at h ⊢
          by_cases h3 : 3 < (List.drop 1 (XmlParser.SkipWhitespace pos)).length ∧
              List.take 3 (List.drop 1 (XmlParser.SkipWhitespace pos)) = ['!', '-', '-']
          · rw [if_pos h3] at h ⊢
            exact ih.1 _ _ h
          · rw [if_neg h3] at h ⊢
            simp only [XmlParser.ParseTagName] at h ⊢
            cases ha : XmlParser.ParseElement.attributes n
                (XmlParser.SkipWhitespace (List.dropWhile XmlParser.isTagNameChar
                  (List.drop 1 (XmlParser.SkipWhitespace pos)))) ∅ with
            | none => rw [ha] at h; cases h
            | some ra =>
              obtain ⟨attrs, pos3⟩ := ra
              rw [ha] at h
              rw [attributes_mono _ _ _ _ ha]
              dsimp only at h ⊢
              by_cases h4 : pos3.head? = some '/'
              · rw [if_pos h4] at h ⊢
                exact h
              · rw [if_neg h4] at h ⊢
                cases hc : XmlParser.ParseElement.children n
                    (if pos3.head? = some '>' then List.drop 1 pos3 else pos3) "" [] with
                | none => rw [hc] at h; cases h
                | some rc =>
                  rw [hc] at h
                  rw [ih.2 _ _ _ _ hc]
                  exact h
    · intro pos text_ children_ r h
      rw [XmlParser.ParseElement.children] at h ⊢
      dsimp only at h ⊢
      by_cases h1 : pos.isEmpty = true
      · rw [if_pos h1] at h ⊢
        exact h
      · rw [if_neg h1] at h ⊢
        by_cases h2 : (XmlParser.SkipWhitespace pos).isEmpty = true
        · rw [if_pos h2] at h ⊢
          exact h
        · rw [if_neg h2] at h ⊢
          by_cases h3 : (XmlParser.SkipWhitespace pos).head? = some '<'
          · rw [if_pos h3] at h ⊢
            by_cases h4 : (List.drop 1 (XmlParser.SkipWhitespace pos)).head? = some '/'
            · rw [if_pos h4] at h ⊢
              exact h
            · rw [if_neg h4] at h ⊢
              cases he : XmlParser.ParseElement n (XmlParser.SkipWhitespace pos) with
              | none => rw [he] at h; cases h
              | some re =>
                obtain ⟨child, pos2⟩ := re
                rw [he] at h
                rw [ih.1 _ _ he]
                dsimp only at h ⊢
                cases child with
                | none => exact ih.2 _ _ _ _ h
                | some child => exact ih.2 _ _ _ _ h
          · rw [if_neg h3] at h ⊢
            simp only [XmlParser.ParseText] at h ⊢
            exact ih.2 _ _ _ _ h

theorem Parse_mono (xmlStr : String) (r : Option XmlNode) (fuel : Nat)
    (h : XmlParser.Parse fuel xmlStr = some r) :
    ∀ more, XmlParser.Parse (fuel + more) xmlStr = some r := by
  intro more
  induction more with
  | zero => exact h
  | succ k ih =>
    unfold XmlParser.Parse at ih ⊢
    dsimp only at ih ⊢
    cases he : XmlParser.ParseElement (fuel + k) (if
        (XmlParser.SkipWhitespace xmlStr.data).head? = some '<' ∧
          1 < (XmlParser.SkipWhitespace xmlStr.data).length ∧
          (List.drop 1 (XmlParser.SkipWhitespace xmlStr.data)).head? = some '?'
        then XmlParser.SkipWhitespace (XmlParser.ParseDeclaration
          (XmlParser.SkipWhitespace xmlStr.data))
        else XmlParser.SkipWhitespace xmlStr.data) with
    | none => rw [he] at ih; cases ih
    | some re =>
      rw [he] at ih
      rw [show fuel + (k + 1) = fuel + k + 1 from rfl, (ParseElement_mono (fuel + k)).1 _ _ he]
      exact ih

theorem Parse_summary_mono (xmlStr : String) (fuel : Nat)
    (s : Option (String × String × Nat × List String))
    (h : (XmlParser.Parse fuel xmlStr).map (fun r => r.map XmlNode.summary) = some s) :
    ∀ more, (XmlParser.Parse (fuel + more) xmlStr).map (fun r => r.map XmlNode.summary)
      = some s := by
  intro more
  cases hp : XmlParser.Parse fuel xmlStr with
  | none => rw [hp] at h; cases h
  | some r =>
    rw [Parse_mono xmlStr r fuel hp more]
    rw [hp] at h
    exact h

set_option maxRecDepth 100000 in
/-- C26: a comment between the last child and the closing tag changes the tree.
`<a><b/></a>` is parsed as the node `a` with the child `b` and no text;
`<a><b/><!--c--></a>` as the node `a` with the child `b` and the text `/a>`: after the
comment `ParseElement` steps over the `<` of `</a>` before it returns null, and the
loop of the parent reads the rest as text.  A comment before the root or between two
children leaves the tree as it is.  (30 rounds are enough for each of the calls to
return, and more rounds give the same result.) -/
theorem C26_comment_before_closing_tag_changes_the_text :
    (∀ more, (XmlParser.Parse (30 + more) "<a><b/></a>").map
      (fun r => r.map XmlNode.summary) = some (some ("a", "", 0, ["b"]))) ∧
    (∀ more, (XmlParser.Parse (30 + more) "<a><b/><!--c--></a>").map
      (fun r => r.map XmlNode.summary) = some (some ("a", "/a>", 0, ["b"]))) ∧
    (∀ more, (XmlParser.Parse (30 + more) "<!--c--><a><b/></a>").map
      (fun r => r.map XmlNode.summary) = some (some ("a", "", 0, ["b"]))) ∧
    (∀ more, (XmlParser.Parse (30 + more) "<a><b/><d/></a>").map
      (fun r => r.map XmlNode.summary) = some (some ("a", "", 0, ["b", "d"]))) ∧
    (∀ more, (XmlParser.Parse (30 + more) "<a><b/><!--c--><d/></a>").map
      (fun r => r.map XmlNode.summary) = some (some ("a", "", 0, ["b", "d"]))) ∧
    (XmlParser.ParseElement 30 "<!--c--></a>".data).map (fun r => (r.1.isSome, r.2))
      = some (false, "/a>".data) := by
  refine ⟨?_, ?_, ?_, ?_, ?_, by decide!⟩ <;>
    exact Parse_summary_mono _ 30 _ (by decide!)

theorem attributes_stuck (pos : List Char)
    (hcond : (!pos.isEmpty ∧ pos.head? ≠ some '>' ∧ pos.head? ≠ some '/'))
    (hattr : XmlParser.ParseAttributes pos = (none, pos))
    (hskip : XmlParser.SkipWhitespace pos = pos) :
    ∀ (fuel : Nat) (attributes_ : XmlAttributes),
      XmlParser.ParseElement.attributes fuel pos attributes_ = none := by
  intro fuel
  induction fuel with
  | zero => intro attributes_; rfl
  | succ fuel ih =>
    intro attributes_
    unfold XmlParser.ParseElement.attributes
    rw [if_pos hcond, hattr]
    dsimp only
    rw [hskip]
    exact ih attributes_

set_option maxRecDepth 100000 in
theorem ParseElement_stuck (tag pos rest : List Char) (fuel : Nat)
    (hhead : (XmlParser.SkipWhitespace pos).head? = some '<')
    (hslash : ((XmlParser.SkipWhitespace pos).drop 1).head? ≠ some '/')
    (hcomment : ¬ (3 < ((XmlParser.SkipWhitespace pos).drop 1).length ∧
      ((XmlParser.SkipWhitespace pos).drop 1).take 3 = ['!', '-', '-']))
    (htag : XmlParser.ParseTagName ((XmlParser.SkipWhitespace pos).drop 1)
      = (String.mk tag, rest))
    (hstuck : ∀ (fuel : Nat) (attributes_ : XmlAttributes),
      XmlParser.ParseElement.attributes fuel (XmlParser.SkipWhitespace rest) attributes_ = none) :
    XmlParser.ParseElement fuel pos = none := by
  cases fuel with
  | zero => rfl
  | succ fuel =>
    unfold XmlParser.ParseElement
    dsimp only
    rw [if_neg (by rw [hhead]; exact fun h => h rfl), if_neg hslash, if_neg hcomment, htag]
    dsimp only
    rw [hstuck]
set_option maxRecDepth 100000 in
/-- C27: `Parse` does not return for every input.  For `<a <>` and for `<a.b>` the
attribute loop of `ParseElement` never ends: `ParseAttributes` reads no character when the
next one is neither whitespace, `>`, `/`, `=`, a quote nor a name character, so the loop
meets the same position again in every round; the same happens for `<!DOCTYPE a><a/>`.
Whatever the number of rounds allowed, the call has not returned.  (For a well-formed
document such as `<a b="1">x</a>` the call returns within 30 rounds.) -/
theorem C27_parse_does_not_return_on_stray_character :
    (∀ fuel, XmlParser.Parse fuel "<a <>" = none) ∧
    (∀ fuel, XmlParser.Parse fuel "<a.b>" = none) ∧
    (∀ fuel, XmlParser.Parse fuel "<!DOCTYPE a><a/>" = none) ∧
    XmlParser.ParseAttributes "<>".data = (none, "<>".data) ∧
    XmlParser.ParseAttributes ".b>".data = (none, ".b>".data) ∧
    (∀ more, (XmlParser.Parse (30 + more) "<a b=\"1\">x</a>").map
      (fun r => r.map XmlNode.summary) = some (some ("a", "x", 1, []))) := by
  refine ⟨?_, ?_, ?_, by decide!, by decide!, Parse_summary_mono _ 30 _ (by decide!)⟩
  · intro fuel
    have h := ParseElement_stuck "a".data "<a <>".data " <>".data fuel (by decide!)
      (by decide!) (by decide!) (by decide!)
      (attributes_stuck "<>".data (by decide!) (by decide!) (by decide!))
    show (XmlParser.ParseElement fuel "<a <>".data).map _ = none
    rw [h]
    rfl
  · intro fuel
    have h := ParseElement_stuck "a".data "<a.b>".data ".b>".data fuel (by decide!)
      (by decide!) (by decide!) (by decide!)
      (attributes_stuck ".b>".data (by decide!) (by decide!) (by decide!))
    show (XmlParser.ParseElement fuel "<a.b>".data).map _ = none
    rw [h]
    rfl
  · intro fuel
    have h := ParseElement_stuck "".data "<!DOCTYPE a><a/>".data "!DOCTYPE a><a/>".data fuel
      (by decide!) (by decide!) (by decide!) (by decide!)
      (attributes_stuck "!DOCTYPE a><a/>".data (by decide!) (by decide!) (by decide!))
    show (XmlParser.ParseElement fuel "<!DOCTYPE a><a/>".data).map _ = none
    rw [h]
    rfl

/-! ## Decimal numerals read back -/

theorem digitChar_value (n : Nat) :
    ((Nat.digitChar (n % 10)).toNat : Int) - 48 = ((n % 10 : Nat) : Int) := by
  have h : n % 10 < 10 := Nat.mod_lt _ (by decide)
  generalize n % 10 = d at h
  interval_cases d <;> rfl

theorem decimalValue_toDigitsCore : ∀ (fuel n : Nat) (ds : List Char), n < fuel →
    (Nat.toDigitsCore 10 fuel n ds).foldl
        (fun (acc : Int) c => acc * 10 + ((c.toNat : Int) - 48)) 0
      = ds.foldl (fun (acc : Int) c => acc * 10 + ((c.toNat : Int) - 48)) (n : Int) := by
  intro fuel
  induction fuel with
  | zero => intro n ds h; omega
  | succ fuel ih =>
    intro n ds h
    unfold Nat.toDigitsCore
    dsimp only
    split
    · rename_i h0
      rw [List.foldl_cons, digitChar_value]
      have : n % 10 = n := by omega
      rw [this]
      simp
    · rename_i h0
      rw [ih (n / 10) _ (by omega), List.foldl_cons, digitChar_value]
      congr 1
      have := Nat.div_add_mod n 10
      push_cast
      omega

theorem decimalValue_toString_nat (n : Nat) : decimalValue (toString n).data = (n : Int) := by
  show decimalValue (Nat.toDigits 10 n).asString.data = _
  unfold decimalValue Nat.toDigits
  rw [show (Nat.toDigitsCore 10 (n + 1) n []).asString.data = Nat.toDigitsCore 10 (n + 1) n []
    from rfl]
  rw [decimalValue_toDigitsCore (n + 1) n [] (by omega)]
  rfl

theorem toDigitsCore_ne_nil : ∀ (fuel n : Nat) (ds : List Char), n < fuel →
    Nat.toDigitsCore 10 fuel n ds ≠ [] := by
  intro fuel
  induction fuel with
  | zero => intro n ds h; omega
  | succ fuel ih =>
    intro n ds h
    unfold Nat.toDigitsCore
    dsimp only
    split
    · exact List.cons_ne_nil _ _
    · exact ih _ _ (by omega)

theorem toString_nat_ne_nil (n : Nat) : (toString n).data ≠ [] :=
  toDigitsCore_ne_nil (n + 1) n [] (by omega)

theorem toString_nat_injective (m n : Nat) (h : toString m = toString n) : m = n := by
  have hm := decimalValue_toString_nat m
  have hn := decimalValue_toString_nat n
  rw [h, hn] at hm
  exact_mod_cast hm.symm

theorem toString_negSucc (m : Nat) :
    (toString (Int.negSucc m)).data = '-' :: (toString (m + 1)).data := rfl

theorem toString_ofNat (m : Nat) : toString (Int.ofNat m) = toString m := rfl

theorem toString_nat_head_isDigit (m : Nat) :
    ∃ c rest, (toString m).data = c :: rest ∧ c.isDigit = true := by
  cases h : (toString m).data with
  | nil => exact absurd h (toString_nat_ne_nil m)
  | cons c rest =>
    exact ⟨c, rest, rfl, toString_nat_isDigit m c (by rw [h]; exact List.mem_cons_self _ _)⟩

theorem toString_int_injective (a b : Int) (h : toString a = toString b) : a = b := by
  have hd := congrArg String.data h
  cases a with
  | ofNat m =>
    cases b with
    | ofNat n =>
      rw [toString_ofNat, toString_ofNat] at h
      rw [toString_nat_injective m n h]
    | negSucc n =>
      rw [toString_ofNat, toString_negSucc] at hd
      obtain ⟨c, rest, hc, hdig⟩ := toString_nat_head_isDigit m
      rw [hc] at hd
      have : c = '-' := (List.cons.inj hd).1
      rw [this] at hdig
      exact absurd hdig (by decide)
  | negSucc m =>
    cases b with
    | ofNat n =>
      rw [toString_ofNat, toString_negSucc] at hd
      obtain ⟨c, rest, hc, hdig⟩ := toString_nat_head_isDigit n
      rw [hc] at hd
      have : c = '-' := (List.cons.inj hd).1.symm
      rw [this] at hdig
      exact absurd hdig (by decide)
    | negSucc n =>
      rw [toString_negSucc, toString_negSucc] at hd
      have h2 : toString (m + 1) = toString (n + 1) := String.ext (List.cons.inj hd).2
      have := toString_nat_injective _ _ h2
      have : m = n := by omega
      rw [this]
/-! ## Properties of the alarm manager -/

theorem split_at_underscore : ∀ (a a' b b' : List Char), '_' ∉ a → '_' ∉ a' →
    a ++ '_' :: b = a' ++ '_' :: b' → b = b' := by
  intro a
  induction a with
  | nil =>
    intro a' b b' _ ha' h
    cases a' with
    | nil => exact (List.cons.inj h).2
    | cons c a' =>
      have : '_' = c := (List.cons.inj h).1
      exact absurd (this ▸ List.mem_cons_self _ _) ha'
  | cons c a ih =>
    intro a' b b' ha ha' h
    cases a' with
    | nil =>
      have : c = '_' := (List.cons.inj h).1
      exact absurd (this ▸ List.mem_cons_self _ _) ha
    | cons c' a' =>
      exact ih a' b b' (fun hm => ha (List.mem_cons_of_mem _ hm))
        (fun hm => ha' (List.mem_cons_of_mem _ hm)) (List.cons.inj h).2

theorem toString_int_no_underscore (n : Int) : '_' ∉ (toString n).data := by
  intro h
  rcases toString_int_chars n _ h with h | h
  · exact absurd h (by decide)
  · exact absurd h (by decide)

theorem alarmId_injective (t t' n n' : Int)
    (h : "alarm_" ++ toString t ++ "_" ++ toString n
      = "alarm_" ++ toString t' ++ "_" ++ toString n') : n = n' := by
  have hd := congrArg String.data h
  simp only [String.data_append, List.append_assoc] at hd
  have hd := List.append_cancel_left hd
  have hb := split_at_underscore _ _ _ _ (toString_int_no_underscore t)
    (toString_int_no_underscore t') hd
  exact toString_int_injective n n' (String.ext hb)

theorem TriggerAlarm_initialized (self m : AlarmManager) (alarm : AlarmInfo) (clock : Int)
    (currentTime id : String) (hinit : self.initialized_ = true)
    (h : self.TriggerAlarm alarm clock currentTime = some (m, id)) :
    id = "alarm_" ++ toString clock ++ "_" ++ toString (self.alarmCounter_ + 1) ∧
    m.alarmCounter_ = self.alarmCounter_ + 1 ∧ m.initialized_ = true ∧
    (∃ newAlarm, m.alarms_ = self.alarms_.insert id newAlarm) := by
  unfold AlarmManager.TriggerAlarm at h
  rw [hinit] at h
  unfold AlarmManager.GenerateAlarmId at h
  simp only [Bool.not_true, Bool.false_eq_true, if_false] at h
  by_cases hc : self.alarmCounter_ + 1 > 2147483647
  · rw [if_pos hc] at h
    cases h
  · rw [if_neg hc] at h
    dsimp only at h
    simp only [Option.some.injEq, Prod.mk.injEq] at h
    obtain ⟨hm, hid⟩ := h
    subst hm
    subst hid
    exact ⟨rfl, rfl, hinit, _, rfl⟩

theorem ClearAlarm_fields (self : AlarmManager) (id : String) :
    (self.ClearAlarm id).1.alarmCounter_ = self.alarmCounter_ ∧
    (self.ClearAlarm id).1.initialized_ = self.initialized_ ∧
    (self.ClearAlarm id).1.alarmHistory_ = self.alarmHistory_ ∧
    ∀ other, (self.ClearAlarm id).1.alarms_.lookup other
      = if other = id then none else self.alarms_.lookup other := by
  unfold AlarmManager.ClearAlarm
  cases hl : self.alarms_.lookup id with
  | none =>
    refine ⟨rfl, rfl, rfl, ?_⟩
    intro other
    by_cases ho : other = id
    · rw [if_pos ho, ho]; exact hl
    · rw [if_neg ho]
  | some a =>
    refine ⟨rfl, rfl, rfl, ?_⟩
    intro other
    by_cases ho : other = id
    · rw [if_pos ho, ho]; exact AList.lookup_erase _ _
    · rw [if_neg ho]; exact AList.lookup_erase_ne ho

theorem run_ids_fresh : ∀ (ops : List AlarmOp) (self m : AlarmManager) (ids : List String),
    self.initialized_ = true → self.run ops = some (m, ids) →
    self.alarmCounter_ ≤ m.alarmCounter_ ∧ m.initialized_ = true ∧
    ∀ id ∈ ids, ∃ (t n : Int), id = "alarm_" ++ toString t ++ "_" ++ toString n ∧
      self.alarmCounter_ < n ∧ n ≤ m.alarmCounter_ := by
  intro ops
  induction ops with
  | nil =>
    intro self m ids hinit h
    simp only [AlarmManager.run, Option.some.injEq, Prod.mk.injEq] at h
    obtain ⟨rfl, rfl⟩ := h
    exact ⟨le_refl _, hinit, fun id hid => absurd hid (List.not_mem_nil _)⟩
  | cons op ops ih =>
    intro self m ids hinit h
    cases op with
    | TriggerAlarm alarm clock currentTime =>
      unfold AlarmManager.run at h
      cases ht : self.TriggerAlarm alarm clock currentTime with
      | none => rw [ht] at h; cases h
      | some r =>
        obtain ⟨s1, id1⟩ := r
        rw [ht] at h
        dsimp only at h
        obtain ⟨hid1, hc1, hi1, _⟩ := TriggerAlarm_initialized self s1 alarm clock currentTime
          id1 hinit ht
        cases hr : s1.run ops with
        | none => rw [hr] at h; cases h
        | some r2 =>
          obtain ⟨m2, ids2⟩ := r2
          rw [hr] at h
          simp only [Option.some.injEq, Prod.mk.injEq] at h
          obtain ⟨rfl, rfl⟩ := h
          obtain ⟨hle, him, hids⟩ := ih s1 m2 ids2 hi1 hr
          refine ⟨by omega, him, ?_⟩
          intro id hid
          rcases List.mem_cons.mp hid with rfl | hid
          · exact ⟨clock, self.alarmCounter_ + 1, hid1, by omega, by omega⟩
          · obtain ⟨t, n, hn, hlt, hle2⟩ := hids id hid
            exact ⟨t, n, hn, by omega, hle2⟩
    | ClearAlarm alarmId =>
      unfold AlarmManager.run at h
      obtain ⟨hc, hi, _, _⟩ := ClearAlarm_fields self alarmId
      obtain ⟨hle, him, hids⟩ := ih _ m ids (by rw [hi]; exact hinit) h
      rw [hc] at hle hids
      exact ⟨hle, him, hids⟩

theorem run_ids_nodup : ∀ (ops : List AlarmOp) (self m : AlarmManager) (ids : List String),
    self.initialized_ = true → self.run ops = some (m, ids) → ids.Nodup := by
  intro ops
  induction ops with
  | nil =>
    intro self m ids _ h
    simp only [AlarmManager.run, Option.some.injEq, Prod.mk.injEq] at h
    rw [← h.2]
    exact List.nodup_nil
  | cons op ops ih =>
    intro self m ids hinit h
    cases op with
    | TriggerAlarm alarm clock currentTime =>
      unfold AlarmManager.run at h
      cases ht : self.TriggerAlarm alarm clock currentTime with
      | none => rw [ht] at h; cases h
      | some r =>
        obtain ⟨s1, id1⟩ := r
        rw [ht] at h
        dsimp only at h
        obtain ⟨hid1, hc1, hi1, _⟩ := TriggerAlarm_initialized self s1 alarm clock currentTime
          id1 hinit ht
        cases hr : s1.run ops with
        | none => rw [hr] at h; cases h
        | some r2 =>
          obtain ⟨m2, ids2⟩ := r2
          rw [hr] at h
          simp only [Option.some.injEq, Prod.mk.injEq] at h
          obtain ⟨rfl, rfl⟩ := h
          rw [List.nodup_cons]
          refine ⟨?_, ih s1 m2 ids2 hi1 hr⟩
          intro hmem
          obtain ⟨_, _, hids⟩ := run_ids_fresh ops s1 m2 ids2 hi1 hr
          obtain ⟨t, n, hn, hlt, _⟩ := hids id1 hmem
          rw [hid1] at hn
          have := alarmId_injective _ _ _ _ hn
          omega
    | ClearAlarm alarmId =>
      unfold AlarmManager.run at h
      exact ih _ m ids (by rw [(ClearAlarm_fields self alarmId).2.1]; exact hinit) h

theorem run_keeps_absent (id : String) : ∀ (ops : List AlarmOp) (self m : AlarmManager)
    (ids : List String), self.initialized_ = true → self.alarms_.lookup id = none →
    (∀ t n : Int, id = "alarm_" ++ toString t ++ "_" ++ toString n → n ≤ self.alarmCounter_) →
    self.run ops = some (m, ids) → m.alarms_.lookup id = none ∧ id ∉ ids := by
  intro ops
  induction ops with
  | nil =>
    intro self m ids _ habs _ h
    simp only [AlarmManager.run, Option.some.injEq, Prod.mk.injEq] at h
    obtain ⟨rfl, rfl⟩ := h
    exact ⟨habs, List.not_mem_nil _⟩
  | cons op ops ih =>
    intro self m ids hinit habs hold h
    cases op with
    | TriggerAlarm alarm clock currentTime =>
      unfold AlarmManager.run at h
      cases ht : self.TriggerAlarm alarm clock currentTime with
      | none => rw [ht] at h; cases h
      | some r =>
        obtain ⟨s1, id1⟩ := r
        rw [ht] at h
        dsimp only at h
        obtain ⟨hid1, hc1, hi1, newAlarm, hal⟩ := TriggerAlarm_initialized self s1 alarm clock
          currentTime id1 hinit ht
        have hne : id ≠ id1 := by
          intro e
          have := hold clock (self.alarmCounter_ + 1) (e.trans hid1)
          omega
        cases hr : s1.run ops with
        | none => rw [hr] at h; cases h
        | some r2 =>
          obtain ⟨m2, ids2⟩ := r2
          rw [hr] at h
          simp only [Option.some.injEq, Prod.mk.injEq] at h
          obtain ⟨rfl, rfl⟩ := h
          have habs1 : s1.alarms_.lookup id = none := by
            rw [hal, AList.lookup_insert_ne hne]; exact habs
          obtain ⟨h1, h2⟩ := ih s1 m2 ids2 hi1 habs1
            (fun t n e => by have := hold t n e; omega) hr
          refine ⟨h1, ?_⟩
          intro hmem
          rcases List.mem_cons.mp hmem with e | hmem
          · exact hne e
          · exact h2 hmem
    | ClearAlarm alarmId =>
      unfold AlarmManager.run at h
      obtain ⟨hc, hi, _, hl⟩ := ClearAlarm_fields self alarmId
      refine ih _ m ids (by rw [hi]; exact hinit) ?_ (by rw [hc]; exact hold) h
      rw [hl]
      split
      · rfl
      · exact habs

theorem run_keeps_present (id : String) : ∀ (ops : List AlarmOp) (self m : AlarmManager)
    (ids : List String), self.initialized_ = true → (self.alarms_.lookup id).isSome = true →
    (∀ op ∈ ops, op ≠ AlarmOp.ClearAlarm id) →
    self.run ops = some (m, ids) → (m.alarms_.lookup id).isSome = true := by
  intro ops
  induction ops with
  | nil =>
    intro self m ids _ hp _ h
    simp only [AlarmManager.run, Option.some.injEq, Prod.mk.injEq] at h
    obtain ⟨rfl, rfl⟩ := h
    exact hp
  | cons op ops ih =>
    intro self m ids hinit hp hops h
    have hops2 : ∀ op ∈ ops, op ≠ AlarmOp.ClearAlarm id :=
      fun op hop => hops op (List.mem_cons_of_mem _ hop)
    cases op with
    | TriggerAlarm alarm clock currentTime =>
      unfold AlarmManager.run at h
      cases ht : self.TriggerAlarm alarm clock currentTime with
      | none => rw [ht] at h; cases h
      | some r =>
        obtain ⟨s1, id1⟩ := r
        rw [ht] at h
        dsimp only at h
        obtain ⟨hid1, hc1, hi1, newAlarm, hal⟩ := TriggerAlarm_initialized self s1 alarm clock
          currentTime id1 hinit ht
        cases hr : s1.run ops with
        | none => rw [hr] at h; cases h
        | some r2 =>
          obtain ⟨m2, ids2⟩ := r2
          rw [hr] at h
          simp only [Option.some.injEq, Prod.mk.injEq] at h
          obtain ⟨rfl, rfl⟩ := h
          refine ih s1 m2 ids2 hi1 ?_ hops2 hr
          rw [hal]
          by_cases e : id = id1
          · rw [e, AList.lookup_insert]; rfl
          · rw [AList.lookup_insert_ne e]; exact hp
    | ClearAlarm alarmId =>
      unfold AlarmManager.run at h
      obtain ⟨hc, hi, _, hl⟩ := ClearAlarm_fields self alarmId
      have hne : id ≠ alarmId := by
        intro e
        exact hops (AlarmOp.ClearAlarm alarmId) (List.mem_cons_self _ _) (by rw [e])
      refine ih _ m ids (by rw [hi]; exact hinit) ?_ hops2 h
      rw [hl, if_neg hne]
      exact hp
theorem TriggerAlarm_uninitialized (self : AlarmManager) (alarm : AlarmInfo) (clock : Int)
    (currentTime : String) (hinit : self.initialized_ = false) :
    self.TriggerAlarm alarm clock currentTime = some (self, "") := by
  unfold AlarmManager.TriggerAlarm
  rw [hinit]
  rfl

theorem TriggerAlarm_eq (self : AlarmManager) (alarm : AlarmInfo) (clock : Int)
    (currentTime : String) (hinit : self.initialized_ = true)
    (hc : self.alarmCounter_ + 1 ≤ 2147483647) :
    ∃ m, self.TriggerAlarm alarm clock currentTime
        = some (m, "alarm_" ++ toString clock ++ "_" ++ toString (self.alarmCounter_ + 1)) ∧
      m.alarmCounter_ = self.alarmCounter_ + 1 ∧
      m.initialized_ = true ∧
      m.alarmHistory_
        = if (self.alarmHistory_ ++ [AlarmManager.TriggerAlarm.newAlarm alarm
              ("alarm_" ++ toString clock ++ "_" ++ toString (self.alarmCounter_ + 1))
              currentTime]).length > 1000
          then (self.alarmHistory_ ++ [AlarmManager.TriggerAlarm.newAlarm alarm
              ("alarm_" ++ toString clock ++ "_" ++ toString (self.alarmCounter_ + 1))
              currentTime]).drop 1
          else self.alarmHistory_ ++ [AlarmManager.TriggerAlarm.newAlarm alarm
              ("alarm_" ++ toString clock ++ "_" ++ toString (self.alarmCounter_ + 1))
              currentTime] := by
  have heq : self.TriggerAlarm alarm clock currentTime
      = some ({ self with
          alarmCounter_ := self.alarmCounter_ + 1
          alarms_ := self.alarms_.insert
            ("alarm_" ++ toString clock ++ "_" ++ toString (self.alarmCounter_ + 1))
            (AlarmManager.TriggerAlarm.newAlarm alarm
              ("alarm_" ++ toString clock ++ "_" ++ toString (self.alarmCounter_ + 1))
              currentTime)
          alarmHistory_ :=
            if (self.alarmHistory_ ++ [AlarmManager.TriggerAlarm.newAlarm alarm
                ("alarm_" ++ toString clock ++ "_" ++ toString (self.alarmCounter_ + 1))
                currentTime]).length > 1000
            then (self.alarmHistory_ ++ [AlarmManager.TriggerAlarm.newAlarm alarm
                ("alarm_" ++ toString clock ++ "_" ++ toString (self.alarmCounter_ + 1))
                currentTime]).drop 1
            else self.alarmHistory_ ++ [AlarmManager.TriggerAlarm.newAlarm alarm
                ("alarm_" ++ toString clock ++ "_" ++ toString (self.alarmCounter_ + 1))
                currentTime]
          reported :=
            if self.alarmCallback_ then self.reported ++ [AlarmManager.TriggerAlarm.newAlarm
                alarm ("alarm_" ++ toString clock ++ "_" ++ toString (self.alarmCounter_ + 1))
                currentTime]
            else self.reported },
        "alarm_" ++ toString clock ++ "_" ++ toString (self.alarmCounter_ + 1)) := by
    unfold AlarmManager.TriggerAlarm AlarmManager.GenerateAlarmId
    rw [hinit]
    simp only [Bool.not_true, Bool.false_eq_true, if_false]
    rw [if_neg (show ¬ self.alarmCounter_ + 1 > 2147483647 by omega)]
  exact ⟨_, heq, rfl, hinit, rfl⟩

theorem TriggerAlarm_some_history (self : AlarmManager) (alarm : AlarmInfo) (clock : Int)
    (currentTime : String) (hlen : self.alarmHistory_.length ≤ 1000)
    (hc : self.alarmCounter_ + 1 ≤ 2147483647) :
    ∃ m id, self.TriggerAlarm alarm clock currentTime = some (m, id) ∧
      m.alarmHistory_.length ≤ 1000 ∧ m.alarmCounter_ ≤ self.alarmCounter_ + 1 := by
  cases hinit : self.initialized_ with
  | false =>
    exact ⟨self, "", TriggerAlarm_uninitialized self alarm clock currentTime hinit, hlen,
      by omega⟩
  | true =>
    obtain ⟨m, hm, hcm, _, hh⟩ := TriggerAlarm_eq self alarm clock currentTime hinit hc
    refine ⟨m, _, hm, ?_, by omega⟩
    rw [hh]
    split
    · rw [List.length_drop, List.length_append, List.length_singleton]
      omega
    · rename_i hgt
      omega

theorem run_some_history : ∀ (ops : List AlarmOp) (self : AlarmManager),
    self.alarmHistory_.length ≤ 1000 →
    self.alarmCounter_ + (AlarmOp.triggers ops : Int) ≤ 2147483647 →
    ∃ m ids, self.run ops = some (m, ids) ∧ m.alarmHistory_.length ≤ 1000 := by
  intro ops
  induction ops with
  | nil => intro self hlen _; exact ⟨self, [], rfl, hlen⟩
  | cons op ops ih =>
    intro self hlen hc
    cases op with
    | TriggerAlarm alarm clock currentTime =>
      simp only [AlarmOp.triggers, Nat.cast_add, Nat.cast_one] at hc
      have hnn : (0 : Int) ≤ (AlarmOp.triggers ops : Int) := Int.natCast_nonneg _
      obtain ⟨s1, id1, h1, hl1, hc1⟩ := TriggerAlarm_some_history self alarm clock currentTime
        hlen (by omega)
      obtain ⟨m, ids, hr, hl⟩ := ih s1 hl1 (by omega)
      refine ⟨m, id1 :: ids, ?_, hl⟩
      unfold AlarmManager.run
      rw [h1]
      dsimp only
      rw [hr]
    | ClearAlarm alarmId =>
      simp only [AlarmOp.triggers] at hc
      obtain ⟨hcc, _, hh, _⟩ := ClearAlarm_fields self alarmId
      obtain ⟨m, ids, hr, hl⟩ := ih (self.ClearAlarm alarmId).1 (by rw [hh]; exact hlen)
        (by rw [hcc]; exact hc)
      exact ⟨m, ids, by unfold AlarmManager.run; exact hr, hl⟩

/-- C29: from a manager whose history has at most 1000 entries (a new one has none), every
sequence of `TriggerAlarm` and `ClearAlarm` calls that keeps the alarm counter within
`int` returns and leaves at most 1000 entries in the history; and a `TriggerAlarm` that
finds 1000 entries drops the first, oldest entry, keeps the others in their order and puts
the new alarm last. -/
theorem C29_alarm_history_bounded_with_fifo_eviction (self : AlarmManager)
    (ops : List AlarmOp) (hlen : self.alarmHistory_.length ≤ 1000)
    (hcounter : self.alarmCounter_ + (AlarmOp.triggers ops : Int) ≤ 2147483647) :
    ∃ m ids, self.run ops = some (m, ids) ∧ m.alarmHistory_.length ≤ 1000 ∧
      ∀ (alarm : AlarmInfo) (clock : Int) (currentTime : String),
        m.initialized_ = true → m.alarmHistory_.length = 1000 →
        m.alarmCounter_ + 1 ≤ 2147483647 →
        ∃ m2 id, m.TriggerAlarm alarm clock currentTime = some (m2, id) ∧
          m2.alarmHistory_ = m.alarmHistory_.drop 1
            ++ [AlarmManager.TriggerAlarm.newAlarm alarm id currentTime] ∧
          m2.alarmHistory_.length = 1000 := by
  obtain ⟨m, ids, hr, hl⟩ := run_some_history ops self hlen hcounter
  refine ⟨m, ids, hr, hl, ?_⟩
  intro alarm clock currentTime hinit hfull hc
  obtain ⟨m2, hm2, _, _, hh⟩ := TriggerAlarm_eq m alarm clock currentTime hinit hc
  have hgt : (m.alarmHistory_ ++ [AlarmManager.TriggerAlarm.newAlarm alarm
      ("alarm_" ++ toString clock ++ "_" ++ toString (m.alarmCounter_ + 1))
      currentTime]).length > 1000 := by
    rw [List.length_append, List.length_singleton]; omega
  rw [if_pos hgt] at hh
  have hne : m.alarmHistory_ ≠ [] := by
    intro e; rw [e] at hfull; cases hfull
  refine ⟨m2, _, hm2, ?_, ?_⟩
  · rw [hh]
    cases hcs : m.alarmHistory_ with
    | nil => exact absurd hcs hne
    | cons a rest => rfl
  · rw [hh, List.length_drop, List.length_append, List.length_singleton]
    omega

set_option maxRecDepth 100000 in
/-- Witness of C29: a manager with a full history on which one alarm is triggered and
cleared again. -/
theorem C29_alarm_history_bounded_with_fifo_eviction_witness :
    ∃ m ids, fullAlarmManager.run
        [ .TriggerAlarm motionAlarm 1700000000000000000 "20231114T221320",
          .ClearAlarm "alarm_1700000000000000000_1" ] = some (m, ids) ∧
      m.alarmHistory_.length ≤ 1000 ∧
      ∀ (alarm : AlarmInfo) (clock : Int) (currentTime : String),
        m.initialized_ = true → m.alarmHistory_.length = 1000 →
        m.alarmCounter_ + 1 ≤ 2147483647 →
        ∃ m2 id, m.TriggerAlarm alarm clock currentTime = some (m2, id) ∧
          m2.alarmHistory_ = m.alarmHistory_.drop 1
            ++ [AlarmManager.TriggerAlarm.newAlarm alarm id currentTime] ∧
          m2.alarmHistory_.length = 1000 :=
  C29_alarm_history_bounded_with_fifo_eviction fullAlarmManager
    [ .TriggerAlarm motionAlarm 1700000000000000000 "20231114T221320",
      .ClearAlarm "alarm_1700000000000000000_1" ]
    (by simp [fullAlarmManager]) (by decide)

/-- C30: on an initialised manager, the ids that the `TriggerAlarm` calls of a sequence
return are pairwise distinct.  For an id that `TriggerAlarm` has returned: as long as no
`ClearAlarm` for it has been called, whatever other calls are made, no later `TriggerAlarm`
returns the id again, `ClearAlarm` for it returns true, removes it from the active alarms
and leaves every other active alarm as it is; after that, whatever calls are made, no
`TriggerAlarm` returns the id again and `ClearAlarm` for it returns false and changes
nothing. -/
theorem C30_alarm_id_is_cleared_exactly_once (self m : AlarmManager) (alarm : AlarmInfo)
    (clock : Int) (currentTime id : String) (hinit : self.initialized_ = true)
    (h : self.TriggerAlarm alarm clock currentTime = some (m, id)) :
    (∀ ops m' ids, self.run ops = some (m', ids) → ids.Nodup) ∧
    ∀ mid m1 ids1, (∀ op ∈ mid, op ≠ AlarmOp.ClearAlarm id) → m.run mid = some (m1, ids1) →
      id ∉ ids1 ∧
      (m1.ClearAlarm id).2 = true ∧
      (m1.ClearAlarm id).1.alarms_.lookup id = none ∧
      (∀ other, other ≠ id →
        (m1.ClearAlarm id).1.alarms_.lookup other = m1.alarms_.lookup other) ∧
      ∀ post m2 ids2, (m1.ClearAlarm id).1.run post = some (m2, ids2) →
        id ∉ ids2 ∧ m2.ClearAlarm id = (m2, false) := by
  obtain ⟨hid, hcm, him, newAlarm, hal⟩ := TriggerAlarm_initialized self m alarm clock
    currentTime id hinit h
  refine ⟨fun ops m' ids hr => run_ids_nodup ops self m' ids hinit hr, ?_⟩
  intro mid m1 ids1 hmid hr1
  obtain ⟨hle1, hi1, hfresh1⟩ := run_ids_fresh mid m m1 ids1 him hr1
  have hpresent : (m1.alarms_.lookup id).isSome = true := by
    refine run_keeps_present id mid m m1 ids1 him ?_ hmid hr1
    rw [hal, AList.lookup_insert]; rfl
  obtain ⟨hcc, hic, _, hlc⟩ := ClearAlarm_fields m1 id
  have hnot1 : id ∉ ids1 := by
    intro hmem
    obtain ⟨t, n, hn, hlt, _⟩ := hfresh1 id hmem
    rw [hid] at hn
    have := alarmId_injective _ _ _ _ hn
    omega
  refine ⟨hnot1, ?_, ?_, ?_, ?_⟩
  · unfold AlarmManager.ClearAlarm
    cases hl : m1.alarms_.lookup id with
    | none => rw [hl] at hpresent; cases hpresent
    | some a => rfl
  · rw [hlc, if_pos rfl]
  · intro other hne
    rw [hlc, if_neg hne]
  · intro post m2 ids2 hr2
    obtain ⟨habs, hnot2⟩ := run_keeps_absent id post (m1.ClearAlarm id).1 m2 ids2
      (by rw [hic]; exact hi1) (by rw [hlc, if_pos rfl])
      (by
        intro t n e
        rw [hid] at e
        have := alarmId_injective _ _ _ _ e
        rw [hcc]
        omega)
      hr2
    refine ⟨hnot2, ?_⟩
    unfold AlarmManager.ClearAlarm
    rw [habs]

set_option maxRecDepth 100000 in
/-- Witness of C30: the first alarm of a new, initialised manager. -/
theorem C30_alarm_id_is_cleared_exactly_once_witness :
    ∃ m, AlarmManager.new.Initialize.1.TriggerAlarm motionAlarm 1700000000000000000
        "20231114T221320" = some (m, "alarm_1700000000000000000_1") ∧
      (∀ ops m' ids, AlarmManager.new.Initialize.1.run ops = some (m', ids) → ids.Nodup) ∧
      ∀ mid m1 ids1, (∀ op ∈ mid, op ≠ AlarmOp.ClearAlarm "alarm_1700000000000000000_1") →
        m.run mid = some (m1, ids1) →
        "alarm_1700000000000000000_1" ∉ ids1 ∧
        (m1.ClearAlarm "alarm_1700000000000000000_1").2 = true ∧
        (m1.ClearAlarm "alarm_1700000000000000000_1").1.alarms_.lookup
          "alarm_1700000000000000000_1" = none ∧
        (∀ other, other ≠ "alarm_1700000000000000000_1" →
          (m1.ClearAlarm "alarm_1700000000000000000_1").1.alarms_.lookup other
            = m1.alarms_.lookup other) ∧
        ∀ post m2 ids2,
          (m1.ClearAlarm "alarm_1700000000000000000_1").1.run post = some (m2, ids2) →
          "alarm_1700000000000000000_1" ∉ ids2 ∧
          m2.ClearAlarm "alarm_1700000000000000000_1" = (m2, false) := by
  have hid : (AlarmManager.new.Initialize.1.TriggerAlarm motionAlarm 1700000000000000000
      "20231114T221320").map (fun r => r.2) = some "alarm_1700000000000000000_1" := by decide!
  cases h : AlarmManager.new.Initialize.1.TriggerAlarm motionAlarm 1700000000000000000
      "20231114T221320" with
  | none => rw [h] at hid; cases hid
  | some r =>
    obtain ⟨m, id⟩ := r
    rw [h] at hid
    simp only [Option.map_some', Option.some.injEq] at hid
    subst hid
    exact ⟨m, rfl, C30_alarm_id_is_cleared_exactly_once AlarmManager.new.Initialize.1 m
      motionAlarm 1700000000000000000 "20231114T221320" "alarm_1700000000000000000_1" rfl h⟩

/-! ## Properties of `ParsePTZCommand` -/

theorem takeWhile_dropWhile_stop (p : Char → Bool) : ∀ (l rest : List Char),
    (∀ c ∈ l, p c = true) → (∀ c, rest.head? = some c → p c = false) →
    (l ++ rest).takeWhile p = l ∧ (l ++ rest).dropWhile p = rest := by
  intro l
  induction l with
  | nil =>
    intro rest _ hrest
    cases rest with
    | nil => exact ⟨rfl, rfl⟩
    | cons c r =>
      have hc := hrest c rfl
      simp only [List.nil_append]
      rw [List.takeWhile_cons, List.dropWhile_cons, hc]
      exact ⟨rfl, rfl⟩
  | cons a l ih =>
    intro rest hl hrest
    have ha := hl a (List.mem_cons_self _ _)
    obtain ⟨h1, h2⟩ := ih rest (fun c hc => hl c (List.mem_cons_of_mem _ hc)) hrest
    rw [List.cons_append, List.takeWhile_cons, List.dropWhile_cons, ha]
    simp only [if_true]
    exact ⟨by rw [h1], h2⟩

theorem stoi_toString (v : Int) (hlo : -2147483648 ≤ v) (hhi : v ≤ 2147483647) :
    stoi (toString v).data = .ok v := by
  cases v with
  | ofNat m =>
    have hdig : ∀ c ∈ (toString m).data, c.isDigit = true := toString_nat_isDigit m
    obtain ⟨c, rest, hc, hcd⟩ := toString_nat_head_isDigit m
    show stoi (toString m).data = _
    unfold stoi
    have hskip : (toString m).data.dropWhile isspace = (toString m).data := by
      rw [hc, List.dropWhile_cons]
      have : isspace c = false := by
        unfold isspace
        have h48 : 48 ≤ c.toNat ∧ c.toNat ≤ 57 := by
          simp only [Char.isDigit, Bool.and_eq_true, decide_eq_true_eq] at hcd
          exact ⟨by exact_mod_cast hcd.1, by exact_mod_cast hcd.2⟩
        simp only [Bool.or_eq_false_iff, decide_eq_false_iff_not, Bool.and_eq_false_imp,
          decide_eq_true_eq]
        omega
      rw [this]
      rfl
    rw [hskip]
    have hhead : (toString m).data.head? = some c := by rw [hc]; rfl
    have hne1 : c ≠ '-' := by intro e; rw [e] at hcd; exact absurd hcd (by decide)
    have hne2 : c ≠ '+' := by intro e; rw [e] at hcd; exact absurd hcd (by decide)
    simp only [hhead, Option.some.injEq, hne1, hne2, or_self, if_false, decide_False]
    rw [List.takeWhile_eq_self_iff.mpr hdig]
    have hnil : (toString m).data.isEmpty = false := by rw [hc]; rfl
    rw [hnil]
    simp only [Bool.false_eq_true, if_false]
    rw [decimalValue_toString_nat]
    have h1 : ¬ ((m : Int) < -2147483648 ∨ (m : Int) > 2147483647) := by
      have : (Int.ofNat m) = (m : Int) := rfl
      rw [this] at hhi hlo
      omega
    rw [if_neg h1]
    rfl
  | negSucc m =>
    have hdig : ∀ c ∈ (toString (m + 1)).data, c.isDigit = true := toString_nat_isDigit (m + 1)
    obtain ⟨c, rest, hc, hcd⟩ := toString_nat_head_isDigit (m + 1)
    unfold stoi
    rw [toString_negSucc]
    have hskip : ('-' :: (toString (m + 1)).data).dropWhile isspace
        = '-' :: (toString (m + 1)).data := by
      rw [List.dropWhile_cons]
      rfl
    rw [hskip]
    simp only [List.head?_cons, true_or, if_true, List.drop_succ_cons, List.drop_zero,
      decide_True]
    rw [List.takeWhile_eq_self_iff.mpr hdig]
    have hnil : (toString (m + 1)).data.isEmpty = false := by rw [hc]; rfl
    rw [hnil]
    simp only [Bool.false_eq_true, if_false]
    rw [decimalValue_toString_nat]
    have h1 : ¬ (-((m + 1 : Nat) : Int) < -2147483648 ∨ -((m + 1 : Nat) : Int) > 2147483647) := by
      have : Int.negSucc m = -((m + 1 : Nat) : Int) := rfl
      rw [this] at hhi hlo
      omega
    rw [if_neg h1]
    rfl
theorem matchAt_pair (k v rest : List Char) (hk : k ≠ [])
    (hkw : ∀ c ∈ k, regexWord c = true) (hv : v ≠ [])
    (hvc : ∀ c ∈ v, regexParamValueChar c = true)
    (hrest : ∀ c, rest.head? = some c → regexParamValueChar c = false) :
    paramRegex.matchAt (k ++ '=' :: (v ++ rest)) = some (k, v, rest) := by
  obtain ⟨h1, h2⟩ := takeWhile_dropWhile_stop regexWord k ('=' :: (v ++ rest)) hkw
    (by intro c hc; simp only [List.head?_cons, Option.some.injEq] at hc; rw [← hc]; decide)
  obtain ⟨h3, h4⟩ := takeWhile_dropWhile_stop regexParamValueChar v rest hvc hrest
  unfold paramRegex.matchAt
  dsimp only
  rw [h1, h2]
  have hke : k.isEmpty = false := by
    cases k with
    | nil => exact absurd rfl hk
    | cons a l => rfl
  have hve : v.isEmpty = false := by
    cases v with
    | nil => exact absurd rfl hv
    | cons a l => rfl
  rw [hke]
  simp only [Bool.false_eq_true, if_false]
  rw [h3, h4, hve]
  simp only [Bool.false_eq_true, if_false]

theorem search_pair (k v rest : List Char) (hk : k ≠ [])
    (hkw : ∀ c ∈ k, regexWord c = true) (hv : v ≠ [])
    (hvc : ∀ c ∈ v, regexParamValueChar c = true)
    (hrest : ∀ c, rest.head? = some c → regexParamValueChar c = false) :
    paramRegex.search (k ++ '=' :: (v ++ rest)) = some (k, v, rest) := by
  have hm := matchAt_pair k v rest hk hkw hv hvc hrest
  cases k with
  | nil => exact absurd rfl hk
  | cons a l =>
    rw [List.cons_append] at hm ⊢
    unfold paramRegex.search
    rw [hm]

theorem search_separator (sep : Char) (text : List Char) (hsep : regexWord sep = false) :
    paramRegex.search (sep :: text) = paramRegex.search text := by
  have hm : paramRegex.matchAt (sep :: text) = none := by
    unfold paramRegex.matchAt
    dsimp only
    rw [List.takeWhile_cons, hsep]
    rfl
  rw [paramRegex.search, hm]

theorem isspace_cases (c : Char) (h : isspace c = true) :
    c = Char.ofNat 32 ∨ c = Char.ofNat 9 ∨ c = Char.ofNat 10 ∨ c = Char.ofNat 11 ∨
      c = Char.ofNat 12 ∨ c = Char.ofNat 13 := by
  unfold isspace at h
  simp only [Bool.or_eq_true, decide_eq_true_eq, Bool.and_eq_true] at h
  have hc : c = Char.ofNat c.toNat := (Char.ofNat_toNat c).symm
  generalize c.toNat = n at h hc
  rcases h with h | ⟨h1, h2⟩
  · left; rw [hc, h]
  · interval_cases n
    · right; left; exact hc
    · right; right; left; exact hc
    · right; right; right; left; exact hc
    · right; right; right; right; left; exact hc
    · right; right; right; right; right; exact hc

theorem separator_chars (c : Char) (h : c = '&' ∨ isspace c = true) :
    regexWord c = false ∧ regexParamValueChar c = false := by
  rcases h with rfl | h
  · exact ⟨by decide, by decide⟩
  · rcases isspace_cases c h with rfl | rfl | rfl | rfl | rfl | rfl <;>
      exact ⟨by decide, by decide⟩
theorem toString_int_valueChars (v : Int) :
    (toString v).data ≠ [] ∧ ∀ c ∈ (toString v).data, regexParamValueChar c = true := by
  constructor
  · cases v with
    | ofNat m => exact toString_nat_ne_nil m
    | negSucc m => rw [toString_negSucc]; exact List.cons_ne_nil _ _
  · intro c hc
    rcases toString_int_chars v c hc with rfl | hd
    · decide
    · have h48 : 48 ≤ c.toNat ∧ c.toNat ≤ 57 := by
        simp only [Char.isDigit, Bool.and_eq_true, decide_eq_true_eq] at hd
        exact ⟨by exact_mod_cast hd.1, by exact_mod_cast hd.2⟩
      unfold regexParamValueChar
      have hsp : isspace c = false := by
        unfold isspace
        simp only [Bool.or_eq_false_iff, decide_eq_false_iff_not, Bool.and_eq_false_imp,
          decide_eq_true_eq]
        omega
      have hamp : c ≠ '&' := by
        intro e
        rw [e] at hd
        exact absurd hd (by decide)
      rw [hsp]
      simp [hamp]

theorem matches_nil (fuel : Nat) : paramRegex.matches fuel [] = [] := by
  cases fuel <;> rfl

theorem matches_joinPairs : ∀ (pairs : List (String × Int)) (seps : List Char) (fuel : Nat),
    (∀ p ∈ pairs, p.1.data ≠ [] ∧ ∀ c ∈ p.1.data, regexWord c = true) →
    (∀ c ∈ seps, c = '&' ∨ isspace c = true) → pairs.length ≤ fuel →
    paramRegex.matches fuel (joinPairs pairs seps)
      = pairs.map fun p => (p.1.data, (toString p.2).data) := by
  intro pairs
  induction pairs with
  | nil => intro seps fuel _ _ _; exact matches_nil fuel
  | cons p rest ih =>
    intro seps fuel hkeys hseps hfuel
    obtain ⟨hk, hkw⟩ := hkeys p (List.mem_cons_self _ _)
    obtain ⟨hv, hvc⟩ := toString_int_valueChars p.2
    cases fuel with
    | zero => simp at hfuel
    | succ fuel =>
      cases rest with
      | nil =>
        have hs := search_pair p.1.data (toString p.2).data [] hk hkw hv hvc
          (by intro c hc; cases hc)
        rw [List.append_nil] at hs
        show paramRegex.matches (fuel + 1) (ptzPairText p) = _
        unfold ptzPairText paramRegex.matches
        rw [hs]
        dsimp only
        rw [matches_nil]
        rfl
      | cons q rest =>
        have hsepmem : seps.headD '&' = '&' ∨ isspace (seps.headD '&') = true := by
          cases seps with
          | nil => exact Or.inl rfl
          | cons s ss => exact hseps s (List.mem_cons_self _ _)
        obtain ⟨hsw, hsv⟩ := separator_chars _ hsepmem
        have hs := search_pair p.1.data (toString p.2).data
          (seps.headD '&' :: joinPairs (q :: rest) seps.tail) hk hkw hv hvc
          (by
            intro c hc
            simp only [List.head?_cons, Option.some.injEq] at hc
            rw [← hc]; exact hsv)
        have hih := ih seps.tail fuel
          (fun p' hp' => hkeys p' (List.mem_cons_of_mem _ hp'))
          (fun c hc => hseps c (List.mem_of_mem_tail hc))
          (by simp only [List.length_cons] at hfuel ⊢; omega)
        have htext : joinPairs (p :: q :: rest) seps
            = p.1.data ++ '=' :: ((toString p.2).data
              ++ seps.headD '&' :: joinPairs (q :: rest) seps.tail) := by
          show ptzPairText p ++ _ = _
          unfold ptzPairText
          simp only [List.append_assoc, List.cons_append]
        rw [htext]
        unfold paramRegex.matches
        rw [hs]
        dsimp only
        rw [List.map_cons]
        congr 1
        cases fuel with
        | zero => simp at hfuel
        | succ fuel =>
          rw [← hih]
          unfold paramRegex.matches
          rw [search_separator _ _ hsw]

theorem step_assign (params : PTZControlParams) (pair : String × Int)
    (hlo : -2147483648 ≤ pair.2) (hhi : pair.2 ≤ 2147483647) :
    PTZController.ParsePTZCommand.step params (pair.1.data, (toString pair.2).data)
      = .ok (PTZController.ParsePTZCommand.assign params pair) := by
  unfold PTZController.ParsePTZCommand.step PTZController.ParsePTZCommand.assign
  dsimp only
  rw [stoi_toString pair.2 hlo hhi]
  split
  · rfl
  · split
    · rfl
    · split
      · rfl
      · split
        · rfl
        · split <;> rfl

theorem loop_assign : ∀ (pairs : List (String × Int)) (params : PTZControlParams),
    (∀ p ∈ pairs, -2147483648 ≤ p.2 ∧ p.2 ≤ 2147483647) →
    PTZController.ParsePTZCommand.loop params
        (pairs.map fun p => (p.1.data, (toString p.2).data))
      = .ok (pairs.foldl PTZController.ParsePTZCommand.assign params) := by
  intro pairs
  induction pairs with
  | nil => intro params _; rfl
  | cons p rest ih =>
    intro params hrange
    obtain ⟨hlo, hhi⟩ := hrange p (List.mem_cons_self _ _)
    rw [List.map_cons, PTZController.ParsePTZCommand.loop, step_assign params p hlo hhi]
    dsimp only
    rw [ih _ (fun p' hp' => hrange p' (List.mem_cons_of_mem _ hp')), List.foldl_cons]

theorem joinPairs_length : ∀ (pairs : List (String × Int)) (seps : List Char),
    pairs.length ≤ (joinPairs pairs seps).length := by
  intro pairs
  induction pairs with
  | nil => intro seps; exact Nat.zero_le _
  | cons p rest ih =>
    intro seps
    cases rest with
    | nil =>
      show 1 ≤ (ptzPairText p).length
      unfold ptzPairText
      rw [List.length_append, List.length_cons]
      omega
    | cons q rest =>
      have := ih seps.tail
      show _ ≤ (ptzPairText p ++ seps.headD '&' :: joinPairs (q :: rest) seps.tail).length
      rw [List.length_append, List.length_cons]
      simp only [List.length_cons] at this ⊢
      omega

theorem ParsePTZCommand_joinPairs (pairs : List (String × Int)) (seps : List Char)
    (hkeys : ∀ p ∈ pairs, p.1.data ≠ [] ∧ ∀ c ∈ p.1.data, regexWord c = true)
    (hrange : ∀ p ∈ pairs, -2147483648 ≤ p.2 ∧ p.2 ≤ 2147483647)
    (hseps : ∀ c ∈ seps, c = '&' ∨ isspace c = true) :
    PTZController.ParsePTZCommand (String.mk (joinPairs pairs seps))
      = .ok (true, pairs.foldl PTZController.ParsePTZCommand.assign
          { PTZControlParams.new with speed := 128 }) := by
  unfold PTZController.ParsePTZCommand
  dsimp only
  rw [show (String.mk (joinPairs pairs seps)).length = (joinPairs pairs seps).length from rfl,
    matches_joinPairs pairs seps _ hkeys hseps (joinPairs_length pairs seps),
    loop_assign pairs _ hrange]
theorem assign_comm_base (c s p q d : Int) (x y : String × Int)
    (hx : x ∈ [("Command", c), ("Speed", s), ("PresetID", p), ("CruiseID", q), ("DwellTime", d)])
    (hy : y ∈ [("Command", c), ("Speed", s), ("PresetID", p), ("CruiseID", q), ("DwellTime", d)])
    (z : PTZControlParams) :
    PTZController.ParsePTZCommand.assign (PTZController.ParsePTZCommand.assign z x) y
      = PTZController.ParsePTZCommand.assign (PTZController.ParsePTZCommand.assign z y) x := by
  simp only [List.mem_cons, List.mem_singleton, List.not_mem_nil, or_false] at hx hy
  rcases hx with rfl | rfl | rfl | rfl | rfl <;> rcases hy with rfl | rfl | rfl | rfl | rfl <;>
    rfl

theorem base_keys (c s p q d : Int) (x : String × Int)
    (hx : x ∈ [("Command", c), ("Speed", s), ("PresetID", p), ("CruiseID", q), ("DwellTime", d)]) :
    x.1.data ≠ [] ∧ ∀ ch ∈ x.1.data, regexWord ch = true := by
  simp only [List.mem_cons, List.mem_singleton, List.not_mem_nil, or_false] at hx
  rcases hx with rfl | rfl | rfl | rfl | rfl <;> dsimp only <;> exact ⟨by decide, by decide⟩

/-- C22: for every table code `c`, speed `s` from 1 to 255 and ids `p`, `q`, `d` in the
range of `int`, `ParsePTZCommand` applied to the five pairs `Command=c`, `Speed=s`,
`PresetID=p`, `CruiseID=q`, `DwellTime=d`, the numbers written in decimal, in any order
and with `&` or a blank character between neighbours, returns true with the command of
the table for `c`, speed `s`, preset id `p`, cruise id `q` and dwell time `d`; applied to
the four pairs without `Speed` it returns the same with speed 128. -/
theorem C22_parse_ptz_command_reads_pairs_in_any_order (c s p q d : Int)
    (pairs : List (String × Int)) (seps : List Char)
    (hc : c ∈ tableCodes) (hs : 1 ≤ s ∧ s ≤ 255)
    (hp : -2147483648 ≤ p ∧ p ≤ 2147483647) (hq : -2147483648 ≤ q ∧ q ≤ 2147483647)
    (hd : -2147483648 ≤ d ∧ d ≤ 2147483647)
    (hseps : ∀ ch ∈ seps, ch = '&' ∨ isspace ch = true) :
    (pairs.Perm [("Command", c), ("Speed", s), ("PresetID", p), ("CruiseID", q),
        ("DwellTime", d)] →
      PTZController.ParsePTZCommand (String.mk (joinPairs pairs seps))
        = .ok (true, ⟨PTZController.ParseCommandCode c, s, p, q, d, ""⟩)) ∧
    (pairs.Perm [("Command", c), ("PresetID", p), ("CruiseID", q), ("DwellTime", d)] →
      PTZController.ParsePTZCommand (String.mk (joinPairs pairs seps))
        = .ok (true, ⟨PTZController.ParseCommandCode c, 128, p, q, d, ""⟩)) := by
  have hcr : -2147483648 ≤ c ∧ c ≤ 2147483647 := by
    simp only [tableCodes, List.mem_cons, List.mem_singleton, List.not_mem_nil, or_false] at hc
    omega
  have hsub : ∀ x ∈ [("Command", c), ("PresetID", p), ("CruiseID", q), ("DwellTime", d)],
      x ∈ [("Command", c), ("Speed", s), ("PresetID", p), ("CruiseID", q), ("DwellTime", d)] := by
    intro x hx
    simp only [List.mem_cons, List.mem_singleton, List.not_mem_nil, or_false] at hx ⊢
    tauto
  have hrange : ∀ x ∈ [("Command", c), ("Speed", s), ("PresetID", p), ("CruiseID", q),
      ("DwellTime", d)], -2147483648 ≤ x.2 ∧ x.2 ≤ 2147483647 := by
    intro x hx
    simp only [List.mem_cons, List.mem_singleton, List.not_mem_nil, or_false] at hx
    rcases hx with rfl | rfl | rfl | rfl | rfl
    · exact hcr
    · exact ⟨by omega, by omega⟩
    · exact hp
    · exact hq
    · exact hd
  constructor
  · intro hperm
    rw [ParsePTZCommand_joinPairs pairs seps
      (fun x hx => base_keys c s p q d x (hperm.mem_iff.mp hx))
      (fun x hx => hrange x (hperm.mem_iff.mp hx)) hseps]
    rw [hperm.foldl_eq' (fun x hx y hy z =>
      assign_comm_base c s p q d x y (hperm.mem_iff.mp hx) (hperm.mem_iff.mp hy) z)]
    rfl
  · intro hperm
    rw [ParsePTZCommand_joinPairs pairs seps
      (fun x hx => base_keys c s p q d x (hsub x (hperm.mem_iff.mp hx)))
      (fun x hx => hrange x (hsub x (hperm.mem_iff.mp hx))) hseps]
    rw [hperm.foldl_eq' (fun x hx y hy z =>
      assign_comm_base c s p q d x y (hsub x (hperm.mem_iff.mp hx))
        (hsub y (hperm.mem_iff.mp hy)) z)]
    rfl

set_option maxRecDepth 100000 in
/-- Witness of C22: the text `Speed=200 Command=3&DwellTime=10` followed by a tab,
`PresetID=5&CruiseID=2` is decoded to Left with speed 200, preset 5, cruise 2 and dwell
time 10. -/
theorem C22_parse_ptz_command_reads_pairs_in_any_order_witness :
    joinPairs [("Speed", 200), ("Command", 3), ("DwellTime", 10), ("PresetID", 5),
        ("CruiseID", 2)] [' ', '&', '\t', '&']
      = "Speed=200 Command=3&DwellTime=10\tPresetID=5&CruiseID=2".data ∧
    PTZController.ParsePTZCommand (String.mk (joinPairs [("Speed", 200), ("Command", 3),
        ("DwellTime", 10), ("PresetID", 5), ("CruiseID", 2)] [' ', '&', '\t', '&']))
      = .ok (true, ⟨PTZController.ParseCommandCode 3, 200, 5, 2, 10, ""⟩) ∧
    PTZController.ParseCommandCode 3 = .LEFT ∧
    PTZController.ParsePTZCommand "Command=3&Speed=200" = .ok (true, ⟨.LEFT, 200, 0, 0, 0, ""⟩) :=
  ⟨by decide!,
    (C22_parse_ptz_command_reads_pairs_in_any_order 3 200 5 2 10
      [("Speed", 200), ("Command", 3), ("DwellTime", 10), ("PresetID", 5), ("CruiseID", 2)]
      [' ', '&', '\t', '&'] (by decide) (by decide) (by decide) (by decide) (by decide)
      (by decide)).1 (by decide), by decide, by decide!⟩

/-! ## Properties of the alarm history and of the alarm notification -/

theorem std_sort_perm {α : Type} (comp : α → α → Bool) (l : List α) :
    (std_sort comp l).Perm l :=
  List.perm_insertionSort _ l

theorem std_sort_pairwise {α : Type} (comp : α → α → Bool)
    (htotal : ∀ a b, comp b a = false ∨ comp a b = false)
    (htrans : ∀ a b c, comp b a = false → comp c b = false → comp c a = false)
    (l : List α) : (std_sort comp l).Pairwise fun a b => comp b a = false :=
  @List.sorted_insertionSort α (fun a b => comp b a = false) _ ⟨htotal⟩ ⟨htrans⟩ l

theorem ClearAlarm_history (self : AlarmManager) (alarmId : String) :
    (self.ClearAlarm alarmId).1.alarmHistory_ = self.alarmHistory_ := by
  unfold AlarmManager.ClearAlarm
  split <;> rfl

set_option maxRecDepth 100000 in
/-- C31: `ClearAlarm` does not touch the history, so `GetAlarmHistory` returns the same
entries before and after it.  For the motion alarm triggered on a new manager and then
cleared (the call returns `true`), the id is no longer among the active alarms, but the
history entry with this id still has `isActive = true` and an empty `endTime`. -/
theorem C31_cleared_alarm_stays_active_in_history :
    (∀ (self : AlarmManager) (alarmId channelId : String) (limit : Int),
      (self.ClearAlarm alarmId).1.GetAlarmHistory channelId limit
        = self.GetAlarmHistory channelId limit) ∧
    ∃ m, AlarmManager.new.Initialize.1.TriggerAlarm motionAlarm 1 "20240101T000000"
        = some (m, "alarm_1_1") ∧
      (m.ClearAlarm "alarm_1_1").2 = true ∧
      (m.ClearAlarm "alarm_1_1").1.alarms_.lookup "alarm_1_1" = none ∧
      (m.ClearAlarm "alarm_1_1").1.GetActiveAlarms = [] ∧
      ((m.ClearAlarm "alarm_1_1").1.GetAlarmHistory "" 100).map
          (fun a => (a.alarmId, a.isActive, a.endTime))
        = [("alarm_1_1", true, "")] := by
  constructor
  · intro self alarmId channelId limit
    unfold AlarmManager.GetAlarmHistory
    rw [ClearAlarm_history]
  · refine ⟨_, rfl, ?_, ?_, ?_, ?_⟩ <;> decide!
theorem GetAlarmTypeName_injective : Function.Injective AlarmManager.GetAlarmTypeName := by
  intro a b hab
  cases a <;> cases b <;> first | rfl | (exact absurd hab (by decide!))

theorem GetAlarmLevelName_injective : Function.Injective AlarmManager.GetAlarmLevelName := by
  intro a b hab
  cases a <;> cases b <;> first | rfl | (exact absurd hab (by decide!))

set_option maxRecDepth 100000 in
/-- C32: as long as `++alarmCounter_` stays within `int`, `GenerateAlarmNotify` returns a
text whose first ten lines end with `<AlarmType>k</AlarmType>` and
`<AlarmLevel>j</AlarmLevel>` for the values `k` and `j` of `GetAlarmTypeName` and
`GetAlarmLevelName`, where `k` is the decimal numeral of the 1-based position of
the alarm type in the list video loss, motion detection, I/O alarm, storage failure,
network failure, illegal access, video blind, other, and `j` that of the alarm level in
info, warning, critical, emergency; both codings are injective. -/
theorem C32_alarm_notify_codes_type_and_level (self : AlarmManager) (alarm : AlarmInfo)
    (showDouble : Nat → String) (h : self.alarmCounter_ + 1 ≤ 2147483647) :
    (∃ m rest, self.GenerateAlarmNotify alarm showDouble
      = some (m, crlfLines (alarmNotifyHead (self.alarmCounter_ + 1) alarm
          (AlarmManager.GetAlarmTypeName alarm.type)
          (AlarmManager.GetAlarmLevelName alarm.level)) ++ rest)) ∧
    AlarmManager.GetAlarmTypeName alarm.type
      = toString (specAlarmTypes.indexOf alarm.type + 1) ∧
    AlarmManager.GetAlarmLevelName alarm.level
      = toString (specAlarmLevels.indexOf alarm.level + 1) ∧
    Function.Injective AlarmManager.GetAlarmTypeName ∧
    Function.Injective AlarmManager.GetAlarmLevelName := by
  have htype : AlarmManager.GetAlarmTypeName alarm.type
      = toString (specAlarmTypes.indexOf alarm.type + 1) := by
    cases alarm.type <;> decide!
  have hlevel : AlarmManager.GetAlarmLevelName alarm.level
      = toString (specAlarmLevels.indexOf alarm.level + 1) := by
    cases alarm.level <;> decide!
  refine ⟨?_, htype, hlevel, ?_, ?_⟩
  · unfold AlarmManager.GenerateAlarmNotify
    rw [if_neg (by omega)]
    refine ⟨{ self with alarmCounter_ := self.alarmCounter_ + 1 },
      AlarmManager.GenerateAlarmNotify.optional "DeviceID" alarm.channelId
        ++ AlarmManager.GenerateAlarmNotify.optional "Description" alarm.description
        ++ (if doubleIsNonZero alarm.latitude || doubleIsNonZero alarm.longitude then
              "<Longitude>" ++ showDouble alarm.longitude ++ "</Longitude>\r\n"
                ++ "<Latitude>" ++ showDouble alarm.latitude ++ "</Latitude>\r\n"
            else "")
        ++ AlarmManager.GenerateAlarmNotify.optional "Attachment" alarm.attachment
        ++ "</Notify>\r\n", ?_⟩
    refine congrArg some (Prod.ext rfl ?_)
    apply String.ext
    simp only [alarmNotifyHead, crlfLines, String.data_append, List.append_assoc]
    rfl
  · exact GetAlarmTypeName_injective
  · exact GetAlarmLevelName_injective

set_option maxRecDepth 100000 in
/-- C32 for the motion alarm of warning level on a new manager: the type is written as 2
and the level as 2. -/
theorem C32_alarm_notify_codes_type_and_level_witness :
    (∃ m rest, AlarmManager.new.Initialize.1.GenerateAlarmNotify motionAlarm (fun _ => "0")
      = some (m, crlfLines (alarmNotifyHead 1 motionAlarm "2" "2") ++ rest)) ∧
    AlarmManager.GetAlarmTypeName .MOTION_DETECT = "2" ∧
    AlarmManager.GetAlarmLevelName .WARNING = "2" :=
  have h := C32_alarm_notify_codes_type_and_level AlarmManager.new.Initialize.1 motionAlarm
    (fun _ => "0") (by decide)
  ⟨h.1, h.2.1, h.2.2.1⟩
theorem isEmpty_iff (s : String) : s.isEmpty = true ↔ s = "" := by
  cases s with
  | mk data =>
    cases data with
    | nil => exact ⟨fun _ => rfl, fun _ => rfl⟩
    | cons c cs =>
      constructor
      · intro h
        simp only [String.isEmpty, String.endPos, String.utf8ByteSize, beq_iff_eq] at h
        have h0 := congrArg String.Pos.byteIdx h
        have hc := Char.utf8Size_pos c
        simp only [String.utf8ByteSize.go] at h0
        change String.utf8ByteSize.go cs + c.utf8Size = 0 at h0
        omega
      · intro h
        exact absurd (congrArg String.data h) (List.cons_ne_nil c cs)

theorem startTime_order_total (a b : AlarmInfo) :
    decide (a.startTime < b.startTime) = false ∨ decide (b.startTime < a.startTime) = false := by
  rcases lt_or_le a.startTime b.startTime with h | h
  · right; exact decide_eq_false (not_lt.mpr h.le)
  · left; exact decide_eq_false (not_lt.mpr h)

theorem startTime_order_trans (a b c : AlarmInfo)
    (hab : decide (a.startTime < b.startTime) = false)
    (hbc : decide (b.startTime < c.startTime) = false) :
    decide (a.startTime < c.startTime) = false := by
  have h1 := not_lt.mp (of_decide_eq_false hab)
  have h2 := not_lt.mp (of_decide_eq_false hbc)
  exact decide_eq_false (not_lt.mpr (h2.trans h1))

set_option maxRecDepth 100000 in
/-- C33, counterexample: two alarms are triggered on a new manager, the first with the
start time 2 January 2024 and the second with the start time 1 January 2024.
`GetAlarmHistory` returns the alarm triggered first before the alarm triggered later, and
with the limit 1 it keeps the alarm triggered first and drops the most recent one. -/
theorem C33_history_lists_the_later_triggered_alarm_last :
    ∃ m, AlarmManager.new.Initialize.1.run twoAlarmOps = some (m, ["alarm_1_1", "alarm_2_2"]) ∧
      m.alarmHistory_.map (fun a => a.alarmId) = ["alarm_1_1", "alarm_2_2"] ∧
      (m.GetAlarmHistory "" 100).map (fun a => a.alarmId) = ["alarm_1_1", "alarm_2_2"] ∧
      (m.GetAlarmHistory "" 1).map (fun a => a.alarmId) = ["alarm_1_1"] := by
  refine ⟨_, rfl, ?_, ?_, ?_⟩ <;> decide!

/-- C33 as amended: `GetAlarmHistory(channelId, limit)` returns entries of the history
whose channel matches (all entries when `channelId` is empty), ordered by start time: an
entry never comes before an entry with a later start time (start times are compared as
strings).  Its length is the number of matching entries, cut to `limit` when `limit > 0`;
the matching entries it leaves out have start times not later than those of the entries
it returns. -/
theorem C33_history_is_ordered_by_start_time (self : AlarmManager) (channelId : String)
    (limit : Int) :
    (∀ a ∈ self.GetAlarmHistory channelId limit,
      a ∈ self.alarmHistory_ ∧ (channelId = "" ∨ a.channelId = channelId)) ∧
    (self.GetAlarmHistory channelId limit).Pairwise (fun a b => b.startTime ≤ a.startTime) ∧
    (self.GetAlarmHistory channelId limit).length
      = (if 0 < limit then
          min limit.toNat (self.alarmHistory_.filter fun alarm =>
            channelId.isEmpty || alarm.channelId = channelId).length
        else (self.alarmHistory_.filter fun alarm =>
            channelId.isEmpty || alarm.channelId = channelId).length) ∧
    ∃ dropped, (self.GetAlarmHistory channelId limit ++ dropped).Perm
        (self.alarmHistory_.filter fun alarm =>
          channelId.isEmpty || alarm.channelId = channelId) ∧
      ∀ a ∈ self.GetAlarmHistory channelId limit, ∀ b ∈ dropped, b.startTime ≤ a.startTime := by
  set matching := self.alarmHistory_.filter fun alarm =>
    channelId.isEmpty || alarm.channelId = channelId with hmatching
  set sorted := std_sort (fun a b : AlarmInfo => decide (b.startTime < a.startTime)) matching
    with hsorted
  have hperm : sorted.Perm matching := std_sort_perm _ _
  have hpair : sorted.Pairwise (fun a b => b.startTime ≤ a.startTime) := by
    have h := std_sort_pairwise (fun a b : AlarmInfo => decide (b.startTime < a.startTime))
      (fun a b => startTime_order_total a b)
      (fun a b c h1 h2 => startTime_order_trans a b c h1 h2) matching
    refine h.imp ?_
    intro a b hab
    exact not_lt.mp (of_decide_eq_false hab)
  have hmem : ∀ a ∈ sorted, a ∈ self.alarmHistory_ ∧ (channelId = "" ∨ a.channelId = channelId) := by
    intro a ha
    have ha' : a ∈ matching := hperm.subset ha
    rw [hmatching, List.mem_filter] at ha'
    refine ⟨ha'.1, ?_⟩
    have h2 := ha'.2
    simp only [Bool.or_eq_true, decide_eq_true_eq] at h2
    rcases h2 with h2 | h2
    · left; exact (isEmpty_iff channelId).mp h2
    · right; exact h2
  have hres : self.GetAlarmHistory channelId limit
      = if limit > 0 ∧ sorted.length > limit.toNat then sorted.take limit.toNat else sorted := rfl
  have hlen : sorted.length = matching.length := hperm.length_eq
  by_cases hcut : limit > 0 ∧ sorted.length > limit.toNat
  · rw [hres, if_pos hcut]
    refine ⟨fun a ha => hmem a (List.mem_of_mem_take ha), hpair.sublist (List.take_sublist _ _),
      ?_, sorted.drop limit.toNat, ?_, ?_⟩
    · rw [if_pos hcut.1, List.length_take, hlen]
    · rw [List.take_append_drop]; exact hperm
    · have h := hpair
      rw [← List.take_append_drop limit.toNat sorted, List.pairwise_append] at h
      exact h.2.2
  · rw [hres, if_neg hcut]
    refine ⟨hmem, hpair, ?_, [], ?_, ?_⟩
    · rw [hlen]
      by_cases hl : 0 < limit
      · rw [if_pos hl]
        have : ¬ sorted.length > limit.toNat := fun h => hcut ⟨hl, h⟩
        rw [hlen] at this
        omega
      · rw [if_neg hl]
    · rw [List.append_nil]; exact hperm
    · intro a _ b hb; cases hb

/-- C33 as amended, for the manager whose history holds 1000 alarms: the first 100 entries
in the order of the start times are returned. -/
theorem C33_history_is_ordered_by_start_time_witness :
    (fullAlarmManager.GetAlarmHistory "" 100).Pairwise
        (fun a b => b.startTime ≤ a.startTime) ∧
    (fullAlarmManager.GetAlarmHistory "" 100).length
      = (if (0 : Int) < 100 then
          min (100 : Int).toNat (fullAlarmManager.alarmHistory_.filter fun alarm =>
            "".isEmpty || alarm.channelId = "").length
        else (fullAlarmManager.alarmHistory_.filter fun alarm =>
            "".isEmpty || alarm.channelId = "").length) :=
  have h := C33_history_is_ordered_by_start_time fullAlarmManager "" 100
  ⟨h.2.1, h.2.2.1⟩
/-! ## Properties of the device manager -/

theorem traverse_perm {β : Type} (m : AList fun _ : String => β) :
    (traverse m).Perm (m.entries.map fun e => (e.1, e.2)) :=
  (List.perm_insertionSort _ _).map _

set_option maxRecDepth 100000 in
/-- C35: every response body the engine builds begins with the same four lines, the fourth
being `<SN>1</SN>`, whatever the query.  For the Catalog query of scenario S2, whose SN is
17, the engine of `main.cpp` answers with the Catalog response and then with 200; the SN
of the response is 1 and `<SN>17</SN>` does not occur in it. -/
theorem C35_responses_carry_the_serial_number_one :
    (∀ (deviceId localIp result : String) (localPort : Int),
      (∃ rest, Impl.SendCatalogResponse.body deviceId localIp localPort
        = responseHead "Catalog" ++ rest) ∧
      (∃ rest, Impl.SendDeviceInfoResponse.body deviceId = responseHead "DeviceInfo" ++ rest) ∧
      (∃ rest, Impl.SendDeviceStatusResponse.body deviceId
        = responseHead "DeviceStatus" ++ rest) ∧
      (∃ rest, Impl.SendRecordInfoResponse.body deviceId = responseHead "RecordInfo" ++ rest) ∧
      (∃ rest, Impl.SendDeviceControlResponse.body deviceId result
        = responseHead "DeviceControl" ++ rest)) ∧
    MscdpXmlHelper.GetSN catalogQuery = "17" ∧
    mainImpl.HandleMessage (queryEvent catalogQuery)
      = some [.response (Impl.SendCatalogResponse.body "34020000001320000001"
          "192.168.1.100" 5060), .status 200] ∧
    MscdpXmlHelper.GetSN (Impl.SendCatalogResponse.body "34020000001320000001"
      "192.168.1.100" 5060) = "1" ∧
    find "<SN>17</SN>".data (Impl.SendCatalogResponse.body "34020000001320000001"
      "192.168.1.100" 5060).data = none := by
  refine ⟨?_, ?_, ?_, ?_, ?_⟩
  · intro deviceId localIp result localPort
    refine ⟨⟨"<DeviceID>" ++ deviceId ++ "</DeviceID>\r\n"
        ++ "<SumNum>1</SumNum>\r\n"
        ++ "<DeviceList Num=\"1\">\r\n"
        ++ "<Item>\r\n"
        ++ "<DeviceID>" ++ deviceId ++ "</DeviceID>\r\n"
        ++ "<Name>Camera 1</Name>\r\n"
        ++ "<Manufacturer>GB28181 Inc.</Manufacturer>\r\n"
        ++ "<Model>IPC-1000</Model>\r\n"
        ++ "<Status>ON</Status>\r\n"
        ++ "<IPAddress>" ++ localIp ++ "</IPAddress>\r\n"
        ++ "<Port>" ++ toString localPort ++ "</Port>\r\n"
        ++ "</Item>\r\n"
        ++ "</DeviceList>\r\n"
        ++ "</Response>\r\n", ?_⟩,
      ⟨"<DeviceID>" ++ deviceId ++ "</DeviceID>\r\n"
        ++ "<DeviceName>GB28181 Camera</DeviceName>\r\n"
        ++ "<Manufacturer>GB28181 Inc.</Manufacturer>\r\n"
        ++ "<Model>IPC-1000</Model>\r\n"
        ++ "<FirmwareVersion>1.0.0</FirmwareVersion>\r\n"
        ++ "</Response>\r\n", ?_⟩,
      ⟨"<DeviceID>" ++ deviceId ++ "</DeviceID>\r\n"
        ++ "<Result>OK</Result>\r\n"
        ++ "<Online>ONLINE</Online>\r\n"
        ++ "<Status>OK</Status>\r\n"
        ++ "<Encode>ON</Encode>\r\n"
        ++ "<Record>OFF</Record>\r\n"
        ++ "</Response>\r\n", ?_⟩,
      ⟨"<DeviceID>" ++ deviceId ++ "</DeviceID>\r\n"
        ++ "<SumNum>0</SumNum>\r\n"
        ++ "<RecordList Num=\"0\">\r\n"
        ++ "</RecordList>\r\n"
        ++ "</Response>\r\n", ?_⟩,
      ⟨"<DeviceID>" ++ deviceId ++ "</DeviceID>\r\n"
        ++ "<Result>" ++ result ++ "</Result>\r\n"
        ++ "</Response>\r\n", ?_⟩⟩
    all_goals
      apply String.ext
      simp only [Impl.SendCatalogResponse.body, Impl.SendDeviceInfoResponse.body,
        Impl.SendDeviceStatusResponse.body, Impl.SendRecordInfoResponse.body,
        Impl.SendDeviceControlResponse.body, responseHead, String.data_append,
        List.append_assoc]
      rfl
  all_goals decide!
/-! ## Properties of the SIP message parser -/

set_option maxRecDepth 100000 in
/-- C36: `osip_message_parse` accepts the MESSAGE request `messageDatagram` (it returns 0)
and gives it the body CR LF `<a/>` of length 6: the blank line is left in front of the
body.  Written with `osip_message_to_str` and parsed again, the message has the same
direction, method, URI and header values but the body CR LF CR LF `<a/>` of length 8; a
second round trip gives a body of length 10. -/
theorem C36_round_trip_puts_a_line_break_before_the_body :
    (osip_message_parse osip_message_new messageDatagram).map
        (fun r => (r.1, r.2.withoutContentLength))
      = some (0, parsedDatagram "\r\n<a/>") ∧
    ((osip_message_parse osip_message_new messageDatagram).bind fun r => reparse r.2).map
        (fun r => (r.1, r.2.withoutContentLength))
      = some (0, parsedDatagram "\r\n\r\n<a/>") ∧
    (((osip_message_parse osip_message_new messageDatagram).bind fun r => reparse r.2).bind
        fun r => reparse r.2).map (fun r => (r.1, r.2.withoutContentLength))
      = some (0, parsedDatagram "\r\n\r\n\r\n<a/>") ∧
    (parsedDatagram "\r\n<a/>").body_length = 6 ∧
    (parsedDatagram "\r\n\r\n<a/>").body_length = 8 := by
  refine ⟨?_, ?_, ?_, ?_, ?_⟩ <;> decide!
/-! ## MD5 over a text given in pieces -/

theorem XmlNode.induct (P : XmlNode → Prop)
    (h : ∀ tag text attrs children, (∀ c ∈ children, P c) → P (.mk tag text attrs children)) :
    ∀ t, P t := by
  intro t
  exact @XmlNode.rec P (fun cs => ∀ c ∈ cs, P c)
    (fun tag text attrs children ih => h tag text attrs children ih)
    (fun c hc => by cases hc)
    (fun head tail ihh iht c hc => by
      rcases List.mem_cons.mp hc with rfl | hc
      · exact ihh
      · exact iht c hc) t

theorem alnum_ne (c d : Char) (h : c.isAlphanum = true) (hd : d.isAlphanum = false) :
    c ≠ d := by
  intro e
  rw [e, hd] at h
  cases h

theorem alnum_not_whitespace (c : Char) (h : c.isAlphanum = true) :
    XmlParser.isWhitespace c = false := by
  unfold XmlParser.isWhitespace
  simp only [Bool.or_eq_false_iff, decide_eq_false_iff_not]
  exact ⟨⟨⟨alnum_ne c ' ' h (by decide), alnum_ne c '\t' h (by decide)⟩,
    alnum_ne c '\n' h (by decide)⟩, alnum_ne c '\r' h (by decide)⟩

theorem alnum_tagNameChar (c : Char) (h : c.isAlphanum = true) :
    XmlParser.isTagNameChar c = true := by
  unfold XmlParser.isTagNameChar
  rw [h]
  rfl

theorem alnum_attrNameChar (c : Char) (h : c.isAlphanum = true) :
    XmlParser.isAttrNameChar c = true := by
  unfold XmlParser.isAttrNameChar
  rw [h]
  rfl

theorem SkipWhitespace_head (l : List Char)
    (h : ∀ c, l.head? = some c → XmlParser.isWhitespace c = false) :
    XmlParser.SkipWhitespace l = l := by
  unfold XmlParser.SkipWhitespace
  cases l with
  | nil => rfl
  | cons c l => rw [List.dropWhile_cons, h c rfl]; rfl

theorem plainName_facts (name : String) (h : plainName name = true) :
    (∃ c cs, name.data = c :: cs ∧ c.isAlphanum = true) ∧
      ∀ c ∈ name.data, c.isAlphanum = true := by
  unfold plainName at h
  rw [Bool.and_eq_true, List.all_eq_true] at h
  refine ⟨?_, h.2⟩
  cases hd : name.data with
  | nil => rw [hd] at h; exact absurd h.1 (by decide)
  | cons c cs => exact ⟨c, cs, rfl, h.2 c (by rw [hd]; exact List.mem_cons_self _ _)⟩

theorem ParseAttributes_value_plain (quote : Char) (rest : List Char) :
    ∀ (v : List Char), quote ∉ v → '\\' ∉ v →
      XmlParser.ParseAttributes.value quote (v ++ quote :: rest) = (v, quote :: rest) := by
  intro v
  induction v with
  | nil =>
    intro _ _
    show XmlParser.ParseAttributes.value quote (quote :: rest) = _
    unfold XmlParser.ParseAttributes.value
    rw [if_pos rfl]
  | cons c v ih =>
    intro hq hb
    have hc1 : c ≠ quote := fun e => hq (by rw [e]; exact List.mem_cons_self _ _)
    have hc2 : c ≠ '\\' := fun e => hb (by rw [e]; exact List.mem_cons_self _ _)
    show XmlParser.ParseAttributes.value quote (c :: (v ++ quote :: rest)) = _
    unfold XmlParser.ParseAttributes.value
    rw [if_neg hc1, if_neg hc2,
      ih (fun h => hq (List.mem_cons_of_mem _ h)) (fun h => hb (List.mem_cons_of_mem _ h))]

theorem ToString_attributes_data (attr : String × String) (attrs : List (String × String)) :
    (XmlParser.ToString.attributes (attr :: attrs)).data
      = ' ' :: (attr.1.data ++ '=' :: '"' :: (attr.2.data
          ++ '"' :: (XmlParser.ToString.attributes attrs).data)) := by
  show (" " ++ attr.1 ++ "=\"" ++ attr.2 ++ "\"" ++ XmlParser.ToString.attributes attrs).data = _
  simp only [String.data_append, List.append_assoc]
  rfl

theorem ParseAttributes_plain (k v : String) (rest : List Char)
    (hk : plainName k = true) (hq : '"' ∉ v.data) (hb : '\\' ∉ v.data) :
    XmlParser.ParseAttributes (k.data ++ '=' :: '"' :: (v.data ++ '"' :: rest))
      = (some (k, v), rest) := by
  obtain ⟨⟨c, cs, hdata, hc⟩, hall⟩ := plainName_facts k hk
  have hsplit := takeWhile_dropWhile_stop XmlParser.isAttrNameChar k.data
    ('=' :: '"' :: (v.data ++ '"' :: rest))
    (fun c hc => alnum_attrNameChar c (hall c hc))
    (fun c hc => by
      simp only [List.head?_cons, Option.some.injEq] at hc
      rw [← hc]; decide)
  have hskip : XmlParser.SkipWhitespace (k.data ++ '=' :: '"' :: (v.data ++ '"' :: rest))
      = k.data ++ '=' :: '"' :: (v.data ++ '"' :: rest) := by
    apply SkipWhitespace_head
    intro d hd
    rw [hdata] at hd
    simp only [List.cons_append, List.head?_cons, Option.some.injEq] at hd
    rw [← hd]
    exact alnum_not_whitespace c hc
  have hhead : (k.data ++ '=' :: '"' :: (v.data ++ '"' :: rest)).head? = some c := by
    rw [hdata]; rfl
  unfold XmlParser.ParseAttributes
  dsimp only
  rw [hskip, hhead, hsplit.1, hsplit.2]
  have hne : ¬ ((k.data ++ '=' :: '"' :: (v.data ++ '"' :: rest)).isEmpty = true
      ∨ some c = some '>' ∨ some c = some '/') := by
    rw [hdata]
    intro h
    rcases h with h | h | h
    · cases h
    · exact alnum_ne c '>' hc (by decide) (Option.some.inj h)
    · exact alnum_ne c '/' hc (by decide) (Option.some.inj h)
  rw [if_neg hne]
  have hs2 : XmlParser.SkipWhitespace ('=' :: '"' :: (v.data ++ '"' :: rest))
      = '=' :: '"' :: (v.data ++ '"' :: rest) := rfl
  rw [hs2]
  simp only [List.head?_cons, if_true, List.drop_one, List.tail_cons]
  have hs3 : XmlParser.SkipWhitespace ('"' :: (v.data ++ '"' :: rest))
      = '"' :: (v.data ++ '"' :: rest) := rfl
  rw [hs3]
  simp only [List.head?_cons, true_or, if_true, List.headD_cons, List.tail_cons]
  rw [ParseAttributes_value_plain '"' rest v.data hq hb]
  rfl

theorem attributes_mono_le (fuel fuel' : Nat) (h : fuel ≤ fuel') (pos : List Char)
    (attributes_ : XmlAttributes) (r : XmlAttributes × List Char)
    (hr : XmlParser.ParseElement.attributes fuel pos attributes_ = some r) :
    XmlParser.ParseElement.attributes fuel' pos attributes_ = some r := by
  obtain ⟨k, rfl⟩ := Nat.exists_eq_add_of_le h
  induction k with
  | zero => exact hr
  | succ k ih => exact attributes_mono _ _ _ _ (ih (Nat.le_add_right _ _))

theorem ParseElement_mono_le (fuel fuel' : Nat) (h : fuel ≤ fuel') (pos : List Char)
    (r : Option XmlNode × List Char) (hr : XmlParser.ParseElement fuel pos = some r) :
    XmlParser.ParseElement fuel' pos = some r := by
  obtain ⟨k, rfl⟩ := Nat.exists_eq_add_of_le h
  induction k with
  | zero => exact hr
  | succ k ih => exact (ParseElement_mono _).1 _ _ (ih (Nat.le_add_right _ _))

theorem children_mono_le (fuel fuel' : Nat) (h : fuel ≤ fuel') (pos : List Char)
    (text_ : String) (children_ : List XmlNode) (r : String × List XmlNode × List Char)
    (hr : XmlParser.ParseElement.children fuel pos text_ children_ = some r) :
    XmlParser.ParseElement.children fuel' pos text_ children_ = some r := by
  obtain ⟨k, rfl⟩ := Nat.exists_eq_add_of_le h
  induction k with
  | zero => exact hr
  | succ k ih => exact (ParseElement_mono _).2 _ _ _ _ (ih (Nat.le_add_right _ _))

theorem attributes_plain (tail : List Char)
    (htail : tail.head? = some '>' ∨ tail.head? = some '/') :
    ∀ (l : List (String × String)),
      (∀ a ∈ l, plainName a.1 = true ∧ '"' ∉ a.2.data ∧ '\\' ∉ a.2.data) →
      ∀ acc : XmlAttributes,
        XmlParser.ParseElement.attributes (l.length + 1)
            (XmlParser.SkipWhitespace ((XmlParser.ToString.attributes l).data ++ tail)) acc
          = some (l.foldl (fun m a => m.insert a.1 a.2) acc, tail) := by
  have hskip : XmlParser.SkipWhitespace tail = tail := by
    apply SkipWhitespace_head
    intro c hc
    rcases htail with h | h <;> rw [h] at hc <;> cases hc <;> rfl
  intro l
  induction l with
  | nil =>
    intro _ acc
    show XmlParser.ParseElement.attributes 1 (XmlParser.SkipWhitespace ([] ++ tail)) acc = _
    rw [List.nil_append, hskip]
    unfold XmlParser.ParseElement.attributes
    rw [if_neg]
    · rfl
    · intro hc
      rcases htail with h | h
      · exact hc.2.1 h
      · exact hc.2.2 h
  | cons a l ih =>
    intro hl acc
    obtain ⟨hk, hq, hb⟩ := hl a (List.mem_cons_self _ _)
    obtain ⟨⟨c, cs, hdata, hc⟩, _⟩ := plainName_facts a.1 hk
    have hdataeq : (XmlParser.ToString.attributes (a :: l)).data ++ tail
        = ' ' :: (a.1.data ++ '=' :: '"' :: (a.2.data
            ++ '"' :: ((XmlParser.ToString.attributes l).data ++ tail))) := by
      rw [ToString_attributes_data]
      simp only [List.cons_append, List.append_assoc]
    have hskip1 : XmlParser.SkipWhitespace ((XmlParser.ToString.attributes (a :: l)).data ++ tail)
        = a.1.data ++ '=' :: '"' :: (a.2.data
            ++ '"' :: ((XmlParser.ToString.attributes l).data ++ tail)) := by
      rw [hdataeq]
      show XmlParser.SkipWhitespace (a.1.data ++ _) = _
      apply SkipWhitespace_head
      intro d hd
      rw [hdata] at hd
      simp only [List.cons_append, List.head?_cons, Option.some.injEq] at hd
      rw [← hd]
      exact alnum_not_whitespace c hc
    rw [hskip1]
    show XmlParser.ParseElement.attributes (l.length + 1 + 1) _ acc = _
    unfold XmlParser.ParseElement.attributes
    have hcond : (!(a.1.data ++ '=' :: '"' :: (a.2.data
          ++ '"' :: ((XmlParser.ToString.attributes l).data ++ tail))).isEmpty) = true
        ∧ (a.1.data ++ '=' :: '"' :: (a.2.data
          ++ '"' :: ((XmlParser.ToString.attributes l).data ++ tail))).head? ≠ some '>'
        ∧ (a.1.data ++ '=' :: '"' :: (a.2.data
          ++ '"' :: ((XmlParser.ToString.attributes l).data ++ tail))).head? ≠ some '/' := by
      rw [hdata]
      refine ⟨rfl, ?_, ?_⟩
      · intro h
        exact alnum_ne c '>' hc (by decide) (Option.some.inj h)
      · intro h
        exact alnum_ne c '/' hc (by decide) (Option.some.inj h)
    rw [if_pos hcond, ParseAttributes_plain a.1 a.2 _ hk hq hb]
    dsimp only
    rw [ih (fun b hb => hl b (List.mem_cons_of_mem _ hb))]
    rfl

theorem foldl_insert_lookup_absent (name : String) :
    ∀ (l : List (String × String)) (acc : XmlAttributes), name ∉ l.map (fun a => a.1) →
      (l.foldl (fun m a => m.insert a.1 a.2) acc).lookup name = acc.lookup name := by
  intro l
  induction l with
  | nil => intro acc _; rfl
  | cons a l ih =>
    intro acc h
    rw [List.map_cons, List.mem_cons, not_or] at h
    rw [List.foldl_cons, ih _ h.2]
    exact AList.lookup_insert_ne h.1

theorem foldl_insert_lookup_mem (name v : String) :
    ∀ (l : List (String × String)) (acc : XmlAttributes), (l.map fun a => a.1).Nodup →
      (name, v) ∈ l → (l.foldl (fun m a => m.insert a.1 a.2) acc).lookup name = some v := by
  intro l
  induction l with
  | nil => intro acc _ h; cases h
  | cons a l ih =>
    intro acc hnd h
    rw [List.map_cons, List.nodup_cons] at hnd
    rw [List.foldl_cons]
    rcases List.mem_cons.mp h with h | h
    · rw [← h] at hnd
      rw [foldl_insert_lookup_absent name l _ hnd.1, ← h]
      exact AList.lookup_insert acc
    · exact ih _ hnd.2 h

theorem traverse_keys_perm {β : Type} (m : AList fun _ : String => β) :
    ((traverse m).map fun a => a.1).Perm m.keys := by
  have h := (traverse_perm m).map fun a => a.1
  rw [List.map_map] at h
  exact h

theorem traverse_lookup (attrs : XmlAttributes) (name : String) :
    ((traverse attrs).foldl (fun m a => m.insert a.1 a.2) (∅ : XmlAttributes)).lookup name
      = attrs.lookup name := by
  have hkeys := traverse_keys_perm attrs
  cases h : attrs.lookup name with
  | none =>
    have hn : name ∉ attrs.keys := by
      rw [← AList.mem_keys, ← AList.lookup_eq_none]; exact h
    rw [foldl_insert_lookup_absent name _ _ (fun hm => hn (hkeys.subset hm))]
    rfl
  | some v =>
    have hmem : (⟨name, v⟩ : Sigma fun _ : String => String) ∈ attrs.entries :=
      AList.mem_lookup_iff.mp h
    have hmem' : (name, v) ∈ traverse attrs := by
      apply (traverse_perm attrs).symm.subset
      exact List.mem_map.mpr ⟨_, hmem, rfl⟩
    exact foldl_insert_lookup_mem name v _ _ (hkeys.nodup_iff.mpr (AList.keys_nodup _)) hmem'

theorem ToString_node_data (tag text : String) (attrs : XmlAttributes)
    (children : List XmlNode) :
    (XmlParser.ToString.node (.mk tag text attrs children) false).data
      = '<' :: (tag.data ++ ((XmlParser.ToString.attributes (traverse attrs)).data
          ++ (if children.isEmpty ∧ text.isEmpty then ['/', '>']
              else '>' :: (text.data ++ ((XmlParser.ToString.children children false).data
                ++ '<' :: '/' :: (tag.data ++ ['>'])))))) := by
  rw [XmlParser.ToString.node]
  by_cases h : children.isEmpty ∧ text.isEmpty
  · rw [if_pos h, if_pos h]
    simp only [String.data_append, List.append_assoc]
    rfl
  · rw [if_neg h, if_neg h]
    simp only [String.data_append, List.append_assoc]
    rfl

theorem ToString_children_data (child : XmlNode) (children : List XmlNode) :
    (XmlParser.ToString.children (child :: children) false).data
      = (XmlParser.ToString.node child false).data
          ++ (XmlParser.ToString.children children false).data := by
  rw [XmlParser.ToString.children]
  simp only [String.data_append, Bool.false_eq_true, if_false]
  rfl

theorem ToString_node_head (t : XmlNode) (h : t.plain = true) :
    ∃ c more, (XmlParser.ToString.node t false).data = '<' :: c :: more ∧
      c.isAlphanum = true := by
  cases t with
  | mk tag text attrs children =>
    rw [XmlNode.plain] at h
    simp only [Bool.and_eq_true] at h
    obtain ⟨⟨c, cs, hdata, hc⟩, _⟩ := plainName_facts tag h.1.1.1.1.1
    rw [ToString_node_data, hdata]
    exact ⟨c, _, rfl, hc⟩

theorem ParseElement_plain_start (tag : String) (htag : plainName tag = true)
    (l : List (String × String))
    (hl : ∀ a ∈ l, plainName a.1 = true ∧ '"' ∉ a.2.data ∧ '\\' ∉ a.2.data)
    (tail : List Char) (htail : tail.head? = some '>' ∨ tail.head? = some '/')
    (fuel : Nat) (hfuel : l.length + 1 ≤ fuel) :
    XmlParser.ParseElement (fuel + 1)
        ('<' :: (tag.data ++ ((XmlParser.ToString.attributes l).data ++ tail)))
      = (if tail.head? = some '/' then
          some (some (.mk tag "" (l.foldl (fun m a => m.insert a.1 a.2) ∅) []),
            if (tail.drop 1).head? = some '>' then (tail.drop 1).drop 1 else tail.drop 1)
        else
          match XmlParser.ParseElement.children fuel
              (if tail.head? = some '>' then tail.drop 1 else tail) "" [] with
          | none => none
          | some (text_, children_, pos) =>
            some (some (.mk tag text_ (l.foldl (fun m a => m.insert a.1 a.2) ∅) children_),
              pos)) := by
  obtain ⟨⟨c, cs, hdata, hc⟩, hall⟩ := plainName_facts tag htag
  have hnext : ∀ d, ((XmlParser.ToString.attributes l).data ++ tail).head? = some d →
      XmlParser.isTagNameChar d = false := by
    intro d hd
    cases l with
    | nil =>
      have hd' : tail.head? = some d := hd
      rcases htail with h | h <;> rw [h] at hd' <;> cases hd' <;> rfl
    | cons a l =>
      rw [ToString_attributes_data] at hd
      cases hd
      rfl
  have hsplit := takeWhile_dropWhile_stop XmlParser.isTagNameChar tag.data
    ((XmlParser.ToString.attributes l).data ++ tail)
    (fun c hc => alnum_tagNameChar c (hall c hc)) hnext
  have hattrs := attributes_mono_le _ _ hfuel _ _ _ (attributes_plain tail htail l hl ∅)
  rw [XmlParser.ParseElement]
  have hskip : XmlParser.SkipWhitespace
      ('<' :: (tag.data ++ ((XmlParser.ToString.attributes l).data ++ tail)))
      = '<' :: (tag.data ++ ((XmlParser.ToString.attributes l).data ++ tail)) := rfl
  dsimp only
  rw [hskip]
  simp only [List.head?_cons, ne_eq, not_true_eq_false, if_false, List.drop_one, List.tail_cons]
  have hhead : (tag.data ++ ((XmlParser.ToString.attributes l).data ++ tail)).head? = some c := by
    rw [hdata]; rfl
  have htake : ¬ (3 < (tag.data ++ ((XmlParser.ToString.attributes l).data ++ tail)).length ∧
      (tag.data ++ ((XmlParser.ToString.attributes l).data ++ tail)).take 3 = ['!', '-', '-']) := by
    intro h
    have h2 := h.2
    rw [hdata] at h2
    simp only [List.cons_append, List.take_succ_cons, List.cons.injEq] at h2
    exact alnum_ne c '!' hc (by decide) h2.1
  rw [hhead, if_neg (fun h => alnum_ne c '/' hc (by decide) (Option.some.inj h)), if_neg htake]
  unfold XmlParser.ParseTagName
  rw [hsplit.1, hsplit.2]
  dsimp only
  rw [hattrs]

theorem closing_tag_plain (tag : String) (htag : plainName tag = true) (rest : List Char)
    (text : String) (acc : List XmlNode) (fuel : Nat) :
    XmlParser.ParseElement.children (fuel + 1) ('<' :: '/' :: (tag.data ++ '>' :: rest))
        text acc
      = some (text, acc, rest) := by
  obtain ⟨_, hall⟩ := plainName_facts tag htag
  have hsplit := takeWhile_dropWhile_stop XmlParser.isTagNameChar tag.data ('>' :: rest)
    (fun c hc => alnum_tagNameChar c (hall c hc))
    (fun c hc => by cases hc; rfl)
  rw [XmlParser.ParseElement.children]
  have hskip : XmlParser.SkipWhitespace ('<' :: '/' :: (tag.data ++ '>' :: rest))
      = '<' :: '/' :: (tag.data ++ '>' :: rest) := rfl
  dsimp only
  rw [hskip]
  simp only [List.isEmpty_cons, Bool.false_eq_true, if_false, List.head?_cons, if_true,
    List.drop_one, List.tail_cons]
  unfold XmlParser.ParseTagName
  show (some (text, acc,
      if (XmlParser.SkipWhitespace (List.dropWhile XmlParser.isTagNameChar
            (List.drop 2 ('<' :: '/' :: (tag.data ++ '>' :: rest))))).head? = some '>'
        then (XmlParser.SkipWhitespace (List.dropWhile XmlParser.isTagNameChar
            (List.drop 2 ('<' :: '/' :: (tag.data ++ '>' :: rest))))).tail
        else XmlParser.SkipWhitespace (List.dropWhile XmlParser.isTagNameChar
            (List.drop 2 ('<' :: '/' :: (tag.data ++ '>' :: rest))))) : Option _) = _
  have hdrop : List.drop 2 ('<' :: '/' :: (tag.data ++ '>' :: rest)) = tag.data ++ '>' :: rest :=
    rfl
  rw [hdrop, hsplit.2]
  rfl

theorem children_plain (tag : String) (htag : plainName tag = true) (rest : List Char) :
    ∀ (cs : List XmlNode),
      (∀ c ∈ cs, c.plain = true → ∀ rest : List Char, ∃ fuel t', XmlNode.same c t' ∧
        XmlParser.ParseElement fuel ((XmlParser.ToString.node c false).data ++ rest)
          = some (some t', rest)) →
      XmlNode.plainList cs = true →
      ∀ (text : String) (acc : List XmlNode), ∃ fuel cs', XmlNode.sameList cs cs' ∧
        XmlParser.ParseElement.children fuel
            ((XmlParser.ToString.children cs false).data
              ++ '<' :: '/' :: (tag.data ++ '>' :: rest)) text acc
          = some (text, acc ++ cs', rest) := by
  intro cs
  induction cs with
  | nil =>
    intro _ _ text acc
    refine ⟨1, [], ?_, ?_⟩
    · rw [XmlNode.sameList]
    · rw [List.append_nil]
      exact closing_tag_plain tag htag rest text acc 0
  | cons c cs ih =>
    intro hP hplain text acc
    rw [XmlNode.plainList, Bool.and_eq_true] at hplain
    obtain ⟨fuel1, t', hsame, hparse⟩ := hP c (List.mem_cons_self _ _) hplain.1
      ((XmlParser.ToString.children cs false).data ++ '<' :: '/' :: (tag.data ++ '>' :: rest))
    obtain ⟨fuel2, cs', hsames, hrest⟩ := ih (fun d hd => hP d (List.mem_cons_of_mem _ hd))
      hplain.2 text (acc ++ [t'])
    obtain ⟨ch, more, hnode, hch⟩ := ToString_node_head c hplain.1
    refine ⟨max fuel1 fuel2 + 1, t' :: cs', ?_, ?_⟩
    · rw [XmlNode.sameList]
      exact ⟨hsame, hsames⟩
    · have hparse' := ParseElement_mono_le _ _ (Nat.le_max_left fuel1 fuel2) _ _ hparse
      have hrest' := children_mono_le _ _ (Nat.le_max_right fuel1 fuel2) _ _ _ _ hrest
      rw [ToString_children_data, List.append_assoc]
      rw [hnode] at hparse' ⊢
      rw [XmlParser.ParseElement.children]
      have hskip : XmlParser.SkipWhitespace (('<' :: ch :: more)
            ++ ((XmlParser.ToString.children cs false).data
              ++ '<' :: '/' :: (tag.data ++ '>' :: rest)))
          = ('<' :: ch :: more) ++ ((XmlParser.ToString.children cs false).data
              ++ '<' :: '/' :: (tag.data ++ '>' :: rest)) := rfl
      dsimp only
      rw [hskip, hparse']
      simp only [List.cons_append, List.isEmpty_cons, Bool.false_eq_true, if_false,
        List.head?_cons, if_true, List.drop_one, List.tail_cons]
      rw [if_neg (fun h => alnum_ne ch '/' hch (by decide) (Option.some.inj h))]
      simp only [List.cons_append] at hparse'
      rw [hrest', List.append_assoc]
      rfl

theorem SkipWhitespace_fixed_head (c : Char) (l : List Char)
    (h : XmlParser.SkipWhitespace (c :: l) = c :: l) : XmlParser.isWhitespace c = false := by
  unfold XmlParser.SkipWhitespace at h
  rw [List.dropWhile_cons] at h
  cases hc : XmlParser.isWhitespace c with
  | false => rfl
  | true =>
    rw [hc, if_pos rfl] at h
    have hlen := congrArg List.length h
    have hsub : (l.dropWhile XmlParser.isWhitespace).Sublist l :=
      List.dropWhile_sublist XmlParser.isWhitespace
    have hle := hsub.length_le
    rw [List.length_cons] at hlen
    omega

theorem text_then_closing_tag (tag : String) (htag : plainName tag = true) (rest : List Char)
    (text : String) (c : Char) (cs : List Char) (hdata : text.data = c :: cs)
    (hlt : '<' ∉ text.data) (hws : XmlParser.SkipWhitespace text.data = text.data)
    (fuel : Nat) :
    XmlParser.ParseElement.children (fuel + 2)
        (text.data ++ '<' :: '/' :: (tag.data ++ '>' :: rest)) "" []
      = some (text, [], rest) := by
  have hc : XmlParser.isWhitespace c = false := by
    rw [hdata] at hws
    exact SkipWhitespace_fixed_head c cs hws
  have hsplit := takeWhile_dropWhile_stop (fun c => decide (c ≠ '<')) text.data
    ('<' :: '/' :: (tag.data ++ '>' :: rest))
    (fun d hd => decide_eq_true (fun e => hlt (by rw [← e]; exact hd)))
    (fun d hd => by cases hd; rfl)
  have hskip : XmlParser.SkipWhitespace (text.data ++ '<' :: '/' :: (tag.data ++ '>' :: rest))
      = text.data ++ '<' :: '/' :: (tag.data ++ '>' :: rest) := by
    apply SkipWhitespace_head
    intro d hd
    rw [hdata] at hd
    cases hd
    exact hc
  have hne : c ≠ '<' := fun e => hlt (by rw [hdata, e]; exact List.mem_cons_self _ _)
  rw [XmlParser.ParseElement.children]
  dsimp only
  rw [hskip]
  unfold XmlParser.ParseText
  rw [hsplit.1, hsplit.2]
  rw [hdata]
  simp only [List.cons_append, List.isEmpty_cons, Bool.false_eq_true, if_false,
    List.head?_cons, Option.some.injEq]
  rw [if_neg hne, ← hdata]
  exact closing_tag_plain tag htag rest text [] fuel

theorem node_plain : ∀ t : XmlNode, t.plain = true → ∀ rest : List Char,
    ∃ fuel t', XmlNode.same t t' ∧
      XmlParser.ParseElement fuel ((XmlParser.ToString.node t false).data ++ rest)
        = some (some t', rest) := by
  apply XmlNode.induct
  intro tag text attrs children ih hplain rest
  rw [XmlNode.plain] at hplain
  simp only [Bool.and_eq_true, Bool.or_eq_true, decide_eq_true_eq] at hplain
  obtain ⟨⟨⟨⟨⟨htag, hattrs⟩, htextor⟩, hlt⟩, hws⟩, hcs⟩ := hplain
  have hlt' : '<' ∉ text.data := by
    intro hmem
    have : text.data.contains '<' = true := List.elem_eq_true_of_mem hmem
    rw [this] at hlt
    cases hlt
  have hl : ∀ a ∈ traverse attrs,
      plainName a.1 = true ∧ '"' ∉ a.2.data ∧ '\\' ∉ a.2.data := by
    intro a ha
    have ha' := (traverse_perm attrs).subset ha
    obtain ⟨e, he, rfl⟩ := List.mem_map.mp ha'
    have hall := List.all_eq_true.mp hattrs e he
    simp only [Bool.and_eq_true, Bool.not_eq_true'] at hall
    refine ⟨hall.1.1, ?_, ?_⟩
    · intro hmem
      have : e.2.data.contains '"' = true := List.elem_eq_true_of_mem hmem
      rw [this] at hall
      exact absurd hall.1.2 (by decide)
    · intro hmem
      have : e.2.data.contains '\\' = true := List.elem_eq_true_of_mem hmem
      rw [this] at hall
      exact absurd hall.2 (by decide)
  rw [ToString_node_data]
  by_cases hcase : children.isEmpty ∧ text.isEmpty
  · rw [if_pos hcase]
    have htext : text = "" := (isEmpty_iff text).mp hcase.2
    have hchildren : children = [] := List.isEmpty_iff.mp hcase.1
    refine ⟨(traverse attrs).length + 1 + 1,
      .mk tag "" ((traverse attrs).foldl (fun m a => m.insert a.1 a.2) ∅) [], ?_, ?_⟩
    · rw [XmlNode.same, hchildren, XmlNode.sameList]
      exact ⟨rfl, htext, fun name => (traverse_lookup attrs name).symm, rfl⟩
    · have h := ParseElement_plain_start tag htag (traverse attrs) hl ('/' :: '>' :: rest)
        (Or.inr rfl) ((traverse attrs).length + 1) (Nat.le_refl _)
      simp only [List.cons_append, List.append_assoc, List.nil_append]
      rw [h]
      rfl
  · rw [if_neg hcase]
    cases hchildren : children with
    | nil =>
      have htextne : text.data ≠ [] := by
        intro he
        apply hcase
        rw [hchildren]
        refine ⟨rfl, ?_⟩
        have : text = "" := String.ext he
        rw [this]
        rfl
      obtain ⟨c, cs, hdata⟩ := List.exists_cons_of_ne_nil htextne
      refine ⟨(traverse attrs).length + 2 + 1,
        .mk tag text ((traverse attrs).foldl (fun m a => m.insert a.1 a.2) ∅) [], ?_, ?_⟩
      · rw [XmlNode.same, XmlNode.sameList]
        exact ⟨rfl, rfl, fun name => (traverse_lookup attrs name).symm, rfl⟩
      · have h := ParseElement_plain_start tag htag (traverse attrs) hl
          ('>' :: (text.data ++ '<' :: '/' :: (tag.data ++ '>' :: rest)))
          (Or.inl rfl) ((traverse attrs).length + 2) (by omega)
        have hdataeq : (XmlParser.ToString.children [] false).data = [] := by
          rw [XmlParser.ToString.children]
        rw [hdataeq]
        simp only [List.cons_append, List.append_assoc, List.nil_append]
        rw [h]
        simp only [List.head?_cons, Option.some.injEq, if_true, List.drop_one, List.tail_cons]
        rw [if_neg (by decide)]
        rw [text_then_closing_tag tag htag rest text c cs hdata hlt' hws]
    | cons child children' =>
      rw [← hchildren]
      have htext : text = "" := by
        rcases htextor with h | h
        · apply String.ext
          exact List.isEmpty_iff.mp h
        · rw [hchildren] at h
          cases h
      obtain ⟨fuelc, cs', hsames, hparse⟩ := children_plain tag htag rest children ih hcs "" []
      refine ⟨max ((traverse attrs).length + 1) fuelc + 1,
        .mk tag "" ((traverse attrs).foldl (fun m a => m.insert a.1 a.2) ∅) cs', ?_, ?_⟩
      · rw [XmlNode.same]
        exact ⟨rfl, htext, fun name => (traverse_lookup attrs name).symm, hsames⟩
      · have h := ParseElement_plain_start tag htag (traverse attrs) hl
          ('>' :: ((XmlParser.ToString.children children false).data
            ++ '<' :: '/' :: (tag.data ++ '>' :: rest)))
          (Or.inl rfl) (max ((traverse attrs).length + 1) fuelc) (Nat.le_max_left _ _)
        have hparse' := children_mono_le _ _
          (Nat.le_max_right ((traverse attrs).length + 1) fuelc) _ _ _ _ hparse
        rw [htext]
        have hempty : ("" : String).data = [] := rfl
        rw [hempty]
        simp only [List.cons_append, List.append_assoc, List.nil_append]
        rw [h]
        simp only [List.head?_cons, Option.some.injEq, if_true, List.drop_one, List.tail_cons]
        rw [if_neg (by decide)]
        rw [hparse']
        rfl

/-- C38: for every tree whose tag and attribute names are not empty and made of letters
and digits, whose attribute values contain neither a double quote nor a backslash, and
whose texts are not empty only on nodes without children, contain no `<` and do not begin
with whitespace, `Parse` returns on the text that `ToString` writes without line breaks
(with enough fuel, and then with any larger amount), and the tree it returns has the same
tag names, texts, attributes and children, in the same order. -/
theorem C38_parse_reads_back_the_text_of_a_tree (t : XmlNode) (h : t.plain = true) :
    ∃ t', XmlNode.same t t' ∧ ∃ fuel, ∀ more,
      XmlParser.Parse (fuel + more) (XmlParser.ToString (some t) false) = some (some t') := by
  obtain ⟨fuel, t', hsame, hparse⟩ := node_plain t h []
  rw [List.append_nil] at hparse
  obtain ⟨c, rest, hdata, hc⟩ := ToString_node_head t h
  refine ⟨t', hsame, fuel, ?_⟩
  intro more
  have hparse' := ParseElement_mono_le fuel (fuel + more) (Nat.le_add_right _ _) _ _ hparse
  unfold XmlParser.Parse
  show Option.map _ (XmlParser.ParseElement (fuel + more)
    (if (XmlParser.SkipWhitespace (XmlParser.ToString.node t false).data).head? = some '<' ∧
        1 < (XmlParser.SkipWhitespace (XmlParser.ToString.node t false).data).length ∧
        (List.drop 1 (XmlParser.SkipWhitespace
          (XmlParser.ToString.node t false).data)).head? = some '?'
      then XmlParser.SkipWhitespace (XmlParser.ParseDeclaration
        (XmlParser.SkipWhitespace (XmlParser.ToString.node t false).data))
      else XmlParser.SkipWhitespace (XmlParser.ToString.node t false).data)) = _
  have hskip : XmlParser.SkipWhitespace (XmlParser.ToString.node t false).data
      = (XmlParser.ToString.node t false).data := by
    rw [hdata]
    rfl
  rw [hskip, if_neg, hparse']
  · rfl
  · intro hcond
    have h3 := hcond.2.2
    rw [hdata] at h3
    exact alnum_ne c '?' hc (by decide) (Option.some.inj h3)

set_option maxRecDepth 100000 in
/-- C38 for a catalog response held as a tree with an attribute on one element and two
attributes on another. -/
theorem C38_parse_reads_back_the_text_of_a_tree_witness :
    ∃ t', XmlNode.same sampleTree t' ∧ ∃ fuel, ∀ more,
      XmlParser.Parse (fuel + more) (XmlParser.ToString (some sampleTree) false)
        = some (some t') :=
  C38_parse_reads_back_the_text_of_a_tree sampleTree (by decide!)
/-! ## Operations addressed to one session -/

/-- C39: an operation addressed to a session id that is not in the map returns `false`
(where it returns a value) and leaves the manager as it is, so that no event is emitted
and every stored session and the session count are unchanged; and whether the id is in
the map or not, each operation leaves every session with another id as it was. -/
theorem C39_operations_touch_only_the_addressed_session (self : MediaSessionManager)
    (now : Int) (id id' : String) (st : SessionState) (v a : Int) (vs as_ : Nat) :
    (self.GetSession id = none →
      self.UpdateSessionState now id st = (self, false) ∧
      self.SetLocalPorts now id v a = (self, false) ∧
      self.SetRemotePorts now id v a = (self, false) ∧
      self.SetSsrc now id vs as_ = (self, false) ∧
      self.TerminateSession now id = (self, false) ∧
      self.UpdateActivity now id = self) ∧
    (id' ≠ id →
      (self.UpdateSessionState now id st).1.GetSession id' = self.GetSession id' ∧
      (self.SetLocalPorts now id v a).1.GetSession id' = self.GetSession id' ∧
      (self.SetRemotePorts now id v a).1.GetSession id' = self.GetSession id' ∧
      (self.SetSsrc now id vs as_).1.GetSession id' = self.GetSession id' ∧
      (self.TerminateSession now id).1.GetSession id' = self.GetSession id' ∧
      (self.UpdateActivity now id).GetSession id' = self.GetSession id') := by
  constructor
  · intro h
    have hl : self.sessions_.lookup id = none := h
    refine ⟨?_, ?_, ?_, ?_, ?_, ?_⟩
    · unfold MediaSessionManager.UpdateSessionState; rw [hl]
    · unfold MediaSessionManager.SetLocalPorts; rw [hl]
    · unfold MediaSessionManager.SetRemotePorts; rw [hl]
    · unfold MediaSessionManager.SetSsrc; rw [hl]
    · unfold MediaSessionManager.TerminateSession; rw [hl]
    · unfold MediaSessionManager.UpdateActivity; rw [hl]
  · intro h
    refine ⟨?_, ?_, ?_, ?_, ?_, ?_⟩
    · rw [UpdateSessionState_lookup, if_neg h]
    · rw [SetLocalPorts_lookup, if_neg h]
    · rw [SetRemotePorts_lookup, if_neg h]
    · rw [SetSsrc_lookup, if_neg h]
    · rw [TerminateSession_lookup, if_neg h]
    · rw [UpdateActivity_lookup, if_neg h]

/-- C39 on the manager that holds the one session `call-1`: operations addressed to
`call-2` fail and change nothing, and `call-1` is as it was. -/
theorem C39_operations_touch_only_the_addressed_session_witness :
    (oneSessionManager.UpdateSessionState 5 "call-2" .ESTABLISHED = (oneSessionManager, false) ∧
      oneSessionManager.SetLocalPorts 5 "call-2" 50000 50002 = (oneSessionManager, false) ∧
      oneSessionManager.SetRemotePorts 5 "call-2" 50000 50002 = (oneSessionManager, false) ∧
      oneSessionManager.SetSsrc 5 "call-2" 7 9 = (oneSessionManager, false) ∧
      oneSessionManager.TerminateSession 5 "call-2" = (oneSessionManager, false) ∧
      oneSessionManager.UpdateActivity 5 "call-2" = oneSessionManager) ∧
    ((oneSessionManager.UpdateSessionState 5 "call-2" .ESTABLISHED).1.GetSession "call-1"
        = oneSessionManager.GetSession "call-1" ∧
      (oneSessionManager.SetLocalPorts 5 "call-2" 50000 50002).1.GetSession "call-1"
        = oneSessionManager.GetSession "call-1" ∧
      (oneSessionManager.SetRemotePorts 5 "call-2" 50000 50002).1.GetSession "call-1"
        = oneSessionManager.GetSession "call-1" ∧
      (oneSessionManager.SetSsrc 5 "call-2" 7 9).1.GetSession "call-1"
        = oneSessionManager.GetSession "call-1" ∧
      (oneSessionManager.TerminateSession 5 "call-2").1.GetSession "call-1"
        = oneSessionManager.GetSession "call-1" ∧
      (oneSessionManager.UpdateActivity 5 "call-2").GetSession "call-1"
        = oneSessionManager.GetSession "call-1") :=
  have h := C39_operations_touch_only_the_addressed_session oneSessionManager 5 "call-2"
    "call-1" .ESTABLISHED 50000 50002 7 9
  ⟨h.1 (by decide), h.2 (by decide)⟩
/-! ## Properties of the record manager -/

set_option maxRecDepth 100000 in
/-- C40: the manager holds the record of 2 January and, added after it, the record of
1 January; both pass the query for all records.  Without a limit the ascending query
returns the record of 1 January first, but with `maxResults = 1` it returns the record of
2 January, the first stored one, as the query without an order does.  With a record of
3 January added last, the descending query with `maxResults = 1` returns the record of
2 January as well, while the first record in descending order is that of 3 January: the
limit ends the scan of the stored records before the results are sorted. -/
theorem C40_limit_is_applied_before_the_sort :
    twoRecordManager.records_ = [hourRecord "02", hourRecord "01"] ∧
    twoRecordManager.QueryRecords (allRecords 0 "asc") = [hourRecord "01", hourRecord "02"] ∧
    twoRecordManager.QueryRecords (allRecords 1 "asc") = [hourRecord "02"] ∧
    twoRecordManager.QueryRecords (allRecords 1 "") = [hourRecord "02"] ∧
    (twoRecordManager.AddRecord (hourRecord "03")).QueryRecords (allRecords 0 "desc")
      = [hourRecord "03", hourRecord "02", hourRecord "01"] ∧
    (twoRecordManager.AddRecord (hourRecord "03")).QueryRecords (allRecords 1 "desc")
      = [hourRecord "02"] := by
  refine ⟨?_, ?_, ?_, ?_, ?_, ?_⟩ <;> decide!

/-! ## The initial REGISTER carries no credentials -/

end gb28181
